import Mathlib

/-!
# Transition engine of the pool service

A shallow embedding of `service.takeWith` (src/app/pool/core.go) together with the
term algebra of src/internal/step/core.go and the process model of
src/internal/proc/core.go, followed by theorems about the engine.

Conventions of the embedding:

* Go maps are association lists read with `List.lookup` (first entry of a key wins).
* A nil interface value is `none` (`Option Term`, `Option Root`, ...); the nil placeholder
  is `PH.nil`.
* `takeWith` returns `Except Panic (TranSpec × proc.Mod × Option Err)`: `.error` is a Go
  panic, `.ok (next, mod, err)` is the returned triple.
* `id.New()` is an oracle `newID : Nat → ID`; the k-th call inside one invocation of
  `takeWith` yields `newID k`.
-/

namespace Orglang

/-- Modelled from the spec: `id.ADT` (lib/id is not part of the sources) is an opaque
identifier compared by equality only. -/
abbrev ID := Nat

/-- Modelled from the spec: the designated nil value `id.Nil`, also taken as the zero value
of `id.ADT`. -/
def idNil : ID := 0

/-- Modelled from the spec: `rev.ADT` (lib/rev is not part of the sources) is a signed
integer. -/
abbrev Rev := Int

/-- Modelled from the spec: `sym.ADT` (lib/sym is not part of the sources) is a symbolic
name. -/
abbrev Sym := String

/-- Labels `core.Label` are strings (`core.Label("label-1")` in the tests). -/
abbrev Label := String

/-- Modelled from the spec: a placeholder `ph.ADT` is a symbolic name or a concrete channel
ID; `PH.nil` is the nil interface value. -/
inductive PH where
  | nil
  | id (i : ID)
  | sym (s : Sym)
deriving DecidableEq, Repr

namespace pol

/-- Polarity `pol.ADT` is an `int8`; only the three named values are distinguished. -/
abbrev ADT := Int

def Pos : ADT := 1
def Zero : ADT := 0
def Neg : ADT := -1

end pol

namespace step

/-- Every struct of src/internal/step/core.go that implements `Term` (has `Via()`). A nil
`Term` is `none` in the field that holds it. -/
inductive Term where
  | CloseSpec (X : PH)
  | WaitSpec (X : PH) (Cont : Option Term)
  | SendSpec (X : PH) (Y : PH)
  | RecvSpec (X : PH) (Y : PH) (Cont : Option Term)
  | LabSpec (X : PH) (L : Label)
  | CaseSpec (X : PH) (Conts : List (Label × Option Term))
  | CTASpec (AK : String) (Sig : ID)
  | LinkSpec (PE : ID) (CEs : List ID) (Sig : Sym)
  | FwdSpec (X : PH) (Y : PH)
  | SpawnSpec (X : PH) (Ys : List PH) (Ys2 : List ID) (SigID : ID) (PoolQN : Sym)
      (Cont : Option Term)
  | CloseImpl (X : PH)
  | WaitImpl (X : PH) (Cont : Option Term)
  | SendImpl (X : PH) (A : ID) (B : ID)
  | RecvImpl (X : PH) (A : ID) (Y : PH) (Cont : Option Term)
  | LabImpl (X : PH) (A : ID) (L : Label)
  | CaseImpl (X : PH) (A : ID) (Conts : List (Label × Option Term))
  | FwdImpl (X : PH) (B : ID)

/-- The method `Via()` of each term. -/
def Term.Via : Term → PH
  | .CloseSpec X => X
  | .WaitSpec X _ => X
  | .SendSpec X _ => X
  | .RecvSpec X _ _ => X
  | .LabSpec X _ => X
  | .CaseSpec X _ => X
  | .CTASpec _ Sig => PH.id Sig
  | .LinkSpec PE _ _ => PH.id PE
  | .FwdSpec X _ => X
  | .SpawnSpec X _ _ _ _ _ => X
  | .CloseImpl X => X
  | .WaitImpl X _ => X
  | .SendImpl X _ _ => X
  | .RecvImpl X _ _ _ => X
  | .LabImpl X _ _ => X
  | .CaseImpl X _ _ => X
  | .FwdImpl X _ => X

/-- Interface `Val`: the impls that have `val2()`. -/
inductive Val where
  | CloseImpl (X : PH)
  | SendImpl (X : PH) (A : ID) (B : ID)
  | LabImpl (X : PH) (A : ID) (L : Label)
  | FwdImpl (X : PH) (B : ID)

/-- Interface `Cont`: the impls that have `cont2()`. -/
inductive Cont where
  | WaitImpl (X : PH) (Cont : Option Term)
  | RecvImpl (X : PH) (A : ID) (Y : PH) (Cont : Option Term)
  | CaseImpl (X : PH) (A : ID) (Conts : List (Label × Option Term))
  | FwdImpl (X : PH) (B : ID)

/-- Conversion of a `Val` to the `Term` it is. -/
def Val.toTerm : Val → Term
  | .CloseImpl X => .CloseImpl X
  | .SendImpl X A B => .SendImpl X A B
  | .LabImpl X A L => .LabImpl X A L
  | .FwdImpl X B => .FwdImpl X B

/-- Conversion of a `Cont` to the `Term` it is. -/
def Cont.toTerm : Cont → Term
  | .WaitImpl X c => .WaitImpl X c
  | .RecvImpl X A Y c => .RecvImpl X A Y c
  | .CaseImpl X A cs => .CaseImpl X A cs
  | .FwdImpl X B => .FwdImpl X B

def Val.Via (v : Val) : PH := v.toTerm.Via

def Cont.Via (c : Cont) : PH := c.toTerm.Via

structure MsgRoot2 where
  PoolID : ID
  ProcID : ID
  ChnlID : ID
  Val : Option Val
  Rev : Rev

structure SvcRoot2 where
  PoolID : ID
  ProcID : ID
  ChnlID : ID
  Cont : Option Cont
  Rev : Rev

/-- Interface `Root`: the structs with `step() chnl.ID`. The payloads of the first
generation (`ProcRoot`, `MsgRoot`, `SrvRoot`) are never inspected by the engine; their
`Value`/`Continuation` fields are kept as terms. -/
inductive Root where
  | ProcRoot (ID : Orglang.ID) (PID : Orglang.ID) (Term : Option Term)
  | MsgRoot (ID : Orglang.ID) (PID : Orglang.ID) (VID : Orglang.ID) (Val : Option Term)
  | MsgRoot2 (r : MsgRoot2)
  | SrvRoot (ID : Orglang.ID) (PID : Orglang.ID) (VID : Orglang.ID) (Cont : Option Term)
  | SvcRoot2 (r : SvcRoot2)

/-- The function `ChnlID(r Root)`, that is `r.step()`. -/
def ChnlID : Root → ID
  | .ProcRoot _ PID _ => PID
  | .MsgRoot _ _ VID _ => VID
  | .MsgRoot2 r => r.ChnlID
  | .SrvRoot _ _ VID _ => VID
  | .SvcRoot2 r => r.ChnlID

/-- Reading `Conts[l]` of a `map[core.Label]Term`: a missing key reads as the nil term. -/
def contsAt (Conts : List (Label × Option Term)) (l : Label) : Option Term :=
  (Conts.lookup l).join

/-- The six terms that rendezvous with a partner step on their via channel: Close, Wait,
Send, Recv, Lab and Case. -/
def Term.isPaired : Term → Bool
  | .CloseSpec _ => true
  | .WaitSpec _ _ => true
  | .SendSpec _ _ => true
  | .RecvSpec _ _ _ => true
  | .LabSpec _ _ => true
  | .CaseSpec _ _ => true
  | _ => false

/-- The term is a `FwdSpec`. -/
def Term.isFwd : Term → Bool
  | .FwdSpec _ _ => true
  | _ => false

end step

namespace state

/-- Modelled from the spec: the two dispatch shapes of a state (package internal/state is
not part of the sources). `Prod` is a linear product whose `.Next()` yields the continuation
state, `Sum` a labelled sum whose `.Next(label)` yields the selected branch; any other state
has neither method. -/
inductive Shape where
  | Prod (Next : ID)
  | Sum (Next : Label → ID)
  | Other

/-- Modelled from the spec: a state `state.Root` has an identity `Ident()`, a polarity
`Pol()` and one of the dispatch shapes. -/
structure Root where
  Ident : ID
  Pol : pol.ADT
  Shape : Shape

/-- The linear context `state.Context`, as the engine reads it: a map from placeholder to
state (a key may hold the nil state). -/
structure Context where
  Linear : List (PH × Option Root)

end state

namespace proc

structure Chnl where
  ChnlPH : PH
  ChnlID : ID
  StateID : ID
  PoolID : ID
deriving DecidableEq, Repr

/-- The process configuration `proc.Snap`. A key of `Steps` may hold the nil step. -/
structure Snap where
  ProcID : ID
  Chnls : List (PH × Chnl)
  Steps : List (ID × Option step.Root)
  PoolID : ID
  Rev : Rev

structure Lock where
  PoolID : ID
  Rev : Rev
deriving DecidableEq, Repr

structure Liab where
  ProcID : ID
  PoolID : ID
  Rev : Rev
deriving DecidableEq, Repr

structure Bnd where
  ProcID : ID
  ChnlPH : PH
  ChnlID : ID
  StateID : ID
  Rev : Rev
deriving DecidableEq, Repr

structure Mod where
  Locks : List Lock
  Bnds : List Bnd
  Steps : List step.Root
  Liabs : List Liab

/-- The zero value `proc.Mod{}`. -/
def Mod.zero : Mod := { Locks := [], Bnds := [], Steps := [], Liabs := [] }

end proc

namespace sig

/-- Modelled from the spec: an endpoint of a signature, read by the engine through
`ChnlPH` and `RoleQN` (package app/sig is not part of the sources). -/
structure EP where
  ChnlPH : PH
  RoleQN : Sym

/-- Modelled from the spec: a channel spec `chnl.Spec` with its `Key` and role `Link`. -/
structure ChnlSpec where
  Key : String
  Link : Sym

/-- Modelled from the spec: a signature `sig.Root` with provider endpoint `X` and client
endpoints `Ys` (and their second-generation forms `X2`, `Ys2`). -/
structure Root where
  X : EP
  Ys : List EP
  X2 : ChnlSpec
  Ys2 : List ChnlSpec

end sig

namespace role

/-- Modelled from the spec: a role `role.Root` names a state. -/
structure Root where
  StateID : ID

end role

namespace pool

structure TranSpec where
  PoolID : ID
  ProcID : ID
  Term : Option step.Term

/-- The zero value `TranSpec{}`. -/
def TranSpec.zero : TranSpec := { PoolID := idNil, ProcID := idNil, Term := none }

structure Environment where
  Sigs : List (ID × sig.Root)
  Roles : List (Sym × role.Root)
  States : List (ID × Option state.Root)
  Locks : List (Sym × proc.Lock)

/-- The errors the engine and the repo return, one constructor per error function;
`portErr` is any other error that a port (repo) returns. -/
inductive Err where
  | chnlErrMissingInCfg (want : PH)
  | stepErrMissingInCfg (want : PH)
  | stateErrMissingInCtx (want : PH)
  | procErrMissingChnl (want : PH)
  | errMissingPool (want : Sym)
  | errMissingSig (want : ID)
  | errMissingRole (want : Sym)
  | errOptimisticUpdate (got : Rev)
  | portErr (msg : String)
deriving DecidableEq, Repr

/-- The ways the engine panics: the explicit `panic(...)` calls, a failed type assertion
`x.(T)`, a method call on a nil interface, an index out of range, and
`panic("no via in proc snap")` of `checkState`. -/
inductive Panic where
  | ErrRootTypeUnexpected
  | ErrContTypeUnexpected2
  | ErrValTypeUnexpected2
  | ErrTermTypeUnexpected
  | ErrPolarityUnexpected
  | typeAssertion
  | nilDereference
  | indexOutOfRange
  | noViaInProcSnap
deriving DecidableEq, Repr

/-- What `takeWith` does: panic, or return `(tranSpec, procMod, err)`. -/
abbrev Res := Except Panic (TranSpec × proc.Mod × Option Err)

/-- The statement `return TranSpec{}, proc.Mod{}, err`. -/
def failWith (err : Err) : Res := .ok (TranSpec.zero, proc.Mod.zero, some err)

/-- The expression `viaState.(state.Prod).Next()`. -/
def prodNext : Option state.Root → Except Panic ID
  | some { Shape := .Prod n, .. } => .ok n
  | _ => .error .typeAssertion

/-- The expression `viaState.(state.Sum).Next(l)`. -/
def sumNext (l : Label) : Option state.Root → Except Panic ID
  | some { Shape := .Sum f, .. } => .ok (f l)
  | _ => .error .typeAssertion

/-- The arm `case step.CloseSpec` of `takeWith`. -/
def takeWithCloseSpec (procCfg : proc.Snap) (X : PH) : Res :=
  let tranSpec := TranSpec.zero
  let procMod := proc.Mod.zero
  match procCfg.Chnls.lookup X with
  | none => failWith (.chnlErrMissingInCfg X)
  | some viaChnl =>
    let sndrLock : proc.Lock := { PoolID := procCfg.PoolID, Rev := procCfg.Rev }
    let procMod := { procMod with Locks := procMod.Locks ++ [sndrLock] }
    match procCfg.Steps.lookup viaChnl.ChnlID with
    | none => failWith (.stepErrMissingInCfg (PH.id viaChnl.ChnlID))
    | some rcvrStep =>
      let sndrViaBnd : proc.Bnd :=
        { ChnlPH := X, ChnlID := viaChnl.ChnlID, StateID := viaChnl.StateID,
          ProcID := procCfg.ProcID, Rev := -procCfg.Rev - 1 }
      let procMod := { procMod with Bnds := procMod.Bnds ++ [sndrViaBnd] }
      match rcvrStep with
      | none =>
        let sndrStep : step.MsgRoot2 :=
          { PoolID := procCfg.PoolID, ProcID := procCfg.ProcID, ChnlID := viaChnl.ChnlID,
            Rev := procCfg.Rev + 1, Val := some (step.Val.CloseImpl X) }
        let procMod := { procMod with Steps := procMod.Steps ++ [step.Root.MsgRoot2 sndrStep] }
        .ok (tranSpec, procMod, none)
      | some (.SvcRoot2 svcStep) =>
        match svcStep.Cont with
        | some (.WaitImpl _ Cont) =>
          let tranSpec : TranSpec :=
            { PoolID := svcStep.PoolID, ProcID := svcStep.ProcID, Term := Cont }
          .ok (tranSpec, procMod, none)
        | _ => .error .ErrContTypeUnexpected2
      | some _ => .error .ErrRootTypeUnexpected

/-- The arm `case step.WaitSpec` of `takeWith`. -/
def takeWithWaitSpec (procCfg : proc.Snap) (X : PH) (Cont : Option step.Term) : Res :=
  let tranSpec := TranSpec.zero
  let procMod := proc.Mod.zero
  match procCfg.Chnls.lookup X with
  | none => failWith (.chnlErrMissingInCfg X)
  | some viaChnl =>
    let rcvrLock : proc.Lock := { PoolID := procCfg.PoolID, Rev := procCfg.Rev }
    let procMod := { procMod with Locks := procMod.Locks ++ [rcvrLock] }
    match procCfg.Steps.lookup viaChnl.ChnlID with
    | none => failWith (.stepErrMissingInCfg (PH.id viaChnl.ChnlID))
    | some none =>
      let rcvrViaBnd : proc.Bnd :=
        { ProcID := procCfg.ProcID, ChnlPH := X, ChnlID := viaChnl.ChnlID,
          StateID := viaChnl.StateID, Rev := -procCfg.Rev - 1 }
      let procMod := { procMod with Bnds := procMod.Bnds ++ [rcvrViaBnd] }
      let rcvrStep : step.SvcRoot2 :=
        { PoolID := procCfg.PoolID, ProcID := procCfg.ProcID, ChnlID := viaChnl.ChnlID,
          Cont := some (step.Cont.WaitImpl X Cont), Rev := 0 }
      let procMod := { procMod with Steps := procMod.Steps ++ [step.Root.SvcRoot2 rcvrStep] }
      .ok (tranSpec, procMod, none)
    | some (some (.MsgRoot2 msgStep)) =>
      match msgStep.Val with
      | some (.CloseImpl _) =>
        let rcvrViaBnd : proc.Bnd :=
          { ProcID := procCfg.ProcID, ChnlPH := X, ChnlID := viaChnl.ChnlID,
            StateID := viaChnl.StateID, Rev := -procCfg.Rev - 1 }
        let procMod := { procMod with Bnds := procMod.Bnds ++ [rcvrViaBnd] }
        let tranSpec : TranSpec :=
          { PoolID := procCfg.PoolID, ProcID := procCfg.ProcID, Term := Cont }
        .ok (tranSpec, procMod, none)
      | some (.FwdImpl _ B) =>
        let rcvrViaBnd : proc.Bnd :=
          { ProcID := procCfg.ProcID, ChnlPH := X, ChnlID := B,
            StateID := viaChnl.StateID, Rev := procCfg.Rev + 1 }
        let procMod := { procMod with Bnds := procMod.Bnds ++ [rcvrViaBnd] }
        let tranSpec : TranSpec :=
          { PoolID := procCfg.PoolID, ProcID := procCfg.ProcID,
            Term := some (step.Term.WaitSpec X Cont) }
        .ok (tranSpec, procMod, none)
      | _ => .error .ErrValTypeUnexpected2
    | some (some _) => .error .ErrRootTypeUnexpected

/-- The arm `case step.SendSpec` of `takeWith`. -/
def takeWithSendSpec (newID : Nat → ID) (procCtx : state.Context) (procCfg : proc.Snap)
    (X Y : PH) : Res :=
  let tranSpec := TranSpec.zero
  let procMod := proc.Mod.zero
  match procCfg.Chnls.lookup X with
  | none => failWith (.chnlErrMissingInCfg X)
  | some viaChnl =>
    let sndrLock : proc.Lock := { PoolID := procCfg.PoolID, Rev := procCfg.Rev }
    let procMod := { procMod with Locks := procMod.Locks ++ [sndrLock] }
    match procCfg.Steps.lookup viaChnl.ChnlID with
    | none => failWith (.stepErrMissingInCfg (PH.id viaChnl.ChnlID))
    | some rcvrStep =>
      match procCfg.Chnls.lookup Y with
      | none => failWith (.chnlErrMissingInCfg Y)
      | some valChnl =>
        let sndrValBnd : proc.Bnd :=
          { ProcID := procCfg.ProcID, ChnlPH := Y, ChnlID := idNil, StateID := idNil,
            Rev := -procCfg.Rev - 1 }
        let procMod := { procMod with Bnds := procMod.Bnds ++ [sndrValBnd] }
        match rcvrStep with
        | none =>
          let sndrStep : step.MsgRoot2 :=
            { PoolID := procCfg.PoolID, ProcID := procCfg.ProcID, ChnlID := viaChnl.ChnlID,
              Rev := procCfg.Rev,
              Val := some (step.Val.SendImpl X (newID 0) valChnl.ChnlID) }
          let procMod :=
            { procMod with Steps := procMod.Steps ++ [step.Root.MsgRoot2 sndrStep] }
          .ok (tranSpec, procMod, none)
        | some (.SvcRoot2 svcStep) =>
          match procCtx.Linear.lookup X with
          | none => failWith (.stateErrMissingInCtx X)
          | some viaState =>
            match prodNext viaState with
            | .error p => .error p
            | .ok viaStateID =>
              match svcStep.Cont with
              | some (.RecvImpl implX implA implY implCont) =>
                let rcvrViaBnd : proc.Bnd :=
                  { ProcID := svcStep.ProcID, ChnlPH := implX, ChnlID := implA,
                    StateID := viaStateID, Rev := svcStep.Rev + 1 }
                let procMod := { procMod with Bnds := procMod.Bnds ++ [rcvrViaBnd] }
                let sndrViaBnd : proc.Bnd :=
                  { ProcID := procCfg.ProcID, ChnlPH := X, ChnlID := implA,
                    StateID := viaStateID, Rev := procCfg.Rev + 1 }
                let procMod := { procMod with Bnds := procMod.Bnds ++ [sndrViaBnd] }
                let rcvrValBnd : proc.Bnd :=
                  { ProcID := svcStep.ProcID, ChnlPH := implY, ChnlID := valChnl.ChnlID,
                    StateID := valChnl.StateID, Rev := svcStep.Rev + 1 }
                let procMod := { procMod with Bnds := procMod.Bnds ++ [rcvrValBnd] }
                let tranSpec : TranSpec :=
                  { PoolID := svcStep.PoolID, ProcID := svcStep.ProcID, Term := implCont }
                .ok (tranSpec, procMod, none)
              | _ => .error .ErrContTypeUnexpected2
        | some _ => .error .ErrRootTypeUnexpected

/-- The arm `case step.RecvSpec` of `takeWith`. -/
def takeWithRecvSpec (newID : Nat → ID) (procCtx : state.Context) (procCfg : proc.Snap)
    (X Y : PH) (Cont : Option step.Term) : Res :=
  let tranSpec := TranSpec.zero
  let procMod := proc.Mod.zero
  match procCfg.Chnls.lookup X with
  | none => failWith (.chnlErrMissingInCfg X)
  | some viaChnl =>
    let rcvrLock : proc.Lock := { PoolID := procCfg.PoolID, Rev := procCfg.Rev }
    let procMod := { procMod with Locks := procMod.Locks ++ [rcvrLock] }
    match procCfg.Steps.lookup viaChnl.ChnlID with
    | none => failWith (.stepErrMissingInCfg (PH.id viaChnl.ChnlID))
    | some none =>
      let rcvrStep : step.SvcRoot2 :=
        { PoolID := procCfg.PoolID, ProcID := procCfg.ProcID, ChnlID := viaChnl.ChnlID,
          Rev := procCfg.Rev,
          Cont := some (step.Cont.RecvImpl X (newID 0) PH.nil Cont) }
      let procMod := { procMod with Steps := procMod.Steps ++ [step.Root.SvcRoot2 rcvrStep] }
      .ok (tranSpec, procMod, none)
    | some (some (.MsgRoot2 msgStep)) =>
      match procCtx.Linear.lookup X with
      | none => failWith (.stateErrMissingInCtx X)
      | some viaState =>
        match prodNext viaState with
        | .error p => .error p
        | .ok viaStateID =>
          match procCtx.Linear.lookup Y with
          | none => failWith (.stateErrMissingInCtx Y)
          | some valState =>
            match msgStep.Val with
            | some (.SendImpl implX implA implB) =>
              let sndrViaBnd : proc.Bnd :=
                { ProcID := msgStep.ProcID, ChnlPH := implX, ChnlID := implA,
                  StateID := viaStateID, Rev := msgStep.Rev + 1 }
              let procMod := { procMod with Bnds := procMod.Bnds ++ [sndrViaBnd] }
              let rcvrViaBnd : proc.Bnd :=
                { ProcID := procCfg.ProcID, ChnlPH := X, ChnlID := implA,
                  StateID := viaStateID, Rev := procCfg.Rev + 1 }
              let procMod := { procMod with Bnds := procMod.Bnds ++ [rcvrViaBnd] }
              match valState with
              | none => .error .nilDereference
              | some vs =>
                let rcvrValBnd : proc.Bnd :=
                  { ProcID := procCfg.ProcID, ChnlPH := Y, ChnlID := implB,
                    StateID := vs.Ident, Rev := procCfg.Rev + 1 }
                let procMod := { procMod with Bnds := procMod.Bnds ++ [rcvrValBnd] }
                let tranSpec : TranSpec :=
                  { PoolID := procCfg.PoolID, ProcID := procCfg.ProcID, Term := Cont }
                .ok (tranSpec, procMod, none)
            | _ => .error .ErrValTypeUnexpected2
    | some (some _) => .error .ErrRootTypeUnexpected

/-- The arm `case step.LabSpec` of `takeWith`. -/
def takeWithLabSpec (newID : Nat → ID) (procCtx : state.Context) (procCfg : proc.Snap)
    (X : PH) (L : Label) : Res :=
  let tranSpec := TranSpec.zero
  let procMod := proc.Mod.zero
  match procCfg.Chnls.lookup X with
  | none => failWith (.chnlErrMissingInCfg X)
  | some viaChnl =>
    let sndrLock : proc.Lock := { PoolID := procCfg.PoolID, Rev := procCfg.Rev }
    let procMod := { procMod with Locks := procMod.Locks ++ [sndrLock] }
    match procCfg.Steps.lookup viaChnl.ChnlID with
    | none => failWith (.stepErrMissingInCfg (PH.id viaChnl.ChnlID))
    | some rcvrStep =>
      match procCtx.Linear.lookup X with
      | none => failWith (.stateErrMissingInCtx X)
      | some viaState =>
        match sumNext L viaState with
        | .error p => .error p
        | .ok viaStateID =>
          match rcvrStep with
          | none =>
            let sndrViaBnd : proc.Bnd :=
              { ProcID := procCfg.ProcID, ChnlPH := X, ChnlID := newID 0,
                StateID := viaStateID, Rev := procCfg.Rev + 1 }
            let procMod := { procMod with Bnds := procMod.Bnds ++ [sndrViaBnd] }
            let sndrStep : step.MsgRoot2 :=
              { PoolID := procCfg.PoolID, ProcID := procCfg.ProcID, ChnlID := viaChnl.ChnlID,
                Rev := procCfg.Rev + 1,
                Val := some (step.Val.LabImpl X sndrViaBnd.ChnlID L) }
            let procMod :=
              { procMod with Steps := procMod.Steps ++ [step.Root.MsgRoot2 sndrStep] }
            .ok (tranSpec, procMod, none)
          | some (.SvcRoot2 svcStep) =>
            match svcStep.Cont with
            | some (.CaseImpl implX implA implConts) =>
              let rcvrViaBnd : proc.Bnd :=
                { ProcID := svcStep.ProcID, ChnlPH := implX, ChnlID := implA,
                  StateID := viaStateID, Rev := svcStep.Rev + 1 }
              let procMod := { procMod with Bnds := procMod.Bnds ++ [rcvrViaBnd] }
              let tranSpec : TranSpec :=
                { PoolID := svcStep.PoolID, ProcID := svcStep.ProcID,
                  Term := step.contsAt implConts L }
              .ok (tranSpec, procMod, none)
            | _ => .error .ErrContTypeUnexpected2
          | some _ => .error .ErrRootTypeUnexpected

/-- The arm `case step.CaseSpec` of `takeWith`. -/
def takeWithCaseSpec (newID : Nat → ID) (procCtx : state.Context) (procCfg : proc.Snap)
    (X : PH) (Conts : List (Label × Option step.Term)) : Res :=
  let tranSpec := TranSpec.zero
  let procMod := proc.Mod.zero
  match procCfg.Chnls.lookup X with
  | none => failWith (.chnlErrMissingInCfg X)
  | some viaChnl =>
    let rcvrLock : proc.Lock := { PoolID := procCfg.PoolID, Rev := procCfg.Rev }
    let procMod := { procMod with Locks := procMod.Locks ++ [rcvrLock] }
    match procCfg.Steps.lookup viaChnl.ChnlID with
    | none => failWith (.stepErrMissingInCfg (PH.id viaChnl.ChnlID))
    | some none =>
      let rcvrStep : step.SvcRoot2 :=
        { PoolID := procCfg.PoolID, ProcID := procCfg.ProcID, ChnlID := viaChnl.ChnlID,
          Rev := procCfg.Rev + 1,
          Cont := some (step.Cont.CaseImpl X (newID 0) Conts) }
      let procMod := { procMod with Steps := procMod.Steps ++ [step.Root.SvcRoot2 rcvrStep] }
      .ok (tranSpec, procMod, none)
    | some (some (.MsgRoot2 msgStep)) =>
      match msgStep.Val with
      | some (.LabImpl _ implA implL) =>
        match procCtx.Linear.lookup X with
        | none => failWith (.stateErrMissingInCtx X)
        | some viaState =>
          match sumNext implL viaState with
          | .error p => .error p
          | .ok viaStateID =>
            let rcvrViaBnd : proc.Bnd :=
              { ProcID := procCfg.ProcID, ChnlPH := X, ChnlID := implA,
                StateID := viaStateID, Rev := procCfg.Rev + 1 }
            let procMod := { procMod with Bnds := procMod.Bnds ++ [rcvrViaBnd] }
            let tranSpec : TranSpec :=
              { PoolID := procCfg.PoolID, ProcID := procCfg.ProcID,
                Term := step.contsAt Conts implL }
            .ok (tranSpec, procMod, none)
      | _ => .error .ErrValTypeUnexpected2
    | some (some _) => .error .ErrRootTypeUnexpected

/-- The loop `for i, chnlPH := range termSpec.Ys` of the Spawn arm, from index `i` on:
`.ok (.inl err)` is the early `return TranSpec{}, proc.Mod{}, err`, `.ok (.inr procMod)` the
mod after the loop. -/
def spawnYs (procCfg : proc.Snap) (rcvrProcID : ID) (rcvrSig : sig.Root) (rcvrRev : Rev) :
    Nat → List PH → proc.Mod → Except Panic (Err ⊕ proc.Mod)
  | _, [], procMod => .ok (.inr procMod)
  | i, chnlPH :: rest, procMod =>
    match procCfg.Chnls.lookup chnlPH with
    | none => .ok (.inl (.procErrMissingChnl chnlPH))
    | some valChnl =>
      let sndrValBnd : proc.Bnd :=
        { ProcID := procCfg.ProcID, ChnlPH := chnlPH, ChnlID := valChnl.ChnlID,
          StateID := valChnl.StateID, Rev := -procCfg.Rev - 1 }
      let procMod := { procMod with Bnds := procMod.Bnds ++ [sndrValBnd] }
      match rcvrSig.Ys.get? i with
      | none => .error .indexOutOfRange
      | some ep =>
        let rcvrValBnd : proc.Bnd :=
          { ProcID := rcvrProcID, ChnlPH := ep.ChnlPH, ChnlID := valChnl.ChnlID,
            StateID := valChnl.StateID, Rev := rcvrRev + 1 }
        let procMod := { procMod with Bnds := procMod.Bnds ++ [rcvrValBnd] }
        spawnYs procCfg rcvrProcID rcvrSig rcvrRev (i + 1) rest procMod

/-- The arm `case step.SpawnSpec` of `takeWith`. -/
def takeWithSpawnSpec (newID : Nat → ID) (procEnv : Environment) (procCfg : proc.Snap)
    (X : PH) (Ys : List PH) (SigID : ID) (PoolQN : Sym) (Cont : Option step.Term) : Res :=
  let procMod := proc.Mod.zero
  match procEnv.Locks.lookup PoolQN with
  | none => failWith (.errMissingPool PoolQN)
  | some rcvrSnap =>
    let rcvrLiab : proc.Liab :=
      { ProcID := newID 0, PoolID := rcvrSnap.PoolID, Rev := rcvrSnap.Rev + 1 }
    let procMod := { procMod with Liabs := procMod.Liabs ++ [rcvrLiab] }
    match procEnv.Sigs.lookup SigID with
    | none => failWith (.errMissingSig SigID)
    | some rcvrSig =>
      match procEnv.Roles.lookup rcvrSig.X.RoleQN with
      | none => failWith (.errMissingRole rcvrSig.X.RoleQN)
      | some rcvrRole =>
        let sndrViaBnd : proc.Bnd :=
          { ProcID := procCfg.ProcID, ChnlPH := X, ChnlID := newID 1,
            StateID := rcvrRole.StateID, Rev := procCfg.Rev + 1 }
        let procMod := { procMod with Bnds := procMod.Bnds ++ [sndrViaBnd] }
        let rcvrViaBnd : proc.Bnd :=
          { ProcID := rcvrLiab.ProcID, ChnlPH := rcvrSig.X.ChnlPH,
            ChnlID := sndrViaBnd.ChnlID, StateID := rcvrRole.StateID,
            Rev := rcvrSnap.Rev + 1 }
        let procMod := { procMod with Bnds := procMod.Bnds ++ [rcvrViaBnd] }
        match spawnYs procCfg rcvrLiab.ProcID rcvrSig rcvrSnap.Rev 0 Ys procMod with
        | .error p => .error p
        | .ok (.inl err) => failWith err
        | .ok (.inr procMod) =>
          let tranSpec : TranSpec :=
            { PoolID := procCfg.PoolID, ProcID := procCfg.ProcID, Term := Cont }
          .ok (tranSpec, procMod, none)

/-- The arm `case step.FwdSpec` of `takeWith`. -/
def takeWithFwdSpec (procCtx : state.Context) (procCfg : proc.Snap) (X Y : PH) : Res :=
  let tranSpec := TranSpec.zero
  let procMod := proc.Mod.zero
  match procCfg.Chnls.lookup X with
  | none => failWith (.chnlErrMissingInCfg X)
  | some viaChnl =>
    match procCtx.Linear.lookup X with
    | none => failWith (.stateErrMissingInCtx X)
    | some viaState =>
      match procCfg.Steps.lookup viaChnl.ChnlID with
      | none => failWith (.stepErrMissingInCfg (PH.id viaChnl.ChnlID))
      | some viaStep =>
        match procCfg.Chnls.lookup Y with
        | none => failWith (.chnlErrMissingInCfg Y)
        | some valChnl =>
          match viaState with
          | none => .error .nilDereference
          | some vst =>
            if vst.Pol = pol.Pos then
              match viaStep with
              | some (.SvcRoot2 vs) =>
                match vs.Cont with
                | none => .error .nilDereference
                | some cont =>
                  let xBnd : proc.Bnd :=
                    { ProcID := vs.ProcID, ChnlPH := cont.Via, ChnlID := viaChnl.ChnlID,
                      StateID := viaChnl.StateID, Rev := vs.Rev + 1 }
                  let procMod := { procMod with Bnds := procMod.Bnds ++ [xBnd] }
                  let tranSpec : TranSpec :=
                    { PoolID := vs.PoolID, ProcID := vs.ProcID, Term := some cont.toTerm }
                  .ok (tranSpec, procMod, none)
              | some (.MsgRoot2 vs) =>
                match vs.Val with
                | none => .error .nilDereference
                | some val =>
                  let yBnd : proc.Bnd :=
                    { ProcID := vs.ProcID, ChnlPH := val.Via, ChnlID := valChnl.ChnlID,
                      StateID := valChnl.StateID, Rev := vs.Rev + 1 }
                  let procMod := { procMod with Bnds := procMod.Bnds ++ [yBnd] }
                  let tranSpec : TranSpec :=
                    { PoolID := vs.PoolID, ProcID := vs.ProcID, Term := some val.toTerm }
                  .ok (tranSpec, procMod, none)
              | none =>
                let xBnd : proc.Bnd :=
                  { ProcID := procCfg.ProcID, ChnlPH := X, ChnlID := viaChnl.ChnlID,
                    StateID := idNil, Rev := -procCfg.Rev - 1 }
                let procMod := { procMod with Bnds := procMod.Bnds ++ [xBnd] }
                let yBnd : proc.Bnd :=
                  { ProcID := procCfg.ProcID, ChnlPH := Y, ChnlID := valChnl.ChnlID,
                    StateID := idNil, Rev := -procCfg.Rev - 1 }
                let procMod := { procMod with Bnds := procMod.Bnds ++ [yBnd] }
                let msgStep : step.MsgRoot2 :=
                  { PoolID := procCfg.PoolID, ProcID := procCfg.ProcID,
                    ChnlID := viaChnl.ChnlID, Rev := procCfg.Rev,
                    Val := some (step.Val.FwdImpl PH.nil valChnl.ChnlID) }
                let procMod :=
                  { procMod with Steps := procMod.Steps ++ [step.Root.MsgRoot2 msgStep] }
                .ok (tranSpec, procMod, none)
              | some _ => .error .ErrRootTypeUnexpected
            else if vst.Pol = pol.Neg then
              match viaStep with
              | some (.SvcRoot2 vs) =>
                match vs.Cont with
                | none => .error .nilDereference
                | some cont =>
                  let yBnd : proc.Bnd :=
                    { ProcID := vs.ProcID, ChnlPH := cont.Via, ChnlID := valChnl.ChnlID,
                      StateID := valChnl.StateID, Rev := vs.Rev + 1 }
                  let procMod := { procMod with Bnds := procMod.Bnds ++ [yBnd] }
                  let tranSpec : TranSpec :=
                    { PoolID := vs.PoolID, ProcID := vs.ProcID, Term := some cont.toTerm }
                  .ok (tranSpec, procMod, none)
              | some (.MsgRoot2 vs) =>
                match vs.Val with
                | none => .error .nilDereference
                | some val =>
                  let xBnd : proc.Bnd :=
                    { ProcID := vs.ProcID, ChnlPH := val.Via, ChnlID := viaChnl.ChnlID,
                      StateID := viaChnl.StateID, Rev := vs.Rev + 1 }
                  let procMod := { procMod with Bnds := procMod.Bnds ++ [xBnd] }
                  let tranSpec : TranSpec :=
                    { PoolID := vs.PoolID, ProcID := vs.ProcID, Term := some val.toTerm }
                  .ok (tranSpec, procMod, none)
              | none =>
                let svcStep : step.SvcRoot2 :=
                  { PoolID := procCfg.PoolID, ProcID := procCfg.ProcID,
                    ChnlID := viaChnl.ChnlID, Rev := procCfg.Rev,
                    Cont := some (step.Cont.FwdImpl PH.nil valChnl.ChnlID) }
                let procMod :=
                  { procMod with Steps := procMod.Steps ++ [step.Root.SvcRoot2 svcStep] }
                .ok (tranSpec, procMod, none)
              | some _ => .error .ErrRootTypeUnexpected
            else .error .ErrPolarityUnexpected

/-- The function `service.takeWith`: one arm per term variant, a panic on any other term
(the nil term included). -/
def takeWith (newID : Nat → ID) (procCtx : state.Context) (procEnv : Environment)
    (procCfg : proc.Snap) (ts : Option step.Term) : Res :=
  match ts with
  | some (.CloseSpec X) => takeWithCloseSpec procCfg X
  | some (.WaitSpec X Cont) => takeWithWaitSpec procCfg X Cont
  | some (.SendSpec X Y) => takeWithSendSpec newID procCtx procCfg X Y
  | some (.RecvSpec X Y Cont) => takeWithRecvSpec newID procCtx procCfg X Y Cont
  | some (.LabSpec X L) => takeWithLabSpec newID procCtx procCfg X L
  | some (.CaseSpec X Conts) => takeWithCaseSpec newID procCtx procCfg X Conts
  | some (.SpawnSpec X Ys _ SigID PoolQN Cont) =>
    takeWithSpawnSpec newID procEnv procCfg X Ys SigID PoolQN Cont
  | some (.FwdSpec X Y) => takeWithFwdSpec procCtx procCfg X Y
  | _ => .error .ErrTermTypeUnexpected

end pool

namespace step

mutual
/-- The `switch` of `collectEnvRec` on a non-nil term. -/
def collectEnvTerm : Term → List ID → List ID
  | .RecvSpec _ _ Cont, env => collectEnvRec Cont env
  | .CaseSpec _ Conts, env => collectEnvConts Conts env
  | .SpawnSpec _ _ _ SigID _ Cont, env => collectEnvRec Cont (env ++ [SigID])
  | _, env => env
termination_by structural t => t
/-- The function `collectEnvRec(t, env)`; the nil term leaves `env` as it is. -/
def collectEnvRec : Option Term → List ID → List ID
  | none, env => env
  | some t, env => collectEnvTerm t env
termination_by structural t => t
/-- The loop `for _, cont := range term.Conts` of `collectEnvRec`, in the order of the
association list. -/
def collectEnvConts : List (Label × Option Term) → List ID → List ID
  | [], env => env
  | entry :: rest, env => collectEnvConts rest (collectEnvEntry entry env)
termination_by structural t => t
/-- One round of that loop, on the entry `(label, cont)`. -/
def collectEnvEntry : Label × Option Term → List ID → List ID
  | (_, cont), env => collectEnvRec cont env
termination_by structural t => t
end

/-- The function `CollectEnv(t)`. -/
def CollectEnv (t : Option Term) : List ID := collectEnvRec t []

end step

namespace pool

/-- The function `CollectCtx(chnls []proc.Chnl)` of package pool: it returns nil. -/
def CollectCtx (_chnls : List proc.Chnl) : List ID := []

/-- The function `convertToCtx`: every channel provided by another pool than `poolID` puts
`states[ch.StateID]` under its placeholder; a later channel overwrites an earlier one with
the same placeholder. -/
def convertToCtx (poolID : ID) (chnls : List proc.Chnl)
    (states : List (ID × Option state.Root)) : state.Context :=
  { Linear := chnls.foldl
      (fun linear ch =>
        if poolID ≠ ch.PoolID then (ch.ChnlPH, (states.lookup ch.StateID).join) :: linear
        else linear) [] }

/-- The function `checkProvider`: it returns nil. -/
def checkProvider (_poolID : ID) (_procEnv : Environment) (_procCtx : state.Context)
    (_procSnap : proc.Snap) (_termSpec : step.Term) : Option Err := none

/-- The function `checkClient`: it returns nil. -/
def checkClient (_poolID : ID) (_procEnv : Environment) (_procCtx : state.Context)
    (_procSnap : proc.Snap) (_termSpec : step.Term) : Option Err := none

/-- The function `checkState`: it panics when the via placeholder of the term is not bound
in the snap, and otherwise returns what `checkProvider` or `checkClient` returns. -/
def checkState (poolID : ID) (procEnv : Environment) (procCtx : state.Context)
    (procSnap : proc.Snap) (termSpec : step.Term) : Except Panic (Option Err) :=
  match procSnap.Chnls.lookup termSpec.Via with
  | none => .error .noViaInProcSnap
  | some ch =>
    if poolID = ch.PoolID then .ok (checkProvider poolID procEnv procCtx procSnap termSpec)
    else .ok (checkClient poolID procEnv procCtx procSnap termSpec)

/-- Modelled from the spec: the ports that `Take` calls, as they answer during one
iteration (the packages app/sig, app/role, internal/state and lib/data are not part of the
sources): `SelectProc` of the pool repo, `SelectEnv` of the sig, role and state repos,
`UpdateProc` of the pool repo, and the helpers `sig.CollectEnv` (the role names referenced
by signatures) and `role.CollectEnv` (the state IDs referenced by roles). The operator
runs each closure once. -/
structure Ports where
  SelectProc : ID → Except Err proc.Snap
  sigsSelectEnv : List ID → Except Err (List (ID × sig.Root))
  sigCollectEnv : List sig.Root → List Sym
  rolesSelectEnv : List Sym → Except Err (List (Sym × role.Root))
  roleCollectEnv : List role.Root → List ID
  statesSelectEnv : List ID → Except Err (List (ID × Option state.Root))
  UpdateProc : proc.Mod → Option Err

/-- How one iteration of the loop of `Take` ends: with `return err`, or by going round
with the next values after the mod was handed to `UpdateProc`. -/
inductive TakeOut where
  | ret (err : Option Err)
  | next (nextSpec : TranSpec) (procMod : proc.Mod)

/-- The body of the loop `for termSpec != nil` of `service.Take`, for the current
`poolID`, `procID` and (non-nil) `termSpec`. -/
def takeBody (newID : Nat → ID) (ports : Ports) (poolID procID : ID)
    (termSpec : step.Term) : Except Panic TakeOut :=
  match ports.SelectProc procID with
  | .error err => .ok (.ret (some err))
  | .ok procSnap =>
    if procSnap.Chnls.length = 0 then .ok (.ret none)
    else
      let sigIDs := step.CollectEnv (some termSpec)
      match ports.sigsSelectEnv sigIDs with
      | .error err => .ok (.ret (some err))
      | .ok sigs =>
        let roleQNs := ports.sigCollectEnv (sigs.map Prod.snd)
        match ports.rolesSelectEnv roleQNs with
        | .error err => .ok (.ret (some err))
        | .ok roles =>
          let envIDs := ports.roleCollectEnv (roles.map Prod.snd)
          let ctxIDs := CollectCtx (procSnap.Chnls.map Prod.snd)
          match ports.statesSelectEnv (envIDs ++ ctxIDs) with
          | .error err => .ok (.ret (some err))
          | .ok states =>
            let procEnv : Environment :=
              { Sigs := sigs, Roles := roles, States := states, Locks := [] }
            let procCtx := convertToCtx poolID (procSnap.Chnls.map Prod.snd) states
            match checkState poolID procEnv procCtx procSnap termSpec with
            | .error p => .error p
            | .ok (some err) => .ok (.ret (some err))
            | .ok none =>
              match takeWith newID procCtx procEnv procSnap (some termSpec) with
              | .error p => .error p
              | .ok (_, _, some err) => .ok (.ret (some err))
              | .ok (nextSpec, procMod, none) =>
                match ports.UpdateProc procMod with
                | some err => .ok (.ret (some err))
                | none => .ok (.next nextSpec procMod)

/-- The linearity property of a list of bindings: no two bindings of the list are for the
same `(ProcID, ChnlID)` with revisions that are both positive or both negative. -/
def bndsLinear (bnds : List proc.Bnd) : Prop :=
  bnds.Pairwise (fun a b => ¬ (a.ProcID = b.ProcID ∧ a.ChnlID = b.ChnlID ∧
    ((0 < a.Rev ∧ 0 < b.Rev) ∨ (a.Rev < 0 ∧ b.Rev < 0))))

instance (bnds : List proc.Bnd) : Decidable (bndsLinear bnds) :=
  inferInstanceAs (Decidable (List.Pairwise _ bnds))

end pool

namespace state

/-- Modelled from the spec: an endpoint `state.EP` pairs a role name `Z` with a state `C`
(package internal/state is not part of the sources). -/
structure EP where
  Z : Sym
  C : Option Root

end state

namespace step

mutual
/-- The `switch` of `Subst` on a non-nil term: cases for `CloseSpec`, `WaitSpec` and
`SendSpec`, and `panic(ErrTermTypeUnexpected(t))` for every other term. -/
def SubstTerm : Term → PH → ID → Except pool.Panic Term
  | .CloseSpec X, ph, val => .ok (.CloseSpec (if ph = X then PH.id val else X))
  | .WaitSpec X Cont, ph, val =>
    match Subst Cont ph val with
    | .error p => .error p
    | .ok cont => .ok (.WaitSpec (if ph = X then PH.id val else X) cont)
  | .SendSpec X Y, ph, val =>
    .ok (.SendSpec (if ph = X then PH.id val else X) (if ph = Y then PH.id val else Y))
  | _, _, _ => .error .ErrTermTypeUnexpected
termination_by structural t => t
/-- The function `Subst(t, ph, val)`; the nil term is returned as it is. -/
def Subst : Option Term → PH → ID → Except pool.Panic (Option Term)
  | none, _, _ => .ok none
  | some t, ph, val =>
    match SubstTerm t ph val with
    | .error p => .error p
    | .ok t' => .ok (some t')
termination_by structural t => t
end

end step

namespace pool

/-- The zero value `sig.Root{}`, which a Go map returns for a missing key. -/
def sigRootZero : sig.Root :=
  { X := { ChnlPH := PH.nil, RoleQN := "" }, Ys := [],
    X2 := { Key := "", Link := "" }, Ys2 := [] }

/-- The zero value `role.Root{}`. -/
def roleRootZero : role.Root := { StateID := idNil }

/-- The method `Environment.LookupPE`. -/
def Environment.LookupPE (e : Environment) (id : ID) : state.EP :=
  let decl := (e.Sigs.lookup id).getD sigRootZero
  let role := (e.Roles.lookup decl.X2.Link).getD roleRootZero
  { Z := decl.X2.Link, C := (e.States.lookup role.StateID).join }

/-- The method `Environment.LookupCEs`: the loop over `decl.Ys2` appends one endpoint per
round; the role is read under `decl.X2.Link` in every round. -/
def Environment.LookupCEs (e : Environment) (id : ID) : List state.EP :=
  let decl := (e.Sigs.lookup id).getD sigRootZero
  decl.Ys2.foldl
    (fun ces ce =>
      let role := (e.Roles.lookup decl.X2.Link).getD roleRootZero
      ces ++ [{ Z := ce.Link, C := (e.States.lookup role.StateID).join }]) []

/-- The struct `pool.Spec`. -/
structure Spec where
  Title : String
  SupID : ID
  DepIDs : List ID

/-- The struct `pool.Root`, also a row of table `pool_roots`. -/
structure Root where
  PoolID : ID
  Title : String
  SupID : ID
  Revs : List Rev
deriving DecidableEq, Repr

/-- The zero value `Root{}`. -/
def Root.zero : Root := { PoolID := idNil, Title := "", SupID := idNil, Revs := [] }

/-- The constant `rootRev = rev.Kind(iota)`. -/
def rootRev : Nat := 0

/-- The constant `procRev`, the second of the `iota` block. -/
def procRev : Nat := 1

/-- The method `service.Create`. `initial` is the value of `rev.Initial()` (lib/rev is not
part of the sources) and `insert` is the port `pools.Insert` as it answers this call. -/
def Create (newID : Nat → ID) (initial : Rev) (insert : Root → Option Err) (spec : Spec) :
    Root × Option Err :=
  let root : Root :=
    { PoolID := newID 0, Revs := [initial], Title := spec.Title, SupID := spec.SupID }
  match insert root with
  | some err => (Root.zero, some err)
  | none => (root, none)

/-- The element `revs[k]` of a PostgreSQL array, as the statement `updateRoot` reads it:
subscripts start at 1, and a subscript outside the array yields NULL (`none`), which equals
no revision. -/
def pgElem (revs : List Rev) (k : Nat) : Option Rev :=
  if k = 0 then none else revs.get? (k - 1)

/-- The `where` clause of `updateRoot`: `pool_id = @pool_id and revs[@k] = @rev`. -/
def updateRootHits (poolID : ID) (rev : Rev) (k : Nat) (row : Root) : Bool :=
  decide (row.PoolID = poolID) && decide (pgElem row.Revs k = some rev)

/-- The SQL statement `updateRoot` on table `pool_roots`: every row that satisfies the
`where` clause gets `revs[@k] = @rev + 1`; the result is the new table and the number of
rows affected. -/
def updateRoot (rows : List Root) (poolID : ID) (rev : Rev) (k : Nat) : List Root × Nat :=
  (rows.map (fun row =>
      if updateRootHits poolID rev k row then
        { row with Revs := row.Revs.set (k - 1) (rev + 1) }
      else row),
   (rows.filter (updateRootHits poolID rev k)).length)

/-- An error value as `errors.Join` builds it: an error of the package, or the join of one
or of two non-nil errors. -/
inductive JoinErr where
  | leaf (e : Err)
  | wrap1 (a : JoinErr)
  | wrap2 (a b : JoinErr)
deriving DecidableEq, Repr

/-- The call `errors.Join(a, b)`: nil when both are nil, otherwise an error that wraps the
non-nil ones. -/
def errorsJoin : Option JoinErr → Option JoinErr → Option JoinErr
  | none, none => none
  | some a, none => some (.wrap1 a)
  | none, some b => some (.wrap1 b)
  | some a, some b => some (.wrap2 a b)

/-- The errors of the package that a joined error wraps, in order. -/
def JoinErr.leaves : JoinErr → List Err
  | .leaf e => [e]
  | .wrap1 a => a.leaves
  | .wrap2 a b => a.leaves ++ b.leaves

/-- The answers of the database driver (pgx, not part of the sources) during one call of
`UpdateProc`, as far as the returned value depends on them: the error of the i-th
`rootRes.Exec()`, and the errors of the three deferred `Close()` calls in the order in which
they run, `rootRes.Close()`, the `bndRes.Close()` deferred in the section `// steps`, and
the `bndRes.Close()` deferred in the section `// bindings`. The errors of `bndRes.Exec()`
and `stepRes.Exec()` are only logged: the `err` assigned in those loops is a variable of
the loop body. -/
structure Driver where
  rootExec : Nat → Option Err
  rootClose : Option Err
  bndCloseAgain : Option Err
  bndClose : Option Err

/-- The batch of the section `// roots` of `repoPgx.UpdateProc`, from the i-th lock on: one
`updateRoot` per lock with `k = procRev`, executed in order. A statement whose `Exec`
reports an error leaves the table as it is and yields the zero command tag (no row
affected). The result is the table after the batch and the numbers of rows affected. -/
def rootBatch (execErr : Nat → Option Err) : Nat → List Root → List proc.Lock →
    List Root × List Nat
  | _, rows, [] => (rows, [])
  | i, rows, lock :: rest =>
    match execErr i with
    | some _ =>
      let rs := rootBatch execErr (i + 1) rows rest
      (rs.1, 0 :: rs.2)
    | none =>
      let r := updateRoot rows lock.PoolID lock.Rev procRev
      let rs := rootBatch execErr (i + 1) r.1 rest
      (rs.1, r.2 :: rs.2)

/-- The loop that reads the results of the batch: the first statement that affected no row
makes `UpdateProc` return `errOptimisticUpdate(dto.Rev)`; an error of `Exec` is only
logged. -/
def rootResults : List proc.Lock → List Nat → Option Err
  | lock :: rest, n :: ns =>
    if n = 0 then some (.errOptimisticUpdate lock.Rev) else rootResults rest ns
  | _, _ => none

/-- The method `repoPgx.UpdateProc` as it acts on table `pool_roots` (the inserts of the
bindings and of the steps go to other tables). The named result `err` is nil when the
section `// roots` is reached; the value returned there then passes through the three
deferred `err = errors.Join(err, ...Close())`, last deferred first. -/
def UpdateProc (driver : Driver) (rows : List Root) (mod : proc.Mod) :
    List Root × Option JoinErr :=
  let r := rootBatch driver.rootExec 0 rows mod.Locks
  let err := (rootResults mod.Locks r.2).map JoinErr.leaf
  let err := errorsJoin err (driver.rootClose.map JoinErr.leaf)
  let err := errorsJoin err (driver.bndCloseAgain.map JoinErr.leaf)
  let err := errorsJoin err (driver.bndClose.map JoinErr.leaf)
  (r.1, err)

/-! ## Concrete configurations

The processes of the end-to-end scenarios of src/test/e2e/deal/deal_test.go, with small
numbers for the generated IDs. -/

namespace scenario

/-- An ID oracle: the k-th `id.New()` of a call yields `1000 + k`. -/
def newID : Nat → ID := fun k => 1000 + k

/-- An environment without entries. -/
def env0 : Environment := { Sigs := [], Roles := [], States := [], Locks := [] }

/-- A product state (the lolli role of RecvSend) whose continuation is state 12. -/
def lolli : state.Root := { Ident := 10, Pol := pol.Neg, Shape := .Prod 12 }

/-- The state of a closed channel (the one role). -/
def one : state.Root := { Ident := 11, Pol := pol.Pos, Shape := .Other }

/-- The continuation of the receiver in RecvSend. -/
def recvCont : Option step.Term :=
  some (.WaitSpec (PH.id 2) (some (.CloseSpec (PH.id 1))))

/-- The term `Recv{X=recvr, Y=msg, Cont=...}` of RecvSend. -/
def recvTerm : step.Term := .RecvSpec (PH.id 1) (PH.id 2) recvCont

/-- The term `Send{X=recvr, Y=msg}` of RecvSend. -/
def sendTerm : step.Term := .SendSpec (PH.id 1) (PH.id 2)

/-- The via channel `recvr` (channel 1, in state `lolli`, provided by pool 100). -/
def recvrChnl : proc.Chnl := { ChnlPH := PH.id 1, ChnlID := 1, StateID := 10, PoolID := 100 }

/-- The value channel `msg` (channel 2, in state `one`). -/
def msgChnl : proc.Chnl := { ChnlPH := PH.id 2, ChnlID := 2, StateID := 11, PoolID := 100 }

/-- The linear context in which `recvr` is a product state and `msg` is not bound. -/
def viaCtx : state.Context := { Linear := [(PH.id 1, some lolli)] }

/-- The linear context in which `recvr` is a product state and `msg` is bound to a state
whose identity is 77. -/
def viaValCtx : state.Context :=
  { Linear := [(PH.id 1, some lolli), (PH.id 2, some { one with Ident := 77 })] }

/-- The receiver (process 1 of pool 100, revision 4) with nothing buffered on `recvr`. -/
def rcvrCfg : proc.Snap :=
  { ProcID := 1, PoolID := 100, Rev := 4, Chnls := [(PH.id 1, recvrChnl)],
    Steps := [(1, none)] }

/-- The sender (process 3 of pool 101, revision 6) with nothing buffered on `recvr`. -/
def sndrCfg : proc.Snap :=
  { ProcID := 3, PoolID := 101, Rev := 6,
    Chnls := [(PH.id 1, recvrChnl), (PH.id 2, msgChnl)], Steps := [(1, none)] }

/-- A `RecvImpl` that carries the receiver's `Y`. -/
def recvImpl : step.Cont := .RecvImpl (PH.id 1) 1000 (PH.id 2) recvCont

/-- A buffered receive on `recvr` by the receiver. -/
def recvStep : step.SvcRoot2 :=
  { PoolID := 100, ProcID := 1, ChnlID := 1, Cont := some recvImpl, Rev := 4 }

/-- The sender when the receive `recvStep` is buffered on `recvr`. -/
def sndrCfgMatched : proc.Snap := { sndrCfg with Steps := [(1, some (.SvcRoot2 recvStep))] }

/-- The step that `Send{X=recvr, Y=msg}` buffers on `sndrCfg`. -/
def sendStep : step.MsgRoot2 :=
  { PoolID := 101, ProcID := 3, ChnlID := 1, Val := some (.SendImpl (PH.id 1) 1000 2),
    Rev := 6 }

/-- The receiver when the send `sendStep` is buffered on `recvr`. -/
def rcvrCfgMatched : proc.Snap := { rcvrCfg with Steps := [(1, some (.MsgRoot2 sendStep))] }

/-- The mod of `Send{X=recvr, Y=msg}` taken on `sndrCfgMatched`. -/
def sendMatchedMod : proc.Mod :=
  { Locks := [{ PoolID := 101, Rev := 6 }],
    Bnds := [{ ProcID := 3, ChnlPH := PH.id 2, ChnlID := idNil, StateID := idNil, Rev := -7 },
             { ProcID := 1, ChnlPH := PH.id 1, ChnlID := 1000, StateID := 12, Rev := 5 },
             { ProcID := 3, ChnlPH := PH.id 1, ChnlID := 1000, StateID := 12, Rev := 7 },
             { ProcID := 1, ChnlPH := PH.id 2, ChnlID := 2, StateID := 11, Rev := 5 }],
    Steps := [], Liabs := [] }

/-- The mod of `Recv{X=recvr, Y=msg, Cont}` taken on `rcvrCfgMatched` in `viaValCtx`. -/
def recvMatchedMod : proc.Mod :=
  { Locks := [{ PoolID := 100, Rev := 4 }],
    Bnds := [{ ProcID := 3, ChnlPH := PH.id 1, ChnlID := 1000, StateID := 12, Rev := 7 },
             { ProcID := 1, ChnlPH := PH.id 1, ChnlID := 1000, StateID := 12, Rev := 5 },
             { ProcID := 1, ChnlPH := PH.id 2, ChnlID := 2, StateID := 77, Rev := 5 }],
    Steps := [], Liabs := [] }

/-- The next spec of both rendezvous of RecvSend: the receiver's continuation. -/
def recvNext : TranSpec := { PoolID := 100, ProcID := 1, Term := recvCont }

/-- The step that `Recv{X=recvr, Y=msg, Cont}` buffers on `rcvrCfg`: its `RecvImpl` holds
the nil placeholder in `Y`. -/
def recvBuffered : step.SvcRoot2 :=
  { PoolID := 100, ProcID := 1, ChnlID := 1,
    Cont := some (.RecvImpl (PH.id 1) 1000 PH.nil recvCont), Rev := 4 }

/-- The sender when the step buffered by the receiver, `recvBuffered`, is on `recvr`. -/
def sndrCfgAfterRecv : proc.Snap := { sndrCfg with Steps := [(1, some (.SvcRoot2 recvBuffered))] }

/-- The channel `forwarder` (channel 6, positive state `one`). -/
def fwdChnl : proc.Chnl := { ChnlPH := PH.id 6, ChnlID := 6, StateID := 11, PoolID := 100 }

/-- The channel `closer` (channel 5, state `one`). -/
def closerChnl : proc.Chnl := { ChnlPH := PH.id 5, ChnlID := 5, StateID := 11, PoolID := 100 }

/-- The forwarder of the Fwd scenario (process 6 of pool 100, revision 2), nothing buffered
on its own channel. -/
def fwdCfg : proc.Snap :=
  { ProcID := 6, PoolID := 100, Rev := 2,
    Chnls := [(PH.id 6, fwdChnl), (PH.id 5, closerChnl)], Steps := [(6, none)] }

/-- The linear context in which `forwarder` has the positive state `one`. -/
def fwdCtx : state.Context := { Linear := [(PH.id 6, some one)] }

/-- The term `Fwd{X=forwarder, Y=closer}`. -/
def fwdTerm : step.Term := .FwdSpec (PH.id 6) (PH.id 5)

/-- The forwarder without a step slot for its channel. -/
def fwdCfgNoSlot : proc.Snap := { fwdCfg with Steps := [] }

/-- A linear context without entries. -/
def emptyCtx : state.Context := { Linear := [] }

/-- The signature of the spawned process: provider placeholder `x` of role `one-role`. -/
def oneSig : sig.Root :=
  { X := { ChnlPH := PH.sym "x", RoleQN := "one-role" }, Ys := [],
    X2 := { Key := "chnl-3", Link := "one-role" }, Ys2 := [] }

/-- An environment that resolves pool `pool-1`, signature 50 and role `one-role`. -/
def spawnEnv : Environment :=
  { Sigs := [(50, oneSig)], Roles := [("one-role", { StateID := 11 })], States := [],
    Locks := [("pool-1", { PoolID := 200, Rev := 3 })] }

/-- The term `Spawn{X=z, Ys=[], SigID=50, PoolQN=pool-1, Cont=Wait{z, Close{forwarder}}}`. -/
def spawnTerm : step.Term :=
  .SpawnSpec (PH.sym "z") [] [] 50 "pool-1"
    (some (.WaitSpec (PH.sym "z") (some (.CloseSpec (PH.id 6)))))

/-- The provider channel of the waiter (channel 7, state `one`). -/
def waiterChnl : proc.Chnl := { ChnlPH := PH.id 7, ChnlID := 7, StateID := 11, PoolID := 100 }

/-- The term `Close{X=closer}` of WaitClose. -/
def closeTerm : step.Term := .CloseSpec (PH.id 5)

/-- The continuation `Close{X=waiter}` of the wait of WaitClose. -/
def waitCont : Option step.Term := some (.CloseSpec (PH.id 7))

/-- The term `Wait{X=closer, Cont=Close{X=waiter}}` of WaitClose. -/
def waitTerm : step.Term := .WaitSpec (PH.id 5) waitCont

/-- The closer of WaitClose (process 5 of pool 100, revision 0), nothing buffered. -/
def closerCfg : proc.Snap :=
  { ProcID := 5, PoolID := 100, Rev := 0, Chnls := [(PH.id 5, closerChnl)],
    Steps := [(5, none)] }

/-- The waiter of WaitClose (process 7 of pool 100, revision 3), nothing buffered. -/
def waiterCfg : proc.Snap :=
  { ProcID := 7, PoolID := 100, Rev := 3,
    Chnls := [(PH.id 5, closerChnl), (PH.id 7, waiterChnl)], Steps := [(5, none)] }

/-- The step that `Close{X=closer}` buffers on `closerCfg`. -/
def closeStep : step.MsgRoot2 :=
  { PoolID := 100, ProcID := 5, ChnlID := 5, Val := some (.CloseImpl (PH.id 5)), Rev := 1 }

/-- The step that `Wait{X=closer, Cont}` buffers on `waiterCfg`. -/
def waitStep : step.SvcRoot2 :=
  { PoolID := 100, ProcID := 7, ChnlID := 5, Cont := some (.WaitImpl (PH.id 5) waitCont),
    Rev := 0 }

/-- The waiter when the close `closeStep` is buffered on `closer`. -/
def waiterCfgMatched : proc.Snap :=
  { waiterCfg with Steps := [(5, some (.MsgRoot2 closeStep))] }

/-- The closer when the wait `waitStep` is buffered on `closer`. -/
def closerCfgMatched : proc.Snap :=
  { closerCfg with Steps := [(5, some (.SvcRoot2 waitStep))] }

/-- The mod of `Close{X=closer}` taken on `closerCfg`. -/
def closeBufferedMod : proc.Mod :=
  { Locks := [{ PoolID := 100, Rev := 0 }],
    Bnds := [{ ProcID := 5, ChnlPH := PH.id 5, ChnlID := 5, StateID := 11, Rev := -1 }],
    Steps := [.MsgRoot2 closeStep], Liabs := [] }

/-- The mod of `Wait{X=closer, Cont}` taken on `waiterCfg`. -/
def waitBufferedMod : proc.Mod :=
  { Locks := [{ PoolID := 100, Rev := 3 }],
    Bnds := [{ ProcID := 7, ChnlPH := PH.id 5, ChnlID := 5, StateID := 11, Rev := -4 }],
    Steps := [.SvcRoot2 waitStep], Liabs := [] }

/-- The waiter of the Fwd scenario when a forward to `closer` is buffered on the channel
it waits on. -/
def waiterCfgFwd : proc.Snap :=
  { waiterCfg with
    Steps := [(5, some (.MsgRoot2 { PoolID := 100, ProcID := 6, ChnlID := 5,
                                    Val := some (.FwdImpl PH.nil 9), Rev := 2 }))] }

/-- The sum state of CaseLab (a With state with the one label `label-1`), whose branch
for `label-1` is state 21. -/
def withState : state.Root :=
  { Ident := 20, Pol := pol.Neg, Shape := .Sum (fun l => if l = "label-1" then 21 else 0) }

/-- The channel `follower` (channel 8, in the sum state). -/
def followerChnl : proc.Chnl := { ChnlPH := PH.id 8, ChnlID := 8, StateID := 20, PoolID := 100 }

/-- The linear context in which `follower` is the sum state. -/
def sumCtx : state.Context := { Linear := [(PH.id 8, some withState)] }

/-- The branches `{label-1: Close{X=follower}}` of the case of CaseLab. -/
def caseConts : List (Label × Option step.Term) := [("label-1", some (.CloseSpec (PH.id 8)))]

/-- The term `Case{X=follower, Conts}` of CaseLab. -/
def caseTerm : step.Term := .CaseSpec (PH.id 8) caseConts

/-- The term `Lab{X=follower, L=label-1}` of CaseLab. -/
def labTerm : step.Term := .LabSpec (PH.id 8) "label-1"

/-- The follower (process 8 of pool 100, revision 1), nothing buffered on `follower`. -/
def followerCfg : proc.Snap :=
  { ProcID := 8, PoolID := 100, Rev := 1, Chnls := [(PH.id 8, followerChnl)],
    Steps := [(8, none)] }

/-- The decider (process 9 of pool 102, revision 5), nothing buffered on `follower`. -/
def deciderCfg : proc.Snap :=
  { ProcID := 9, PoolID := 102, Rev := 5, Chnls := [(PH.id 8, followerChnl)],
    Steps := [(8, none)] }

/-- The step that `Case{X=follower, Conts}` buffers on `followerCfg`. -/
def caseStep : step.SvcRoot2 :=
  { PoolID := 100, ProcID := 8, ChnlID := 8,
    Cont := some (.CaseImpl (PH.id 8) 1000 caseConts), Rev := 2 }

/-- The step that `Lab{X=follower, L=label-1}` buffers on `deciderCfg`. -/
def labStep : step.MsgRoot2 :=
  { PoolID := 102, ProcID := 9, ChnlID := 8,
    Val := some (.LabImpl (PH.id 8) 1000 "label-1"), Rev := 6 }

/-- The decider when the case `caseStep` is buffered on `follower`. -/
def deciderCfgMatched : proc.Snap :=
  { deciderCfg with Steps := [(8, some (.SvcRoot2 caseStep))] }

/-- The follower when the label `labStep` is buffered on `follower`. -/
def followerCfgMatched : proc.Snap :=
  { followerCfg with Steps := [(8, some (.MsgRoot2 labStep))] }

/-- The channel `inj` of the injectee (channel 3, state `one`). -/
def injChnl : proc.Chnl := { ChnlPH := PH.id 3, ChnlID := 3, StateID := 11, PoolID := 100 }

/-- The provider channel of the spawner (channel 4, state `one`). -/
def spawnerChnl : proc.Chnl := { ChnlPH := PH.id 4, ChnlID := 4, StateID := 11, PoolID := 100 }

/-- The spawner of the Spawn scenario (process 4 of pool 100, revision 2): it holds its own
channel and the injectee's. -/
def spawnerCfg : proc.Snap :=
  { ProcID := 4, PoolID := 100, Rev := 2,
    Chnls := [(PH.id 4, spawnerChnl), (PH.id 3, injChnl)], Steps := [] }

/-- The continuation `Wait{X=z, Cont=Close{X=spawner}}` of the spawn. -/
def spawnCont : Option step.Term :=
  some (.WaitSpec (PH.sym "z") (some (.CloseSpec (PH.id 4))))

/-- The signature `oneSig3`: provider placeholder `x` and one client placeholder `y`, both
of role `one-role`. -/
def oneSig3 : sig.Root :=
  { X := { ChnlPH := PH.sym "x", RoleQN := "one-role" },
    Ys := [{ ChnlPH := PH.sym "y", RoleQN := "one-role" }],
    X2 := { Key := "chnl-3", Link := "one-role" },
    Ys2 := [{ Key := "chnl-1", Link := "one-role" }] }

/-- A signature with provider placeholder `x` and two client placeholders `y1`, `y2`. -/
def twoSig : sig.Root :=
  { X := { ChnlPH := PH.sym "x", RoleQN := "one-role" },
    Ys := [{ ChnlPH := PH.sym "y1", RoleQN := "one-role" },
           { ChnlPH := PH.sym "y2", RoleQN := "one-role" }],
    X2 := { Key := "chnl-4", Link := "one-role" },
    Ys2 := [{ Key := "chnl-1", Link := "one-role" }, { Key := "chnl-2", Link := "one-role" }] }

/-- An environment that resolves pool `pool-1`, the signatures 50 (`oneSig`, no client
endpoint), 52 (`oneSig3`) and 53 (`twoSig`) and role `one-role`. -/
def spawnEnv3 : Environment :=
  { Sigs := [(50, oneSig), (52, oneSig3), (53, twoSig)],
    Roles := [("one-role", { StateID := 11 })],
    States := [], Locks := [("pool-1", { PoolID := 200, Rev := 3 })] }

/-- The term `Spawn{X=z, Ys=[inj], SigID=oneSig3, Cont=Wait{z, Close{spawner}}}`. -/
def spawnTerm3 : step.Term := .SpawnSpec (PH.sym "z") [PH.id 3] [3] 52 "pool-1" spawnCont

/-- The same spawn against signature 50, which declares no client endpoint. -/
def spawnTermShortSig : step.Term :=
  .SpawnSpec (PH.sym "z") [PH.id 3] [3] 50 "pool-1" spawnCont

/-- A spawn against signature 50 whose second argument `PH.id 9` is not bound. -/
def spawnTermUnbound : step.Term :=
  .SpawnSpec (PH.sym "z") [PH.id 3, PH.id 9] [] 50 "pool-1" spawnCont

/-- The mod of `spawnTerm3` taken on `spawnerCfg` in `spawnEnv3`. -/
def spawnMod3 : proc.Mod :=
  { Locks := [],
    Bnds := [{ ProcID := 4, ChnlPH := PH.sym "z", ChnlID := 1001, StateID := 11, Rev := 3 },
             { ProcID := 1000, ChnlPH := PH.sym "x", ChnlID := 1001, StateID := 11, Rev := 4 },
             { ProcID := 4, ChnlPH := PH.id 3, ChnlID := 3, StateID := 11, Rev := -3 },
             { ProcID := 1000, ChnlPH := PH.sym "y", ChnlID := 3, StateID := 11, Rev := 4 }],
    Steps := [], Liabs := [{ ProcID := 1000, PoolID := 200, Rev := 4 }] }

/-- The ports of the Spawn scenario during the iteration that takes the spawn: the pool
repo returns the spawner's snap, the loaders return `oneSig3`, `one-role` and the state
`one`, and `UpdateProc` succeeds. -/
def spawnPorts : Ports :=
  { SelectProc := fun _ => .ok spawnerCfg
    sigsSelectEnv := fun _ => .ok [(52, oneSig3)]
    sigCollectEnv := fun sigs => sigs.map (fun s => s.X.RoleQN)
    rolesSelectEnv := fun _ => .ok [("one-role", { StateID := 11 })]
    roleCollectEnv := fun roles => roles.map (fun r => r.StateID)
    statesSelectEnv := fun _ => .ok [(11, some one)]
    UpdateProc := fun _ => none }

/-- The spawn of `TestTake/Spawn`: `Spawn{X=z, Ys2=[injectee], SigID=oneSig3, Cont}`, with
`Ys` and `PoolQN` left at their zero values. -/
def spawnTermOfTest : step.Term := .SpawnSpec (PH.sym "z") [] [3] 52 "" spawnCont

/-- The same spawn naming pool `pool-1` and using for `X` a placeholder that the spawner
already binds. -/
def spawnTermBoundVia : step.Term := .SpawnSpec (PH.id 4) [] [3] 52 "pool-1" spawnCont

/-- A wait buffered by the waiter (process 7) on the forwarder's channel 6. -/
def waitOnFwdStep : step.SvcRoot2 :=
  { PoolID := 100, ProcID := 7, ChnlID := 6, Cont := some (.WaitImpl (PH.id 6) waitCont),
    Rev := 0 }

/-- The forwarder when the waiter's wait is buffered on its channel. -/
def fwdCfgSvc : proc.Snap := { fwdCfg with Steps := [(6, some (.SvcRoot2 waitOnFwdStep))] }

/-- The linear context in which `forwarder` has a state of negative polarity. -/
def fwdNegCtx : state.Context := { Linear := [(PH.id 6, some { one with Pol := pol.Neg })] }

/-- The step that the forward of the Fwd scenario buffers on a positive via state. -/
def fwdMsgStep : step.MsgRoot2 :=
  { PoolID := 100, ProcID := 6, ChnlID := 6, Val := some (.FwdImpl PH.nil 5), Rev := 2 }

/-- The step that the forward of the Fwd scenario buffers on a negative via state. -/
def fwdSvcStep : step.SvcRoot2 :=
  { PoolID := 100, ProcID := 6, ChnlID := 6, Cont := some (.FwdImpl PH.nil 5), Rev := 2 }

/-- The partner of the forwarder (process 7 of pool 100, revision 3): it holds the
forwarder's channel 6 and the channel `msg`, and finds the positive forward buffered. -/
def partnerCfgFwdMsg : proc.Snap :=
  { ProcID := 7, PoolID := 100, Rev := 3,
    Chnls := [(PH.id 6, fwdChnl), (PH.id 2, msgChnl)],
    Steps := [(6, some (.MsgRoot2 fwdMsgStep))] }

/-- The same partner when it finds the negative forward buffered. -/
def partnerCfgFwdSvc : proc.Snap :=
  { partnerCfgFwdMsg with Steps := [(6, some (.SvcRoot2 fwdSvcStep))] }

/-- A linear context of the partner in which channel 6 is a product state and `msg` is
bound. -/
def prodFwdCtx : state.Context :=
  { Linear := [(PH.id 6, some lolli), (PH.id 2, some one)] }

/-- A linear context of the partner in which channel 6 is a sum state. -/
def sumFwdCtx : state.Context := { Linear := [(PH.id 6, some withState)] }

/-- The closer after its close was committed: the same snap with `closeStep` stored on
`closer`. -/
def closerCfgAfterClose : proc.Snap :=
  { closerCfg with Steps := [(5, some (.MsgRoot2 closeStep))] }

/-- The forwarder after its forward was committed: the same snap with `fwdMsgStep` stored
on its channel. -/
def fwdCfgAfterFwd : proc.Snap :=
  { fwdCfg with Steps := [(6, some (.MsgRoot2 fwdMsgStep))] }

/-- The next spec that the forward returns when taken again on `fwdCfgAfterFwd`: its own
buffered `FwdImpl`, addressed to the forwarder. -/
def fwdRerunNext : TranSpec :=
  { PoolID := 100, ProcID := 6, Term := some (.FwdImpl PH.nil 5) }

/-- The mod that the forward returns when taken again on `fwdCfgAfterFwd`. -/
def fwdRerunMod : proc.Mod :=
  { Locks := [],
    Bnds := [{ ProcID := 6, ChnlPH := PH.nil, ChnlID := 5, StateID := 11, Rev := 3 }],
    Steps := [], Liabs := [] }

/-- A second ID oracle: the k-th `id.New()` of a call yields `2000 + k`. -/
def newID' : Nat → ID := fun k => 2000 + k

/-- Ports whose pool repo returns, for every process, a snap without channel bindings. -/
def emptySnapPorts : Ports :=
  { spawnPorts with
    SelectProc := fun procID =>
      .ok { ProcID := procID, PoolID := 100, Rev := 0, Chnls := [], Steps := [] } }

/-- The term `Wait{X=inj, Cont=Spawn{X=z, SigID=52, ...}}`: a spawn inside the continuation
of a wait. -/
def waitThenSpawn : step.Term := .WaitSpec (PH.id 3) (some spawnTerm3)

/-- The term `Recv{X=inj, Y=msg, Cont=Spawn{X=z, SigID=52, ...}}`: the same spawn inside the
continuation of a receive. -/
def recvThenSpawn : step.Term := .RecvSpec (PH.id 3) (PH.id 2) (some spawnTerm3)

/-- The linear context in which `forwarder` has a state of polarity zero. -/
def fwdZeroCtx : state.Context := { Linear := [(PH.id 6, some { one with Pol := pol.Zero })] }

/-- The waiter when a wait (an `Svc` step) is buffered on the channel it waits on. -/
def waiterCfgSvc : proc.Snap := { waiterCfg with Steps := [(5, some (.SvcRoot2 waitStep))] }

/-- The sender when a `Msg` step, the send `sendStep`, is buffered on `recvr`. -/
def sndrCfgMsg : proc.Snap := { sndrCfg with Steps := [(1, some (.MsgRoot2 sendStep))] }

/-- The sender's write intent on `msg` in `sendMatchedMod`. -/
def sendValBnd : proc.Bnd :=
  { ProcID := 3, ChnlPH := PH.id 2, ChnlID := idNil, StateID := idNil, Rev := -7 }

/-- Process 1 at revision 6 when its own earlier receive, `recvBuffered`, is still on
`recvr`. -/
def selfCfg : proc.Snap := { sndrCfgAfterRecv with ProcID := 1, PoolID := 100 }

/-- The sender when a receive with the negative revision -5 is on `recvr`. -/
def sndrCfgNegPartner : proc.Snap :=
  { sndrCfg with Steps := [(1, some (.SvcRoot2 { recvStep with Rev := -5 }))] }

/-- The term `Spawn{X=z, Ys=[inj, inj], SigID=twoSig, Cont}`: the injectee's channel is
passed twice. -/
def spawnTermTwice : step.Term :=
  .SpawnSpec (PH.sym "z") [PH.id 3, PH.id 3] [3, 3] 53 "pool-1" spawnCont

/-- The mod of `spawnTermTwice` taken on `spawnerCfg` in `spawnEnv3`. -/
def spawnModTwice : proc.Mod :=
  { Locks := [],
    Bnds := [{ ProcID := 4, ChnlPH := PH.sym "z", ChnlID := 1001, StateID := 11, Rev := 3 },
             { ProcID := 1000, ChnlPH := PH.sym "x", ChnlID := 1001, StateID := 11, Rev := 4 },
             { ProcID := 4, ChnlPH := PH.id 3, ChnlID := 3, StateID := 11, Rev := -3 },
             { ProcID := 1000, ChnlPH := PH.sym "y1", ChnlID := 3, StateID := 11, Rev := 4 },
             { ProcID := 4, ChnlPH := PH.id 3, ChnlID := 3, StateID := 11, Rev := -3 },
             { ProcID := 1000, ChnlPH := PH.sym "y2", ChnlID := 3, StateID := 11, Rev := 4 }],
    Steps := [], Liabs := [{ ProcID := 1000, PoolID := 200, Rev := 4 }] }

/-- The mod of `Fwd{X=forwarder, Y=forwarder}` taken on `fwdCfg` in `fwdCtx`. -/
def fwdSelfMod : proc.Mod :=
  { Locks := [],
    Bnds := [{ ProcID := 6, ChnlPH := PH.id 6, ChnlID := 6, StateID := idNil, Rev := -3 },
             { ProcID := 6, ChnlPH := PH.id 6, ChnlID := 6, StateID := idNil, Rev := -3 }],
    Steps := [.MsgRoot2 { PoolID := 100, ProcID := 6, ChnlID := 6, Rev := 2,
                          Val := some (.FwdImpl PH.nil 6) }],
    Liabs := [] }

/-- A spawn against signature 52 whose only argument `PH.id 9` is not bound in the
spawner's snap. -/
def spawnTermUnboundArg : step.Term :=
  .SpawnSpec (PH.sym "z") [PH.id 9] [] 52 "pool-1" spawnCont

/-- The ports of RecvSend during the receiver's iteration: the pool repo returns the
receiver's snap, the term references no signature, and the state loader answers only when
it is asked for state 10, the state of the channel `recvr` bound in the snap. -/
def recvPorts : Ports :=
  { SelectProc := fun _ => .ok rcvrCfgMatched
    sigsSelectEnv := fun _ => .ok []
    sigCollectEnv := fun sigs => sigs.map (fun s => s.X.RoleQN)
    rolesSelectEnv := fun _ => .ok []
    roleCollectEnv := fun roles => roles.map (fun r => r.StateID)
    statesSelectEnv := fun ids =>
      if recvrChnl.StateID ∈ ids then .ok [(10, some lolli)]
      else .error (.portErr "state 10 was not asked for")
    UpdateProc := fun _ => none }

/-- The forwarder when the closer's close is buffered on its channel. -/
def fwdCfgMsg : proc.Snap :=
  { fwdCfg with Steps := [(6, some (.MsgRoot2 { closeStep with ChnlID := 6 }))] }

/-- The ports of the iteration of `Take` that follows the forward of the Fwd scenario: the
pool repo returns the snap of the waiter (process 7), which holds channel 6. -/
def fwdNextPorts : Ports :=
  { SelectProc := fun _ => .ok partnerCfgFwdMsg
    sigsSelectEnv := fun _ => .ok []
    sigCollectEnv := fun sigs => sigs.map (fun s => s.X.RoleQN)
    rolesSelectEnv := fun _ => .ok []
    roleCollectEnv := fun roles => roles.map (fun r => r.StateID)
    statesSelectEnv := fun _ => .ok []
    UpdateProc := fun _ => none }

/-- The waiter of the Fwd scenario (process 7, revision 3) before it waits on the
forwarder's channel 6: nothing is buffered there. -/
def waiterOnFwdCfg : proc.Snap :=
  { waiterCfg with Chnls := [(PH.id 6, fwdChnl)], Steps := [(6, none)] }

/-- A signature whose provider endpoint has role `one-role` and whose one client endpoint
has role `lolli-role`. -/
def mixedSig : sig.Root :=
  { X := { ChnlPH := PH.sym "x", RoleQN := "one-role" },
    Ys := [{ ChnlPH := PH.sym "y", RoleQN := "lolli-role" }],
    X2 := { Key := "chnl-3", Link := "one-role" },
    Ys2 := [{ Key := "chnl-1", Link := "lolli-role" }] }

/-- An environment with signature 60 (`mixedSig`), the roles `one-role` (state 11) and
`lolli-role` (state 10) and the states `one` and `lolli`. -/
def mixedEnv : Environment :=
  { Sigs := [(60, mixedSig)],
    Roles := [("one-role", { StateID := 11 }), ("lolli-role", { StateID := 10 })],
    States := [(11, some one), (10, some lolli)], Locks := [] }

/-- The term `Recv{X=recvr, Y=msg, Cont=Close{X=recvr}}`. -/
def recvThenClose : step.Term :=
  .RecvSpec (PH.id 1) (PH.id 2) (some (.CloseSpec (PH.id 1)))

/-- The channels of the sender of RecvSend as pool 101 sees them: `recvr` is provided by
pool 100 (a client endpoint of pool 101), the sender's own channel 9 by pool 101. -/
def sndrChnls : List proc.Chnl :=
  [recvrChnl, { ChnlPH := PH.id 9, ChnlID := 9, StateID := 11, PoolID := 101 }]

/-- Table `pool_roots` with pool 100 at revisions `[3, 9]` and pool 200 at `[3]`. -/
def poolRows : List Root :=
  [{ PoolID := 100, Title := "pool-1", SupID := idNil, Revs := [3, 9] },
   { PoolID := 200, Title := "pool-2", SupID := idNil, Revs := [3] }]

/-- The table after a commit with `Lock{PoolID: 100, Rev: 3}`. -/
def poolRowsAfter : List Root :=
  [{ PoolID := 100, Title := "pool-1", SupID := idNil, Revs := [4, 9] },
   { PoolID := 200, Title := "pool-2", SupID := idNil, Revs := [3] }]

/-- A driver that reports no error. -/
def quietDriver : Driver :=
  { rootExec := fun _ => none, rootClose := none, bndCloseAgain := none, bndClose := none }

/-- A mod that carries the one lock `Lock{PoolID: 100, Rev: 3}`. -/
def lockMod : proc.Mod :=
  { Locks := [{ PoolID := 100, Rev := 3 }], Bnds := [], Steps := [], Liabs := [] }

end scenario

/-! ## Theorems about the engine -/

section Lookups

/-- Reading `prodNext` on a product state. -/
theorem prodNext_of_Prod (S : state.Root) (nxt : ID) (h : S.Shape = .Prod nxt) :
    prodNext (some S) = .ok nxt := by
  cases S with
  | mk i p sh => cases h; rfl

/-- Reading `sumNext` on a sum state. -/
theorem sumNext_of_Sum (S : state.Root) (f : Label → ID) (l : Label) (h : S.Shape = .Sum f) :
    sumNext l (some S) = .ok (f l) := by
  cases S with
  | mk i p sh => cases h; rfl

end Lookups

/-- C1: Send/Recv rendezvous preserves channel identity and advances the state. When a
`SendSpec` finds a buffered `Svc` step whose `Cont` is a `RecvImpl`, or a `RecvSpec` finds a
buffered `Msg` step whose `Val` is a `SendImpl`, `procCtx.Linear[X]` is a product state `S`
and `takeWith` succeeds, then the mod holds a via binding for the sender's process and one
for the receiver's process, both with `ChnlID` the buffered impl's `A` and `StateID` equal to
`S.Next()`. -/
theorem sendRecv_rendezvous_via_bindings
    (newID : Nat → ID) (procCtx : state.Context) (procEnv : Environment)
    (procCfg : proc.Snap) (t : step.Term) (X : PH) (viaChnl : proc.Chnl)
    (partner : step.Root) (S : state.Root) (nxt A sndr rcvr : ID) (sndrX rcvrX : PH)
    (tranSpec : TranSpec) (procMod : proc.Mod)
    (hmatch :
      (∃ Y implY implCont svc, t = .SendSpec X Y ∧ partner = .SvcRoot2 svc ∧
          svc.Cont = some (.RecvImpl rcvrX A implY implCont) ∧
          sndr = procCfg.ProcID ∧ rcvr = svc.ProcID ∧ sndrX = X) ∨
      (∃ Y Cont implB msg, t = .RecvSpec X Y Cont ∧ partner = .MsgRoot2 msg ∧
          msg.Val = some (.SendImpl sndrX A implB) ∧
          sndr = msg.ProcID ∧ rcvr = procCfg.ProcID ∧ rcvrX = X))
    (hX : procCfg.Chnls.lookup X = some viaChnl)
    (hstep : procCfg.Steps.lookup viaChnl.ChnlID = some (some partner))
    (hS : procCtx.Linear.lookup X = some (some S)) (hProd : S.Shape = .Prod nxt)
    (hok : takeWith newID procCtx procEnv procCfg (some t) = .ok (tranSpec, procMod, none)) :
    (∃ b ∈ procMod.Bnds,
        b.ProcID = sndr ∧ b.ChnlPH = sndrX ∧ b.ChnlID = A ∧ b.StateID = nxt) ∧
    (∃ b ∈ procMod.Bnds,
        b.ProcID = rcvr ∧ b.ChnlPH = rcvrX ∧ b.ChnlID = A ∧ b.StateID = nxt) := by
  rcases hmatch with ⟨Y, implY, implCont, svc, rfl, rfl, hc, rfl, rfl, rfl⟩ |
    ⟨Y, Cont, implB, msg, rfl, rfl, hv, rfl, rfl, rfl⟩
  · cases hY : procCfg.Chnls.lookup Y with
    | none =>
      simp [takeWith, takeWithSendSpec, hX, hstep, hY, failWith] at hok
    | some valChnl =>
      simp [takeWith, takeWithSendSpec, hX, hstep, hY, hS, hc,
        prodNext_of_Prod S nxt hProd, proc.Mod.zero] at hok
      obtain ⟨-, rfl⟩ := hok
      simp
  · cases hY : procCtx.Linear.lookup Y with
    | none =>
      simp [takeWith, takeWithRecvSpec, hX, hstep, hY, hS,
        prodNext_of_Prod S nxt hProd, failWith] at hok
    | some valState =>
      cases valState with
      | none =>
        simp [takeWith, takeWithRecvSpec, hX, hstep, hY, hS, hv,
          prodNext_of_Prod S nxt hProd] at hok
      | some vs =>
        simp [takeWith, takeWithRecvSpec, hX, hstep, hY, hS, hv,
          prodNext_of_Prod S nxt hProd, proc.Mod.zero] at hok
        obtain ⟨-, rfl⟩ := hok
        simp

/-- C1 (witness): the rendezvous of RecvSend in the Send arm and in the Recv arm. -/
theorem sendRecv_rendezvous_via_bindings_witness :
    ((∃ b ∈ scenario.sendMatchedMod.Bnds,
        b.ProcID = 3 ∧ b.ChnlPH = PH.id 1 ∧ b.ChnlID = 1000 ∧ b.StateID = 12) ∧
      (∃ b ∈ scenario.sendMatchedMod.Bnds,
        b.ProcID = 1 ∧ b.ChnlPH = PH.id 1 ∧ b.ChnlID = 1000 ∧ b.StateID = 12)) ∧
    ((∃ b ∈ scenario.recvMatchedMod.Bnds,
        b.ProcID = 3 ∧ b.ChnlPH = PH.id 1 ∧ b.ChnlID = 1000 ∧ b.StateID = 12) ∧
      (∃ b ∈ scenario.recvMatchedMod.Bnds,
        b.ProcID = 1 ∧ b.ChnlPH = PH.id 1 ∧ b.ChnlID = 1000 ∧ b.StateID = 12)) :=
  ⟨sendRecv_rendezvous_via_bindings scenario.newID scenario.viaCtx scenario.env0
      scenario.sndrCfgMatched scenario.sendTerm (PH.id 1) scenario.recvrChnl
      (.SvcRoot2 scenario.recvStep) scenario.lolli 12 1000 3 1 (PH.id 1) (PH.id 1)
      scenario.recvNext scenario.sendMatchedMod
      (Or.inl ⟨PH.id 2, PH.id 2, scenario.recvCont, scenario.recvStep, rfl, rfl, rfl, rfl,
        rfl, rfl⟩)
      rfl rfl rfl rfl rfl,
    sendRecv_rendezvous_via_bindings scenario.newID scenario.viaValCtx scenario.env0
      scenario.rcvrCfgMatched scenario.recvTerm (PH.id 1) scenario.recvrChnl
      (.MsgRoot2 scenario.sendStep) scenario.lolli 12 1000 3 1 (PH.id 1) (PH.id 1)
      scenario.recvNext scenario.recvMatchedMod
      (Or.inr ⟨PH.id 2, scenario.recvCont, 2, scenario.sendStep, rfl, rfl, rfl, rfl, rfl,
        rfl⟩)
      rfl rfl rfl rfl rfl⟩

/-- C2 (counterexample): the Send arm of the rendezvous of RecvSend returns four bindings,
not three. -/
theorem sendRecv_three_bindings_counterexample :
    ∃ tranSpec procMod,
      takeWith scenario.newID scenario.viaCtx scenario.env0 scenario.sndrCfgMatched
          (some scenario.sendTerm) = .ok (tranSpec, procMod, none) ∧
        procMod.Bnds.length = 4 ∧ procMod.Bnds.length ≠ 3 :=
  ⟨scenario.recvNext, scenario.sendMatchedMod, rfl, rfl, by decide⟩

/-- C2 (amended): on a Send/Recv match on a product state (in the Recv arm with the
receiver's `Y` holding a state in the linear context) `takeWith` succeeds, the next spec is
the receiver's `Cont` on the receiver's process, and the bindings of the mod are the sender's
`X -> A`, the receiver's `X -> A` and the receiver's `Y -> value channel ID`, preceded in the
Send arm by the sender's release of its own `Y` (nil `ChnlID`, nil `StateID`,
`Rev = -snap.Rev-1`) and by nothing in the Recv arm. -/
theorem sendRecv_rendezvous_bindings_and_next
    (newID : Nat → ID) (procCtx : state.Context) (procEnv : Environment)
    (procCfg : proc.Snap) (t : step.Term) (X : PH) (viaChnl : proc.Chnl)
    (partner : step.Root) (S : state.Root) (nxt A sndr rcvr rcvrPool valID : ID)
    (sndrX rcvrX rcvrY : PH) (rcvrCont : Option step.Term) (release : List proc.Bnd)
    (hmatch :
      (∃ Y svc valChnl, t = .SendSpec X Y ∧ partner = .SvcRoot2 svc ∧
          svc.Cont = some (.RecvImpl rcvrX A rcvrY rcvrCont) ∧
          procCfg.Chnls.lookup Y = some valChnl ∧ valID = valChnl.ChnlID ∧
          sndr = procCfg.ProcID ∧ rcvr = svc.ProcID ∧ rcvrPool = svc.PoolID ∧ sndrX = X ∧
          release = [{ ProcID := procCfg.ProcID, ChnlPH := Y, ChnlID := idNil,
                       StateID := idNil, Rev := -procCfg.Rev - 1 }]) ∨
      (∃ msg vs, t = .RecvSpec X rcvrY rcvrCont ∧ partner = .MsgRoot2 msg ∧
          msg.Val = some (.SendImpl sndrX A valID) ∧
          procCtx.Linear.lookup rcvrY = some (some vs) ∧
          sndr = msg.ProcID ∧ rcvr = procCfg.ProcID ∧ rcvrPool = procCfg.PoolID ∧
          rcvrX = X ∧ release = []))
    (hX : procCfg.Chnls.lookup X = some viaChnl)
    (hstep : procCfg.Steps.lookup viaChnl.ChnlID = some (some partner))
    (hS : procCtx.Linear.lookup X = some (some S)) (hProd : S.Shape = .Prod nxt) :
    ∃ procMod b₁ b₂ b₃,
      takeWith newID procCtx procEnv procCfg (some t) =
          .ok ({ PoolID := rcvrPool, ProcID := rcvr, Term := rcvrCont }, procMod, none) ∧
        procMod.Bnds.Perm (release ++ [b₁, b₂, b₃]) ∧
        (b₁.ProcID = sndr ∧ b₁.ChnlPH = sndrX ∧ b₁.ChnlID = A) ∧
        (b₂.ProcID = rcvr ∧ b₂.ChnlPH = rcvrX ∧ b₂.ChnlID = A) ∧
        (b₃.ProcID = rcvr ∧ b₃.ChnlPH = rcvrY ∧ b₃.ChnlID = valID) := by
  rcases hmatch with
    ⟨Y, svc, valChnl, rfl, rfl, hc, hY, rfl, rfl, rfl, rfl, rfl, rfl⟩ |
    ⟨msg, vs, rfl, rfl, hv, hY, rfl, rfl, rfl, rfl, rfl⟩
  · have h : takeWith newID procCtx procEnv procCfg (some (.SendSpec sndrX Y)) =
        .ok ({ PoolID := svc.PoolID, ProcID := svc.ProcID, Term := rcvrCont },
          { Locks := [{ PoolID := procCfg.PoolID, Rev := procCfg.Rev }],
            Bnds := [{ ProcID := procCfg.ProcID, ChnlPH := Y, ChnlID := idNil,
                       StateID := idNil, Rev := -procCfg.Rev - 1 },
                     { ProcID := svc.ProcID, ChnlPH := rcvrX, ChnlID := A, StateID := nxt,
                       Rev := svc.Rev + 1 },
                     { ProcID := procCfg.ProcID, ChnlPH := sndrX, ChnlID := A,
                       StateID := nxt, Rev := procCfg.Rev + 1 },
                     { ProcID := svc.ProcID, ChnlPH := rcvrY, ChnlID := valChnl.ChnlID,
                       StateID := valChnl.StateID, Rev := svc.Rev + 1 }],
            Steps := [], Liabs := [] }, none) := by
      simp [takeWith, takeWithSendSpec, hX, hstep, hY, hS, hc,
        prodNext_of_Prod S nxt hProd, proc.Mod.zero]
    exact ⟨_, _, _, _, h, List.Perm.cons _ (List.Perm.swap _ _ _), ⟨rfl, rfl, rfl⟩,
      ⟨rfl, rfl, rfl⟩, ⟨rfl, rfl, rfl⟩⟩
  · have h : takeWith newID procCtx procEnv procCfg (some (.RecvSpec rcvrX rcvrY rcvrCont)) =
        .ok ({ PoolID := procCfg.PoolID, ProcID := procCfg.ProcID, Term := rcvrCont },
          { Locks := [{ PoolID := procCfg.PoolID, Rev := procCfg.Rev }],
            Bnds := [{ ProcID := msg.ProcID, ChnlPH := sndrX, ChnlID := A, StateID := nxt,
                       Rev := msg.Rev + 1 },
                     { ProcID := procCfg.ProcID, ChnlPH := rcvrX, ChnlID := A,
                       StateID := nxt, Rev := procCfg.Rev + 1 },
                     { ProcID := procCfg.ProcID, ChnlPH := rcvrY, ChnlID := valID,
                       StateID := vs.Ident, Rev := procCfg.Rev + 1 }],
            Steps := [], Liabs := [] }, none) := by
      simp [takeWith, takeWithRecvSpec, hX, hstep, hY, hS, hv,
        prodNext_of_Prod S nxt hProd, proc.Mod.zero]
    exact ⟨_, _, _, _, h, List.Perm.refl _, ⟨rfl, rfl, rfl⟩, ⟨rfl, rfl, rfl⟩,
      ⟨rfl, rfl, rfl⟩⟩

/-- C2 (witness): the amended statement at the Send arm of RecvSend. -/
theorem sendRecv_rendezvous_bindings_and_next_witness :
    ∃ procMod b₁ b₂ b₃,
      takeWith scenario.newID scenario.viaCtx scenario.env0 scenario.sndrCfgMatched
          (some scenario.sendTerm) = .ok (scenario.recvNext, procMod, none) ∧
        procMod.Bnds.Perm
          ([({ ProcID := 3, ChnlPH := PH.id 2, ChnlID := idNil, StateID := idNil,
               Rev := -6 - 1 } : proc.Bnd)] ++ [b₁, b₂, b₃]) ∧
        (b₁.ProcID = 3 ∧ b₁.ChnlPH = PH.id 1 ∧ b₁.ChnlID = 1000) ∧
        (b₂.ProcID = 1 ∧ b₂.ChnlPH = PH.id 1 ∧ b₂.ChnlID = 1000) ∧
        (b₃.ProcID = 1 ∧ b₃.ChnlPH = PH.id 2 ∧ b₃.ChnlID = 2) :=
  sendRecv_rendezvous_bindings_and_next scenario.newID scenario.viaCtx scenario.env0
    scenario.sndrCfgMatched scenario.sendTerm (PH.id 1) scenario.recvrChnl
    (.SvcRoot2 scenario.recvStep) scenario.lolli 12 1000 3 1 100 2 (PH.id 1) (PH.id 1)
    (PH.id 2) scenario.recvCont _
    (Or.inl ⟨PH.id 2, scenario.recvStep, scenario.msgChnl, rfl, rfl, rfl, rfl, rfl, rfl, rfl,
      rfl, rfl, rfl⟩)
    rfl rfl rfl rfl

/-- C3 (the code at the failing input): `Recv{X=recvr, Y=msg, Cont}` taken on the receiver
with no partner buffers one `Svc` step whose `RecvImpl` carries the spec's `X` and `Cont`
but the nil placeholder for `Y`, not the spec's `Y = msg`. -/
theorem recv_buffers_RecvImpl_without_Y :
    takeWith scenario.newID scenario.viaCtx scenario.env0 scenario.rcvrCfg
        (some (.RecvSpec (PH.id 1) (PH.id 2) scenario.recvCont)) =
      .ok (TranSpec.zero,
        { Locks := [{ PoolID := 100, Rev := 4 }], Bnds := [],
          Steps := [.SvcRoot2
            { PoolID := 100, ProcID := 1, ChnlID := 1, Rev := 4,
              Cont := some (.RecvImpl (PH.id 1) 1000 PH.nil scenario.recvCont) }],
          Liabs := [] }, none) ∧
    PH.nil ≠ PH.id 2 :=
  ⟨rfl, by decide⟩

/-- C4 (the code at the failing inputs): in RecvSend the receiver's value binding depends on
the arrival order. When the receive is buffered first and the send matches it, the binding
is made for the nil placeholder (not for the spec's `Y = msg`). When the send is buffered
first and the receive matches it, the binding takes its `StateID` from the receiver's own
linear context (77 here, not the state 11 of the sender's channel), and the call fails with
`MissingInCtx(msg)` when the receiver has no state for `msg`. -/
theorem sendRecv_value_binding_depends_on_order :
    (takeWith scenario.newID scenario.viaCtx scenario.env0 scenario.rcvrCfg
        (some scenario.recvTerm) =
      .ok (TranSpec.zero,
        { Locks := [{ PoolID := 100, Rev := 4 }], Bnds := [],
          Steps := [.SvcRoot2 scenario.recvBuffered], Liabs := [] }, none) ∧
     takeWith scenario.newID scenario.viaCtx scenario.env0 scenario.sndrCfgAfterRecv
        (some scenario.sendTerm) =
      .ok (scenario.recvNext,
        { Locks := [{ PoolID := 101, Rev := 6 }],
          Bnds := [{ ProcID := 3, ChnlPH := PH.id 2, ChnlID := idNil, StateID := idNil,
                     Rev := -7 },
                   { ProcID := 1, ChnlPH := PH.id 1, ChnlID := 1000, StateID := 12, Rev := 5 },
                   { ProcID := 3, ChnlPH := PH.id 1, ChnlID := 1000, StateID := 12, Rev := 7 },
                   { ProcID := 1, ChnlPH := PH.nil, ChnlID := 2, StateID := 11, Rev := 5 }],
          Steps := [], Liabs := [] }, none)) ∧
    (takeWith scenario.newID scenario.viaCtx scenario.env0 scenario.sndrCfg
        (some scenario.sendTerm) =
      .ok (TranSpec.zero,
        { Locks := [{ PoolID := 101, Rev := 6 }],
          Bnds := [{ ProcID := 3, ChnlPH := PH.id 2, ChnlID := idNil, StateID := idNil,
                     Rev := -7 }],
          Steps := [.MsgRoot2 scenario.sendStep], Liabs := [] }, none) ∧
     takeWith scenario.newID scenario.viaValCtx scenario.env0 scenario.rcvrCfgMatched
        (some scenario.recvTerm) =
      .ok (scenario.recvNext,
        { Locks := [{ PoolID := 100, Rev := 4 }],
          Bnds := [{ ProcID := 3, ChnlPH := PH.id 1, ChnlID := 1000, StateID := 12, Rev := 7 },
                   { ProcID := 1, ChnlPH := PH.id 1, ChnlID := 1000, StateID := 12, Rev := 5 },
                   { ProcID := 1, ChnlPH := PH.id 2, ChnlID := 2, StateID := 77, Rev := 5 }],
          Steps := [], Liabs := [] }, none) ∧
     takeWith scenario.newID scenario.viaCtx scenario.env0 scenario.rcvrCfgMatched
        (some scenario.recvTerm) =
      .ok (TranSpec.zero, proc.Mod.zero, some (.stateErrMissingInCtx (PH.id 2)))) :=
  ⟨⟨rfl, rfl⟩, rfl, rfl, rfl⟩

/-- The six paired arms (Close, Wait, Send, Recv, Lab, Case) return exactly one lock,
`Lock{snap.PoolID, snap.Rev}`, whenever they succeed. -/
theorem takeWith_locks_of_paired
    (newID : Nat → ID) (procCtx : state.Context) (procEnv : Environment)
    (procCfg : proc.Snap) (t : step.Term) (tranSpec : TranSpec) (procMod : proc.Mod)
    (ht : t.isPaired = true)
    (hok : takeWith newID procCtx procEnv procCfg (some t) = .ok (tranSpec, procMod, none)) :
    procMod.Locks = [{ PoolID := procCfg.PoolID, Rev := procCfg.Rev }] := by
  cases t <;> simp [step.Term.isPaired] at ht
  all_goals
    simp only [takeWith, takeWithCloseSpec, takeWithWaitSpec, takeWithSendSpec,
      takeWithRecvSpec, takeWithLabSpec, takeWithCaseSpec, failWith, proc.Mod.zero] at hok
    repeat' split at hok
    all_goals first
      | (simp at hok; done)
      | (simp at hok; obtain ⟨-, rfl⟩ := hok; rfl)

/-- C5 (the code at the failing inputs): a successful `Fwd{X=forwarder, Y=closer}` and a
successful `Spawn` return a mod without any lock, although the bindings they write are
stamped against the acting process's revision. -/
theorem fwd_and_spawn_return_no_lock :
    takeWith scenario.newID scenario.fwdCtx scenario.env0 scenario.fwdCfg
        (some scenario.fwdTerm) =
      .ok (TranSpec.zero,
        { Locks := [],
          Bnds := [{ ProcID := 6, ChnlPH := PH.id 6, ChnlID := 6, StateID := idNil, Rev := -3 },
                   { ProcID := 6, ChnlPH := PH.id 5, ChnlID := 5, StateID := idNil, Rev := -3 }],
          Steps := [.MsgRoot2 { PoolID := 100, ProcID := 6, ChnlID := 6, Rev := 2,
                                Val := some (.FwdImpl PH.nil 5) }],
          Liabs := [] }, none) ∧
    takeWith scenario.newID scenario.fwdCtx scenario.spawnEnv scenario.fwdCfg
        (some scenario.spawnTerm) =
      .ok ({ PoolID := 100, ProcID := 6,
             Term := some (.WaitSpec (PH.sym "z") (some (.CloseSpec (PH.id 6)))) },
        { Locks := [],
          Bnds := [{ ProcID := 6, ChnlPH := PH.sym "z", ChnlID := 1001, StateID := 11,
                     Rev := 3 },
                   { ProcID := 1000, ChnlPH := PH.sym "x", ChnlID := 1001, StateID := 11,
                     Rev := 4 }],
          Steps := [], Liabs := [{ ProcID := 1000, PoolID := 200, Rev := 4 }] }, none) :=
  ⟨rfl, rfl⟩

/-- C6 (counterexample): a `Fwd` whose `X` is bound to a channel without a step slot fails
with `MissingInCtx(X)`, not with `MissingInCfg(ChnlID)`, when the linear context has no state
for `X`. -/
theorem fwd_missing_slot_counterexample :
    takeWith scenario.newID scenario.emptyCtx scenario.env0 scenario.fwdCfgNoSlot
        (some scenario.fwdTerm) =
      .ok (TranSpec.zero, proc.Mod.zero, some (.stateErrMissingInCtx (PH.id 6))) ∧
    scenario.fwdCfgNoSlot.Chnls.lookup (PH.id 6) = some scenario.fwdChnl ∧
    scenario.fwdCfgNoSlot.Steps.lookup scenario.fwdChnl.ChnlID = none ∧
    Err.stateErrMissingInCtx (PH.id 6) ≠ Err.stepErrMissingInCfg (PH.id 6) :=
  ⟨rfl, rfl, rfl, by decide⟩

/-- C6 (amended): for every Close, Wait, Send, Recv, Lab, Case or Fwd term, if its `X` is
not a key of `snap.Chnls` then `takeWith` fails with `MissingInCfg(X)`; and if `X` is bound
to a channel whose `ChnlID` is not a key of `snap.Steps` then it fails with
`MissingInCfg(ChnlID)`, for Fwd provided the linear context has an entry for `X`. In both
cases the call returns (no panic) the zero next spec and the zero mod. -/
theorem takeWith_missing_in_cfg
    (newID : Nat → ID) (procCtx : state.Context) (procEnv : Environment)
    (procCfg : proc.Snap) (t : step.Term) (err : Err)
    (ht : t.isPaired = true ∨ t.isFwd = true)
    (hmiss :
      (procCfg.Chnls.lookup t.Via = none ∧ err = .chnlErrMissingInCfg t.Via) ∨
      (∃ viaChnl, procCfg.Chnls.lookup t.Via = some viaChnl ∧
          procCfg.Steps.lookup viaChnl.ChnlID = none ∧
          (t.isFwd = true → procCtx.Linear.lookup t.Via ≠ none) ∧
          err = .stepErrMissingInCfg (PH.id viaChnl.ChnlID))) :
    takeWith newID procCtx procEnv procCfg (some t) =
      .ok (TranSpec.zero, proc.Mod.zero, some err) := by
  cases t <;> simp [step.Term.isPaired, step.Term.isFwd] at ht
  all_goals
    rcases hmiss with ⟨hX, rfl⟩ | ⟨viaChnl, hX, hS, hL, rfl⟩
    · simp only [step.Term.Via] at hX
      simp [takeWith, takeWithCloseSpec, takeWithWaitSpec, takeWithSendSpec,
        takeWithRecvSpec, takeWithLabSpec, takeWithCaseSpec, takeWithFwdSpec, failWith, hX,
        step.Term.Via]
    · simp only [step.Term.Via, step.Term.isFwd] at hX hL
      first
        | (simp [takeWith, takeWithCloseSpec, takeWithWaitSpec, takeWithSendSpec,
            takeWithRecvSpec, takeWithLabSpec, takeWithCaseSpec, failWith, hX, hS,
            step.Term.Via]; done)
        | (rename_i X Y
           cases hl : procCtx.Linear.lookup X with
           | none => exact absurd hl (hL trivial)
           | some viaState =>
             simp [takeWith, takeWithFwdSpec, failWith, hX, hS, hl])

/-- C6 (witness): a `Fwd` on a forwarder without a step slot whose context knows `X`, and a
`Close` on a placeholder the receiver does not bind. -/
theorem takeWith_missing_in_cfg_witness :
    takeWith scenario.newID scenario.fwdCtx scenario.env0 scenario.fwdCfgNoSlot
        (some scenario.fwdTerm) =
      .ok (TranSpec.zero, proc.Mod.zero, some (.stepErrMissingInCfg (PH.id 6))) ∧
    takeWith scenario.newID scenario.viaCtx scenario.env0 scenario.rcvrCfg
        (some (.CloseSpec (PH.id 9))) =
      .ok (TranSpec.zero, proc.Mod.zero, some (.chnlErrMissingInCfg (PH.id 9))) :=
  ⟨takeWith_missing_in_cfg scenario.newID scenario.fwdCtx scenario.env0
      scenario.fwdCfgNoSlot scenario.fwdTerm _ (Or.inr rfl)
      (Or.inr ⟨scenario.fwdChnl, rfl, rfl, fun _ h => Option.noConfusion h, rfl⟩),
    takeWith_missing_in_cfg scenario.newID scenario.viaCtx scenario.env0 scenario.rcvrCfg
      (.CloseSpec (PH.id 9)) _ (Or.inl rfl) (Or.inl ⟨rfl, rfl⟩)⟩

/-- C7: for every Close, Wait, Send, Recv, Lab, Case or Fwd term on which `takeWith`
succeeds, with the via channel's step slot holding `slot`: if the slot is null, `mod.Steps`
is exactly one step, a `Msg` or `Svc` step with `PoolID = snap.PoolID`,
`ProcID = snap.ProcID` and `ChnlID` the via channel's, and the next spec has a nil `Term`;
if a partner step is present, `mod.Steps` is empty. -/
theorem takeWith_buffers_at_most_one_step
    (newID : Nat → ID) (procCtx : state.Context) (procEnv : Environment)
    (procCfg : proc.Snap) (t : step.Term) (viaChnl : proc.Chnl)
    (slot : Option step.Root) (tranSpec : TranSpec) (procMod : proc.Mod)
    (ht : t.isPaired = true ∨ t.isFwd = true)
    (hX : procCfg.Chnls.lookup t.Via = some viaChnl)
    (hstep : procCfg.Steps.lookup viaChnl.ChnlID = some slot)
    (hok : takeWith newID procCtx procEnv procCfg (some t) = .ok (tranSpec, procMod, none)) :
    (slot = none →
      tranSpec.Term = none ∧
      ((∃ m : step.MsgRoot2, procMod.Steps = [.MsgRoot2 m] ∧ m.PoolID = procCfg.PoolID ∧
          m.ProcID = procCfg.ProcID ∧ m.ChnlID = viaChnl.ChnlID) ∨
       (∃ v : step.SvcRoot2, procMod.Steps = [.SvcRoot2 v] ∧ v.PoolID = procCfg.PoolID ∧
          v.ProcID = procCfg.ProcID ∧ v.ChnlID = viaChnl.ChnlID))) ∧
    (slot ≠ none → procMod.Steps = []) := by
  cases t <;> simp [step.Term.isPaired, step.Term.isFwd] at ht
  all_goals
    simp only [step.Term.Via] at hX
    simp only [takeWith, takeWithCloseSpec, takeWithWaitSpec, takeWithSendSpec,
      takeWithRecvSpec, takeWithLabSpec, takeWithCaseSpec, takeWithFwdSpec, failWith,
      proc.Mod.zero, TranSpec.zero, hX, hstep] at hok
    repeat' split at hok
    all_goals first
      | (simp at hok; done)
      | (simp_all; done)
      | (simp at hok; obtain ⟨rfl, rfl⟩ := hok; simp_all)

/-- C7 (witness): `Close{X=closer}` on the closer with nothing buffered (one step, no next
term), stated for the null slot. -/
theorem takeWith_buffers_at_most_one_step_witness :
    (TranSpec.zero.Term = none ∧
      ((∃ m : step.MsgRoot2, scenario.closeBufferedMod.Steps = [.MsgRoot2 m] ∧
          m.PoolID = scenario.closerCfg.PoolID ∧ m.ProcID = scenario.closerCfg.ProcID ∧
          m.ChnlID = scenario.closerChnl.ChnlID) ∨
       (∃ v : step.SvcRoot2, scenario.closeBufferedMod.Steps = [.SvcRoot2 v] ∧
          v.PoolID = scenario.closerCfg.PoolID ∧ v.ProcID = scenario.closerCfg.ProcID ∧
          v.ChnlID = scenario.closerChnl.ChnlID))) ∧
    scenario.sendMatchedMod.Steps = [] :=
  ⟨(takeWith_buffers_at_most_one_step scenario.newID scenario.emptyCtx scenario.env0
      scenario.closerCfg scenario.closeTerm scenario.closerChnl none TranSpec.zero
      scenario.closeBufferedMod (Or.inl rfl) rfl rfl rfl).1 rfl,
   (takeWith_buffers_at_most_one_step scenario.newID scenario.viaCtx scenario.env0
      scenario.sndrCfgMatched scenario.sendTerm scenario.recvrChnl
      (some (.SvcRoot2 scenario.recvStep)) scenario.recvNext scenario.sendMatchedMod
      (Or.inl rfl) rfl rfl rfl).2 (fun h => Option.noConfusion h)⟩

/-- C8: with `X` bound and the step slot of its channel null, `Close{X}` buffers a `Msg`
step whose `Val` is `CloseImpl{X}` and `Wait{X, Cont}` buffers an `Svc` step whose `Cont` is
`WaitImpl{X, Cont}`; in both cases the mod has exactly one binding, for the acting process
and `X`'s current `ChnlID` and `StateID`, with `Rev = -snap.Rev-1` (`-1` when
`snap.Rev = 0`), and the next spec is the zero spec (nil `Term`). -/
theorem closeWait_no_partner
    (newID : Nat → ID) (procCtx : state.Context) (procEnv : Environment)
    (procCfg : proc.Snap) (t : step.Term) (X : PH) (viaChnl : proc.Chnl)
    (buffered : Rev → step.Root)
    (hterm :
      (t = .CloseSpec X ∧
        buffered = fun rev => .MsgRoot2
          { PoolID := procCfg.PoolID, ProcID := procCfg.ProcID, ChnlID := viaChnl.ChnlID,
            Val := some (.CloseImpl X), Rev := rev }) ∨
      (∃ Cont, t = .WaitSpec X Cont ∧
        buffered = fun rev => .SvcRoot2
          { PoolID := procCfg.PoolID, ProcID := procCfg.ProcID, ChnlID := viaChnl.ChnlID,
            Cont := some (.WaitImpl X Cont), Rev := rev }))
    (hX : procCfg.Chnls.lookup X = some viaChnl)
    (hnull : procCfg.Steps.lookup viaChnl.ChnlID = some none) :
    ∃ rev b,
      takeWith newID procCtx procEnv procCfg (some t) =
        .ok (TranSpec.zero,
          { Locks := [{ PoolID := procCfg.PoolID, Rev := procCfg.Rev }], Bnds := [b],
            Steps := [buffered rev], Liabs := [] }, none) ∧
      b = { ProcID := procCfg.ProcID, ChnlPH := X, ChnlID := viaChnl.ChnlID,
            StateID := viaChnl.StateID, Rev := -procCfg.Rev - 1 } ∧
      (procCfg.Rev = 0 → b.Rev = -1) ∧
      TranSpec.zero.Term = none := by
  rcases hterm with ⟨rfl, rfl⟩ | ⟨Cont, rfl, rfl⟩
  · refine ⟨procCfg.Rev + 1, _, ?_, rfl, ?_, rfl⟩
    · simp [takeWith, takeWithCloseSpec, hX, hnull, proc.Mod.zero]
    · intro h
      simp [h]
  · refine ⟨0, _, ?_, rfl, ?_, rfl⟩
    · simp [takeWith, takeWithWaitSpec, hX, hnull, proc.Mod.zero]
    · intro h
      simp [h]

/-- C8 (witness): the first take of WaitClose, `Close{X=closer}` at revision 0, and the
wait of the waiter at revision 3. -/
theorem closeWait_no_partner_witness :
    (∃ rev b,
      takeWith scenario.newID scenario.emptyCtx scenario.env0 scenario.closerCfg
          (some (.CloseSpec (PH.id 5))) =
        .ok (TranSpec.zero,
          { Locks := [{ PoolID := 100, Rev := 0 }], Bnds := [b],
            Steps := [.MsgRoot2 { PoolID := 100, ProcID := 5, ChnlID := 5,
                                  Val := some (.CloseImpl (PH.id 5)), Rev := rev }],
            Liabs := [] }, none) ∧
      b = { ProcID := 5, ChnlPH := PH.id 5, ChnlID := 5, StateID := 11, Rev := -0 - 1 } ∧
      ((0 : Rev) = 0 → b.Rev = -1) ∧
      TranSpec.zero.Term = none) ∧
    (∃ rev b,
      takeWith scenario.newID scenario.emptyCtx scenario.env0 scenario.waiterCfg
          (some (.WaitSpec (PH.id 5) scenario.waitCont)) =
        .ok (TranSpec.zero,
          { Locks := [{ PoolID := 100, Rev := 3 }], Bnds := [b],
            Steps := [.SvcRoot2 { PoolID := 100, ProcID := 7, ChnlID := 5,
                                  Cont := some (.WaitImpl (PH.id 5) scenario.waitCont),
                                  Rev := rev }],
            Liabs := [] }, none) ∧
      b = { ProcID := 7, ChnlPH := PH.id 5, ChnlID := 5, StateID := 11, Rev := -3 - 1 } ∧
      ((3 : Rev) = 0 → b.Rev = -1) ∧
      TranSpec.zero.Term = none) :=
  ⟨closeWait_no_partner scenario.newID scenario.emptyCtx scenario.env0 scenario.closerCfg
      (.CloseSpec (PH.id 5)) (PH.id 5) scenario.closerChnl _ (Or.inl ⟨rfl, rfl⟩) rfl rfl,
   closeWait_no_partner scenario.newID scenario.emptyCtx scenario.env0 scenario.waiterCfg
      (.WaitSpec (PH.id 5) scenario.waitCont) (PH.id 5) scenario.closerChnl _
      (Or.inr ⟨scenario.waitCont, rfl, rfl⟩) rfl rfl⟩

/-- C9: Close/Wait rendezvous yields the same next spec in either arrival order. Let the
waiter `W` take `Wait{XW, Cont}` and the closer `C` take `Close{XC}`, each with its
placeholder bound; the first of them (the waiter iff `waitFirst`) finds its slot null and
buffers the step `s`, the other finds `s` in its slot. Then the matching call succeeds with
next spec `{PoolID of W, ProcID of W, Term = Cont}`, and the closer's own call succeeds with
the single binding of `XC` at `Rev = -snap.Rev-1` and a next spec that is either without
term or addressed to `W`. -/
theorem closeWait_rendezvous_either_order
    (newID : Nat → ID) (ctxW ctxC : state.Context) (envW envC : Environment)
    (cfgW cfgC : proc.Snap) (XW XC : PH) (Cont : Option step.Term) (chW chC : proc.Chnl)
    (waitFirst : Bool) (s : step.Root) (ts₁ : TranSpec) (mod₁ : proc.Mod)
    (hW : cfgW.Chnls.lookup XW = some chW) (hC : cfgC.Chnls.lookup XC = some chC)
    (hslots :
      if waitFirst then
        cfgW.Steps.lookup chW.ChnlID = some none ∧
          cfgC.Steps.lookup chC.ChnlID = some (some s)
      else
        cfgC.Steps.lookup chC.ChnlID = some none ∧
          cfgW.Steps.lookup chW.ChnlID = some (some s))
    (hfirst :
      (if waitFirst then takeWith newID ctxW envW cfgW (some (.WaitSpec XW Cont))
        else takeWith newID ctxC envC cfgC (some (.CloseSpec XC))) = .ok (ts₁, mod₁, none))
    (hbuf : mod₁.Steps = [s]) :
    ∃ modM tsC modC,
      (if waitFirst then takeWith newID ctxC envC cfgC (some (.CloseSpec XC))
        else takeWith newID ctxW envW cfgW (some (.WaitSpec XW Cont))) =
        .ok ({ PoolID := cfgW.PoolID, ProcID := cfgW.ProcID, Term := Cont }, modM, none) ∧
      takeWith newID ctxC envC cfgC (some (.CloseSpec XC)) = .ok (tsC, modC, none) ∧
      modC.Bnds = [{ ProcID := cfgC.ProcID, ChnlPH := XC, ChnlID := chC.ChnlID,
                     StateID := chC.StateID, Rev := -cfgC.Rev - 1 }] ∧
      (tsC.Term = none ∨ (tsC.PoolID = cfgW.PoolID ∧ tsC.ProcID = cfgW.ProcID)) := by
  cases waitFirst with
  | true =>
    simp only [if_true] at hslots hfirst ⊢
    obtain ⟨hnull, hsee⟩ := hslots
    simp [takeWith, takeWithWaitSpec, hW, hnull, proc.Mod.zero] at hfirst
    obtain ⟨-, rfl⟩ := hfirst
    simp at hbuf
    subst hbuf
    have hclose : takeWith newID ctxC envC cfgC (some (.CloseSpec XC)) =
        .ok ({ PoolID := cfgW.PoolID, ProcID := cfgW.ProcID, Term := Cont },
          { Locks := [{ PoolID := cfgC.PoolID, Rev := cfgC.Rev }],
            Bnds := [{ ProcID := cfgC.ProcID, ChnlPH := XC, ChnlID := chC.ChnlID,
                       StateID := chC.StateID, Rev := -cfgC.Rev - 1 }],
            Steps := [], Liabs := [] }, none) := by
      simp [takeWith, takeWithCloseSpec, hC, hsee, proc.Mod.zero]
    exact ⟨_, _, _, hclose, hclose, rfl, Or.inr ⟨rfl, rfl⟩⟩
  | false =>
    simp only [Bool.false_eq_true, if_false] at hslots hfirst ⊢
    obtain ⟨hnull, hsee⟩ := hslots
    have hclose := hfirst
    simp [takeWith, takeWithCloseSpec, hC, hnull, proc.Mod.zero] at hfirst
    obtain ⟨rfl, rfl⟩ := hfirst
    simp at hbuf
    subst hbuf
    have hwait : takeWith newID ctxW envW cfgW (some (.WaitSpec XW Cont)) =
        .ok ({ PoolID := cfgW.PoolID, ProcID := cfgW.ProcID, Term := Cont },
          { Locks := [{ PoolID := cfgW.PoolID, Rev := cfgW.Rev }],
            Bnds := [{ ProcID := cfgW.ProcID, ChnlPH := XW, ChnlID := chW.ChnlID,
                       StateID := chW.StateID, Rev := -cfgW.Rev - 1 }],
            Steps := [], Liabs := [] }, none) := by
      simp [takeWith, takeWithWaitSpec, hW, hsee, proc.Mod.zero]
    exact ⟨_, _, _, hwait, hclose, rfl, Or.inl rfl⟩

/-- C9 (witness): WaitClose with the wait buffered first, and with the close buffered
first. -/
theorem closeWait_rendezvous_either_order_witness :
    (∃ modM tsC modC,
      takeWith scenario.newID scenario.emptyCtx scenario.env0 scenario.closerCfgMatched
          (some (.CloseSpec (PH.id 5))) =
        .ok ({ PoolID := 100, ProcID := 7, Term := scenario.waitCont }, modM, none) ∧
      takeWith scenario.newID scenario.emptyCtx scenario.env0 scenario.closerCfgMatched
          (some (.CloseSpec (PH.id 5))) = .ok (tsC, modC, none) ∧
      modC.Bnds = [{ ProcID := 5, ChnlPH := PH.id 5, ChnlID := 5, StateID := 11,
                     Rev := -0 - 1 }] ∧
      (tsC.Term = none ∨ (tsC.PoolID = 100 ∧ tsC.ProcID = 7))) ∧
    (∃ modM tsC modC,
      takeWith scenario.newID scenario.emptyCtx scenario.env0 scenario.waiterCfgMatched
          (some (.WaitSpec (PH.id 5) scenario.waitCont)) =
        .ok ({ PoolID := 100, ProcID := 7, Term := scenario.waitCont }, modM, none) ∧
      takeWith scenario.newID scenario.emptyCtx scenario.env0 scenario.closerCfg
          (some (.CloseSpec (PH.id 5))) = .ok (tsC, modC, none) ∧
      modC.Bnds = [{ ProcID := 5, ChnlPH := PH.id 5, ChnlID := 5, StateID := 11,
                     Rev := -0 - 1 }] ∧
      (tsC.Term = none ∨ (tsC.PoolID = 100 ∧ tsC.ProcID = 7))) :=
  ⟨closeWait_rendezvous_either_order scenario.newID scenario.emptyCtx scenario.emptyCtx
      scenario.env0 scenario.env0 scenario.waiterCfg scenario.closerCfgMatched (PH.id 5)
      (PH.id 5) scenario.waitCont scenario.closerChnl scenario.closerChnl true
      (.SvcRoot2 scenario.waitStep) TranSpec.zero scenario.waitBufferedMod rfl rfl
      ⟨rfl, rfl⟩ rfl rfl,
   closeWait_rendezvous_either_order scenario.newID scenario.emptyCtx scenario.emptyCtx
      scenario.env0 scenario.env0 scenario.waiterCfgMatched scenario.closerCfg (PH.id 5)
      (PH.id 5) scenario.waitCont scenario.closerChnl scenario.closerChnl false
      (.MsgRoot2 scenario.closeStep) TranSpec.zero scenario.closeBufferedMod rfl rfl
      ⟨rfl, rfl⟩ rfl rfl⟩

/-- C10: for every `Wait{X, Cont}` that finds a buffered `Msg` step whose `Val` is
`FwdImpl{B}`, `takeWith` succeeds, the mod has exactly one binding, which rebinds the
waiter's `X` to `ChnlID = B` keeping `X`'s `StateID`, no step is buffered, and the next spec
is the same `Wait` term addressed to the same pool and process. -/
theorem wait_on_forward_rebinds_and_retries
    (newID : Nat → ID) (procCtx : state.Context) (procEnv : Environment)
    (procCfg : proc.Snap) (X implX : PH) (Cont : Option step.Term) (viaChnl : proc.Chnl)
    (msgStep : step.MsgRoot2) (B : ID)
    (hX : procCfg.Chnls.lookup X = some viaChnl)
    (hstep : procCfg.Steps.lookup viaChnl.ChnlID = some (some (.MsgRoot2 msgStep)))
    (hfwd : msgStep.Val = some (.FwdImpl implX B)) :
    ∃ procMod b,
      takeWith newID procCtx procEnv procCfg (some (.WaitSpec X Cont)) =
        .ok ({ PoolID := procCfg.PoolID, ProcID := procCfg.ProcID,
               Term := some (.WaitSpec X Cont) }, procMod, none) ∧
      procMod.Bnds = [b] ∧
      b.ProcID = procCfg.ProcID ∧ b.ChnlPH = X ∧ b.ChnlID = B ∧
      b.StateID = viaChnl.StateID ∧
      procMod.Steps = [] := by
  refine ⟨{ Locks := [{ PoolID := procCfg.PoolID, Rev := procCfg.Rev }],
            Bnds := [{ ProcID := procCfg.ProcID, ChnlPH := X, ChnlID := B,
                       StateID := viaChnl.StateID, Rev := procCfg.Rev + 1 }],
            Steps := [], Liabs := [] }, _, ?_, rfl, rfl, rfl, rfl, rfl, rfl⟩
  simp [takeWith, takeWithWaitSpec, hX, hstep, hfwd, proc.Mod.zero]

/-- C10 (witness): the waiter of the Fwd scenario finds a forward to channel 9 on the
channel it waits on. -/
theorem wait_on_forward_rebinds_and_retries_witness :
    ∃ procMod b,
      takeWith scenario.newID scenario.emptyCtx scenario.env0 scenario.waiterCfgFwd
          (some (.WaitSpec (PH.id 5) scenario.waitCont)) =
        .ok ({ PoolID := 100, ProcID := 7,
               Term := some (.WaitSpec (PH.id 5) scenario.waitCont) }, procMod, none) ∧
      procMod.Bnds = [b] ∧
      b.ProcID = 7 ∧ b.ChnlPH = PH.id 5 ∧ b.ChnlID = 9 ∧ b.StateID = 11 ∧
      procMod.Steps = [] :=
  wait_on_forward_rebinds_and_retries scenario.newID scenario.emptyCtx scenario.env0
    scenario.waiterCfgFwd (PH.id 5) PH.nil scenario.waitCont scenario.closerChnl
    { PoolID := 100, ProcID := 6, ChnlID := 5, Val := some (.FwdImpl PH.nil 9), Rev := 2 } 9
    rfl rfl rfl

/-- C11: for every `Send{X, Y}` with `X` and `Y` bound and the step slot of `X`'s channel
null, `takeWith` buffers one `Msg` step whose `Val` is `SendImpl{X, A, B}` with `B` the
`ChnlID` bound to `Y` and `A` the ID that `id.New()` returned, and records exactly one
binding, for the sender's `Y`, with nil `ChnlID`, nil `StateID` and `Rev = -snap.Rev-1`. -/
theorem send_no_partner
    (newID : Nat → ID) (procCtx : state.Context) (procEnv : Environment)
    (procCfg : proc.Snap) (X Y : PH) (viaChnl valChnl : proc.Chnl)
    (hX : procCfg.Chnls.lookup X = some viaChnl)
    (hY : procCfg.Chnls.lookup Y = some valChnl)
    (hnull : procCfg.Steps.lookup viaChnl.ChnlID = some none) :
    takeWith newID procCtx procEnv procCfg (some (.SendSpec X Y)) =
      .ok (TranSpec.zero,
        { Locks := [{ PoolID := procCfg.PoolID, Rev := procCfg.Rev }],
          Bnds := [{ ProcID := procCfg.ProcID, ChnlPH := Y, ChnlID := idNil,
                     StateID := idNil, Rev := -procCfg.Rev - 1 }],
          Steps := [.MsgRoot2
            { PoolID := procCfg.PoolID, ProcID := procCfg.ProcID, ChnlID := viaChnl.ChnlID,
              Val := some (.SendImpl X (newID 0) valChnl.ChnlID), Rev := procCfg.Rev }],
          Liabs := [] }, none) := by
  simp [takeWith, takeWithSendSpec, hX, hY, hnull, proc.Mod.zero]

/-- C11 (witness): the send of RecvSend taken first, on the sender with nothing buffered. -/
theorem send_no_partner_witness :
    takeWith scenario.newID scenario.viaCtx scenario.env0 scenario.sndrCfg
        (some (.SendSpec (PH.id 1) (PH.id 2))) =
      .ok (TranSpec.zero,
        { Locks := [{ PoolID := 101, Rev := 6 }],
          Bnds := [{ ProcID := 3, ChnlPH := PH.id 2, ChnlID := idNil, StateID := idNil,
                     Rev := -6 - 1 }],
          Steps := [.MsgRoot2
            { PoolID := 101, ProcID := 3, ChnlID := 1,
              Val := some (.SendImpl (PH.id 1) (scenario.newID 0) 2), Rev := 6 }],
          Liabs := [] }, none) :=
  send_no_partner scenario.newID scenario.viaCtx scenario.env0 scenario.sndrCfg (PH.id 1)
    (PH.id 2) scenario.recvrChnl scenario.msgChnl rfl rfl rfl

/-- C12: for every `Lab{X, L}` with `X` bound, the step slot of `X`'s channel null and
`procCtx.Linear[X]` a sum state `S`, `takeWith` buffers one `Msg` step whose `Val` is
`LabImpl{X, A, L}` and records exactly one binding, of the sender's `X` to that same `A`
(the ID that `id.New()` returned) with `StateID = S.Next(L)`. -/
theorem lab_no_partner
    (newID : Nat → ID) (procCtx : state.Context) (procEnv : Environment)
    (procCfg : proc.Snap) (X : PH) (L : Label) (viaChnl : proc.Chnl) (S : state.Root)
    (next : Label → ID)
    (hX : procCfg.Chnls.lookup X = some viaChnl)
    (hnull : procCfg.Steps.lookup viaChnl.ChnlID = some none)
    (hS : procCtx.Linear.lookup X = some (some S)) (hSum : S.Shape = .Sum next) :
    ∃ A rev,
      takeWith newID procCtx procEnv procCfg (some (.LabSpec X L)) =
        .ok (TranSpec.zero,
          { Locks := [{ PoolID := procCfg.PoolID, Rev := procCfg.Rev }],
            Bnds := [{ ProcID := procCfg.ProcID, ChnlPH := X, ChnlID := A,
                       StateID := next L, Rev := rev }],
            Steps := [.MsgRoot2
              { PoolID := procCfg.PoolID, ProcID := procCfg.ProcID,
                ChnlID := viaChnl.ChnlID, Val := some (.LabImpl X A L),
                Rev := procCfg.Rev + 1 }],
            Liabs := [] }, none) ∧
      A = newID 0 := by
  refine ⟨newID 0, procCfg.Rev + 1, ?_, rfl⟩
  simp [takeWith, takeWithLabSpec, hX, hnull, hS, sumNext_of_Sum S next L hSum, proc.Mod.zero]

/-- C12 (witness): the label of CaseLab taken first, on the decider with nothing
buffered. -/
theorem lab_no_partner_witness :
    ∃ A rev,
      takeWith scenario.newID scenario.sumCtx scenario.env0 scenario.deciderCfg
          (some (.LabSpec (PH.id 8) "label-1")) =
        .ok (TranSpec.zero,
          { Locks := [{ PoolID := 102, Rev := 5 }],
            Bnds := [{ ProcID := 9, ChnlPH := PH.id 8, ChnlID := A, StateID := 21,
                       Rev := rev }],
            Steps := [.MsgRoot2
              { PoolID := 102, ProcID := 9, ChnlID := 8,
                Val := some (.LabImpl (PH.id 8) A "label-1"), Rev := 5 + 1 }],
            Liabs := [] }, none) ∧
      A = scenario.newID 0 :=
  lab_no_partner scenario.newID scenario.sumCtx scenario.env0 scenario.deciderCfg (PH.id 8)
    "label-1" scenario.followerChnl scenario.withState
    (fun l => if l = "label-1" then 21 else 0) rfl rfl rfl rfl

/-- C13: Lab/Case rendezvous advances the state and selects the branch in either arrival
order. When `Lab{X, L}` finds a buffered `CaseImpl{X, A, Conts}` or `Case{X, Conts}` finds a
buffered `LabImpl{X, A, L}`, with `procCtx.Linear[X]` a sum state `S`, `takeWith` succeeds,
the mod's one binding is the receiver's binding for `X` with `ChnlID = A` and
`StateID = S.Next(L)`, and the next spec is addressed to the receiver's pool and process
with `Term = Conts[L]`. -/
theorem labCase_rendezvous
    (newID : Nat → ID) (procCtx : state.Context) (procEnv : Environment)
    (procCfg : proc.Snap) (t : step.Term) (X : PH) (viaChnl : proc.Chnl)
    (partner : step.Root) (S : state.Root) (next : Label → ID) (L : Label)
    (A rcvr rcvrPool : ID) (rcvrX : PH) (Conts : List (Label × Option step.Term))
    (hmatch :
      (∃ svc, t = .LabSpec X L ∧ partner = .SvcRoot2 svc ∧
          svc.Cont = some (.CaseImpl rcvrX A Conts) ∧
          rcvr = svc.ProcID ∧ rcvrPool = svc.PoolID) ∨
      (∃ msg implX, t = .CaseSpec X Conts ∧ partner = .MsgRoot2 msg ∧
          msg.Val = some (.LabImpl implX A L) ∧
          rcvr = procCfg.ProcID ∧ rcvrPool = procCfg.PoolID ∧ rcvrX = X))
    (hX : procCfg.Chnls.lookup X = some viaChnl)
    (hstep : procCfg.Steps.lookup viaChnl.ChnlID = some (some partner))
    (hS : procCtx.Linear.lookup X = some (some S)) (hSum : S.Shape = .Sum next) :
    ∃ procMod b,
      takeWith newID procCtx procEnv procCfg (some t) =
        .ok ({ PoolID := rcvrPool, ProcID := rcvr, Term := step.contsAt Conts L },
          procMod, none) ∧
      procMod.Bnds = [b] ∧
      b.ProcID = rcvr ∧ b.ChnlPH = rcvrX ∧ b.ChnlID = A ∧ b.StateID = next L := by
  rcases hmatch with ⟨svc, rfl, rfl, hc, rfl, rfl⟩ | ⟨msg, implX, rfl, rfl, hv, rfl, rfl, rfl⟩
  · have h : takeWith newID procCtx procEnv procCfg (some (.LabSpec X L)) =
        .ok ({ PoolID := svc.PoolID, ProcID := svc.ProcID, Term := step.contsAt Conts L },
          { Locks := [{ PoolID := procCfg.PoolID, Rev := procCfg.Rev }],
            Bnds := [{ ProcID := svc.ProcID, ChnlPH := rcvrX, ChnlID := A,
                       StateID := next L, Rev := svc.Rev + 1 }],
            Steps := [], Liabs := [] }, none) := by
      simp [takeWith, takeWithLabSpec, hX, hstep, hS, hc, sumNext_of_Sum S next L hSum,
        proc.Mod.zero]
    exact ⟨_, _, h, rfl, rfl, rfl, rfl, rfl⟩
  · have h : takeWith newID procCtx procEnv procCfg (some (.CaseSpec rcvrX Conts)) =
        .ok ({ PoolID := procCfg.PoolID, ProcID := procCfg.ProcID,
               Term := step.contsAt Conts L },
          { Locks := [{ PoolID := procCfg.PoolID, Rev := procCfg.Rev }],
            Bnds := [{ ProcID := procCfg.ProcID, ChnlPH := rcvrX, ChnlID := A,
                       StateID := next L, Rev := procCfg.Rev + 1 }],
            Steps := [], Liabs := [] }, none) := by
      simp [takeWith, takeWithCaseSpec, hX, hstep, hS, hv, sumNext_of_Sum S next L hSum,
        proc.Mod.zero]
    exact ⟨_, _, h, rfl, rfl, rfl, rfl, rfl⟩

/-- C13 (witness): CaseLab with the case buffered first (the label matches it) and with
the label buffered first (the case matches it); the next term is `Close{X=follower}`. -/
theorem labCase_rendezvous_witness :
    (∃ procMod b,
      takeWith scenario.newID scenario.sumCtx scenario.env0 scenario.deciderCfgMatched
          (some scenario.labTerm) =
        .ok ({ PoolID := 100, ProcID := 8, Term := some (.CloseSpec (PH.id 8)) },
          procMod, none) ∧
      procMod.Bnds = [b] ∧
      b.ProcID = 8 ∧ b.ChnlPH = PH.id 8 ∧ b.ChnlID = 1000 ∧ b.StateID = 21) ∧
    (∃ procMod b,
      takeWith scenario.newID scenario.sumCtx scenario.env0 scenario.followerCfgMatched
          (some scenario.caseTerm) =
        .ok ({ PoolID := 100, ProcID := 8, Term := some (.CloseSpec (PH.id 8)) },
          procMod, none) ∧
      procMod.Bnds = [b] ∧
      b.ProcID = 8 ∧ b.ChnlPH = PH.id 8 ∧ b.ChnlID = 1000 ∧ b.StateID = 21) :=
  ⟨labCase_rendezvous scenario.newID scenario.sumCtx scenario.env0
      scenario.deciderCfgMatched scenario.labTerm (PH.id 8) scenario.followerChnl
      (.SvcRoot2 scenario.caseStep) scenario.withState
      (fun l => if l = "label-1" then 21 else 0) "label-1" 1000 8 100 (PH.id 8)
      scenario.caseConts (Or.inl ⟨scenario.caseStep, rfl, rfl, rfl, rfl, rfl⟩) rfl rfl rfl rfl,
   labCase_rendezvous scenario.newID scenario.sumCtx scenario.env0
      scenario.followerCfgMatched scenario.caseTerm (PH.id 8) scenario.followerChnl
      (.MsgRoot2 scenario.labStep) scenario.withState
      (fun l => if l = "label-1" then 21 else 0) "label-1" 1000 8 100 (PH.id 8)
      scenario.caseConts (Or.inr ⟨scenario.labStep, PH.id 8, rfl, rfl, rfl, rfl, rfl, rfl⟩)
      rfl rfl rfl rfl⟩

/-- C14 (the code at the failing input): CaseLab in the order of the test, the case taken
first and the label matching it. The case buffers its step without any binding, and the
matching label returns the receiver's binding only: taking both mods together, no binding
belongs to the sender's process 9. In the other order the sender's binding of `X` to `A`
is recorded when the label is buffered. -/
theorem labCase_case_first_leaves_sender_unbound :
    (takeWith scenario.newID scenario.sumCtx scenario.env0 scenario.followerCfg
        (some scenario.caseTerm) =
      .ok (TranSpec.zero,
        { Locks := [{ PoolID := 100, Rev := 1 }], Bnds := [],
          Steps := [.SvcRoot2 scenario.caseStep], Liabs := [] }, none) ∧
     takeWith scenario.newID scenario.sumCtx scenario.env0 scenario.deciderCfgMatched
        (some scenario.labTerm) =
      .ok ({ PoolID := 100, ProcID := 8, Term := some (.CloseSpec (PH.id 8)) },
        { Locks := [{ PoolID := 102, Rev := 5 }],
          Bnds := [{ ProcID := 8, ChnlPH := PH.id 8, ChnlID := 1000, StateID := 21,
                     Rev := 3 }],
          Steps := [], Liabs := [] }, none) ∧
     ∀ b ∈ ([] : List proc.Bnd) ++
          [{ ProcID := 8, ChnlPH := PH.id 8, ChnlID := 1000, StateID := 21, Rev := 3 }],
        b.ProcID ≠ scenario.deciderCfg.ProcID) ∧
    (takeWith scenario.newID scenario.sumCtx scenario.env0 scenario.deciderCfg
        (some scenario.labTerm) =
      .ok (TranSpec.zero,
        { Locks := [{ PoolID := 102, Rev := 5 }],
          Bnds := [{ ProcID := 9, ChnlPH := PH.id 8, ChnlID := 1000, StateID := 21,
                     Rev := 6 }],
          Steps := [.MsgRoot2 scenario.labStep], Liabs := [] }, none) ∧
     takeWith scenario.newID scenario.sumCtx scenario.env0 scenario.followerCfgMatched
        (some scenario.caseTerm) =
      .ok ({ PoolID := 100, ProcID := 8, Term := some (.CloseSpec (PH.id 8)) },
        { Locks := [{ PoolID := 100, Rev := 1 }],
          Bnds := [{ ProcID := 8, ChnlPH := PH.id 8, ChnlID := 1000, StateID := 21,
                     Rev := 2 }],
          Steps := [], Liabs := [] }, none)) :=
  ⟨⟨rfl, rfl, by decide⟩, rfl, rfl⟩

section SpawnLoop

/-- The loop over `Ys`, when it runs to its end, leaves locks, steps and liabilities alone
and appends two bindings per argument: at `2k` the caller's binding of `Ys[k]` and at
`2k+1` the callee's binding of `sig.Ys[i+k].ChnlPH`, both to the channel and state that
`Ys[k]` has in the snap. -/
theorem spawnYs_inr (procCfg : proc.Snap) (rcvrProcID : ID) (rcvrSig : sig.Root)
    (rcvrRev : Rev) :
    ∀ (Ys : List PH) (i : Nat) (m m' : proc.Mod),
      spawnYs procCfg rcvrProcID rcvrSig rcvrRev i Ys m = .ok (.inr m') →
      m'.Locks = m.Locks ∧ m'.Steps = m.Steps ∧ m'.Liabs = m.Liabs ∧
      ∃ args : List proc.Bnd, m'.Bnds = m.Bnds ++ args ∧ args.length = 2 * Ys.length ∧
        ∀ k y, Ys[k]? = some y →
          ∃ valChnl ep, procCfg.Chnls.lookup y = some valChnl ∧
            rcvrSig.Ys[i + k]? = some ep ∧
            args[2 * k]? = some
              { ProcID := procCfg.ProcID, ChnlPH := y, ChnlID := valChnl.ChnlID,
                StateID := valChnl.StateID, Rev := -procCfg.Rev - 1 } ∧
            args[2 * k + 1]? = some
              { ProcID := rcvrProcID, ChnlPH := ep.ChnlPH, ChnlID := valChnl.ChnlID,
                StateID := valChnl.StateID, Rev := rcvrRev + 1 } := by
  intro Ys
  induction Ys with
  | nil =>
    intro i m m' h
    simp [spawnYs] at h
    subst h
    exact ⟨rfl, rfl, rfl, [], by simp, rfl, by simp⟩
  | cons y rest ih =>
    intro i m m' h
    simp only [spawnYs] at h
    cases hy : procCfg.Chnls.lookup y with
    | none => simp [hy] at h
    | some valChnl =>
      cases he : rcvrSig.Ys[i]? with
      | none => simp [hy, he] at h
      | some ep =>
        simp only [List.get?_eq_getElem?, hy, he] at h
        obtain ⟨hl, hs, hli, args, hb, hlen, hargs⟩ := ih (i + 1) _ m' h
        refine ⟨hl, hs, hli,
          { ProcID := procCfg.ProcID, ChnlPH := y, ChnlID := valChnl.ChnlID,
            StateID := valChnl.StateID, Rev := -procCfg.Rev - 1 } ::
          { ProcID := rcvrProcID, ChnlPH := ep.ChnlPH, ChnlID := valChnl.ChnlID,
            StateID := valChnl.StateID, Rev := rcvrRev + 1 } :: args, ?_, ?_, ?_⟩
        · simp [hb]
        · simp [hlen]; omega
        · intro k z hk
          cases k with
          | zero =>
            simp at hk
            subst hk
            exact ⟨valChnl, ep, hy, by simpa using he, by simp, by simp⟩
          | succ k =>
            simp at hk
            obtain ⟨vc, e, h1, h2, h3, h4⟩ := hargs k z (by simpa using hk)
            refine ⟨vc, e, h1, ?_, ?_, ?_⟩
            · rw [← h2]; congr 1; omega
            · rw [show 2 * (k + 1) = 2 * k + 1 + 1 by omega]
              simp only [List.getElem?_cons_succ]
              exact h3
            · rw [show 2 * (k + 1) + 1 = 2 * k + 1 + 1 + 1 by omega]
              simp only [List.getElem?_cons_succ]
              exact h4

/-- The loop over `Ys` runs to its end when every argument is bound in the snap and the
signature has an endpoint for every index the loop reaches. -/
theorem spawnYs_total (procCfg : proc.Snap) (rcvrProcID : ID) (rcvrSig : sig.Root)
    (rcvrRev : Rev) :
    ∀ (Ys : List PH) (i : Nat) (m : proc.Mod),
      (∀ y ∈ Ys, ∃ valChnl, procCfg.Chnls.lookup y = some valChnl) →
      i + Ys.length ≤ rcvrSig.Ys.length →
      ∃ m', spawnYs procCfg rcvrProcID rcvrSig rcvrRev i Ys m = .ok (.inr m') := by
  intro Ys
  induction Ys with
  | nil =>
    intro i m _ _
    exact ⟨m, by simp [spawnYs]⟩
  | cons y rest ih =>
    intro i m hb hlen
    obtain ⟨valChnl, hy⟩ := hb y (by simp)
    have hi : i < rcvrSig.Ys.length := by simp at hlen; omega
    obtain ⟨ep, he⟩ : ∃ ep, rcvrSig.Ys[i]? = some ep :=
      ⟨_, List.getElem?_eq_getElem hi⟩
    simp only [spawnYs, List.get?_eq_getElem?, hy, he]
    exact ih (i + 1) _ (fun z hz => hb z (by simp [hz])) (by simp at hlen; omega)

/-- The loop over `Ys` returns the missing-channel error of the first argument that is not
bound in the snap, when the signature has an endpoint for every argument before it. -/
theorem spawnYs_missing (procCfg : proc.Snap) (rcvrProcID : ID) (rcvrSig : sig.Root)
    (rcvrRev : Rev) (y : PH) (post : List PH) (hy : procCfg.Chnls.lookup y = none) :
    ∀ (pre : List PH) (i : Nat) (m : proc.Mod),
      (∀ z ∈ pre, ∃ valChnl, procCfg.Chnls.lookup z = some valChnl) →
      i + pre.length ≤ rcvrSig.Ys.length →
      spawnYs procCfg rcvrProcID rcvrSig rcvrRev i (pre ++ y :: post) m =
        .ok (.inl (.procErrMissingChnl y)) := by
  intro pre
  induction pre with
  | nil =>
    intro i m _ _
    simp [spawnYs, hy]
  | cons z rest ih =>
    intro i m hb hlen
    obtain ⟨valChnl, hz⟩ := hb z (by simp)
    have hi : i < rcvrSig.Ys.length := by simp at hlen; omega
    obtain ⟨ep, he⟩ : ∃ ep, rcvrSig.Ys[i]? = some ep :=
      ⟨_, List.getElem?_eq_getElem hi⟩
    simp only [List.cons_append, spawnYs, List.get?_eq_getElem?, hz, he]
    exact ih (i + 1) _ (fun w hw => hb w (by simp [hw])) (by simp at hlen; omega)

end SpawnLoop

/-- A spawn whose pool, signature and role resolve, whose arguments are all bound and
whose signature has an endpoint for each of them returns the mod that the loop over `Ys`
leaves, with the caller's continuation as next term. -/
theorem takeWith_spawn_of_loop
    (newID : Nat → ID) (procCtx : state.Context) (procEnv : Environment)
    (procCfg : proc.Snap) (X : PH) (Ys : List PH) (Ys2 : List ID) (SigID : ID)
    (PoolQN : Sym) (Cont : Option step.Term) (pool : proc.Lock) (rcvrSig : sig.Root)
    (rcvrRole : role.Root)
    (hpool : procEnv.Locks.lookup PoolQN = some pool)
    (hsig : procEnv.Sigs.lookup SigID = some rcvrSig)
    (hrole : procEnv.Roles.lookup rcvrSig.X.RoleQN = some rcvrRole)
    (hYs : ∀ y ∈ Ys, ∃ valChnl, procCfg.Chnls.lookup y = some valChnl)
    (harity : Ys.length ≤ rcvrSig.Ys.length) :
    ∃ m',
      spawnYs procCfg (newID 0) rcvrSig pool.Rev 0 Ys
        { Locks := [],
          Bnds := [{ ProcID := procCfg.ProcID, ChnlPH := X, ChnlID := newID 1,
                     StateID := rcvrRole.StateID, Rev := procCfg.Rev + 1 },
                   { ProcID := newID 0, ChnlPH := rcvrSig.X.ChnlPH, ChnlID := newID 1,
                     StateID := rcvrRole.StateID, Rev := pool.Rev + 1 }],
          Steps := [],
          Liabs := [{ ProcID := newID 0, PoolID := pool.PoolID, Rev := pool.Rev + 1 }] } =
        .ok (.inr m') ∧
      takeWith newID procCtx procEnv procCfg
          (some (.SpawnSpec X Ys Ys2 SigID PoolQN Cont)) =
        .ok ({ PoolID := procCfg.PoolID, ProcID := procCfg.ProcID, Term := Cont },
          m', none) := by
  obtain ⟨m', hm'⟩ := spawnYs_total procCfg (newID 0) rcvrSig pool.Rev Ys 0
    { Locks := [], Bnds := [{ ProcID := procCfg.ProcID, ChnlPH := X, ChnlID := newID 1,
                              StateID := rcvrRole.StateID, Rev := procCfg.Rev + 1 },
                            { ProcID := newID 0, ChnlPH := rcvrSig.X.ChnlPH,
                              ChnlID := newID 1, StateID := rcvrRole.StateID,
                              Rev := pool.Rev + 1 }],
      Steps := [],
      Liabs := [{ ProcID := newID 0, PoolID := pool.PoolID, Rev := pool.Rev + 1 }] }
    hYs (by simpa using harity)
  refine ⟨m', hm', ?_⟩
  simp only [takeWith, takeWithSpawnSpec, hpool, hsig, hrole, proc.Mod.zero,
    List.nil_append, List.singleton_append, List.cons_append]
  rw [hm']

/-- C15 (counterexample): a spawn whose pool, signature and role resolve and whose one
argument is bound panics with an index out of range when the signature declares no client
endpoint. -/
theorem spawn_short_sig_counterexample :
    scenario.spawnEnv3.Locks.lookup "pool-1" = some { PoolID := 200, Rev := 3 } ∧
    scenario.spawnEnv3.Sigs.lookup 50 = some scenario.oneSig ∧
    scenario.spawnEnv3.Roles.lookup scenario.oneSig.X.RoleQN = some { StateID := 11 } ∧
    scenario.spawnerCfg.Chnls.lookup (PH.id 3) = some scenario.injChnl ∧
    takeWith scenario.newID scenario.emptyCtx scenario.spawnEnv3 scenario.spawnerCfg
        (some scenario.spawnTermShortSig) = .error .indexOutOfRange :=
  ⟨rfl, rfl, rfl, rfl, rfl⟩

/-- C15 (amended): for every `Spawn{X, Ys, SigID, PoolQN, Cont}` whose pool, signature and
role resolve in the environment, whose `Ys` are all bound in the snap and whose signature
declares at least as many client endpoints as the spawn has arguments, `takeWith` succeeds
without buffering any step and returns one `Liab{p', pool.PoolID, pool.Rev+1}`, as first
bindings the caller's `X -> A` and the callee's `sig.X.ChnlPH -> A` for `p'` (same `A`,
`StateID` the role's state), and next spec `{snap.PoolID, snap.ProcID, Cont}`; `p'` and `A`
are the results of the two calls of `id.New()`. -/
theorem spawn_completes
    (newID : Nat → ID) (procCtx : state.Context) (procEnv : Environment)
    (procCfg : proc.Snap) (X : PH) (Ys : List PH) (Ys2 : List ID) (SigID : ID)
    (PoolQN : Sym) (Cont : Option step.Term) (pool : proc.Lock) (rcvrSig : sig.Root)
    (rcvrRole : role.Root)
    (hpool : procEnv.Locks.lookup PoolQN = some pool)
    (hsig : procEnv.Sigs.lookup SigID = some rcvrSig)
    (hrole : procEnv.Roles.lookup rcvrSig.X.RoleQN = some rcvrRole)
    (hYs : ∀ y ∈ Ys, ∃ valChnl, procCfg.Chnls.lookup y = some valChnl)
    (harity : Ys.length ≤ rcvrSig.Ys.length) :
    ∃ procMod args,
      takeWith newID procCtx procEnv procCfg
          (some (.SpawnSpec X Ys Ys2 SigID PoolQN Cont)) =
        .ok ({ PoolID := procCfg.PoolID, ProcID := procCfg.ProcID, Term := Cont },
          procMod, none) ∧
      procMod.Steps = [] ∧
      procMod.Liabs = [{ ProcID := newID 0, PoolID := pool.PoolID, Rev := pool.Rev + 1 }] ∧
      procMod.Bnds =
        { ProcID := procCfg.ProcID, ChnlPH := X, ChnlID := newID 1,
          StateID := rcvrRole.StateID, Rev := procCfg.Rev + 1 } ::
        { ProcID := newID 0, ChnlPH := rcvrSig.X.ChnlPH, ChnlID := newID 1,
          StateID := rcvrRole.StateID, Rev := pool.Rev + 1 } :: args := by
  obtain ⟨m', hm', h⟩ := takeWith_spawn_of_loop newID procCtx procEnv procCfg X Ys Ys2 SigID
    PoolQN Cont pool rcvrSig rcvrRole hpool hsig hrole hYs harity
  obtain ⟨-, hs, hl, args, hb, -, -⟩ := spawnYs_inr _ _ _ _ _ _ _ _ hm'
  exact ⟨m', args, h, hs, hl, by simpa using hb⟩

/-- C15 (witness): the spawn of the Spawn scenario with its one argument `inj`. -/
theorem spawn_completes_witness :
    ∃ procMod args,
      takeWith scenario.newID scenario.emptyCtx scenario.spawnEnv3 scenario.spawnerCfg
          (some (.SpawnSpec (PH.sym "z") [PH.id 3] [3] 52 "pool-1" scenario.spawnCont)) =
        .ok ({ PoolID := 100, ProcID := 4, Term := scenario.spawnCont }, procMod, none) ∧
      procMod.Steps = [] ∧
      procMod.Liabs = [{ ProcID := scenario.newID 0, PoolID := 200, Rev := 3 + 1 }] ∧
      procMod.Bnds =
        { ProcID := 4, ChnlPH := PH.sym "z", ChnlID := scenario.newID 1, StateID := 11,
          Rev := 2 + 1 } ::
        { ProcID := scenario.newID 0, ChnlPH := PH.sym "x", ChnlID := scenario.newID 1,
          StateID := 11, Rev := 3 + 1 } :: args :=
  spawn_completes scenario.newID scenario.emptyCtx scenario.spawnEnv3 scenario.spawnerCfg
    (PH.sym "z") [PH.id 3] [3] 52 "pool-1" scenario.spawnCont { PoolID := 200, Rev := 3 }
    scenario.oneSig3 { StateID := 11 } rfl rfl rfl
    (by intro y hy; simp at hy; subst hy; exact ⟨scenario.injChnl, rfl⟩)
    (by decide)

/-- C16: for every successful `Spawn` with arguments `Ys`, the mod has exactly
`2 + 2 * len(Ys)` bindings, and for each `i` the bindings at `2 + 2i` and `2 + 2i + 1` are
the caller's binding `(spawner, Ys[i])` and the callee's binding
`(new process, sig.Ys[i].ChnlPH)`, both with the `ChnlID` and `StateID` that `Ys[i]` has in
the spawner's snap. -/
theorem spawn_argument_bindings
    (newID : Nat → ID) (procCtx : state.Context) (procEnv : Environment)
    (procCfg : proc.Snap) (X : PH) (Ys : List PH) (Ys2 : List ID) (SigID : ID)
    (PoolQN : Sym) (Cont : Option step.Term) (tranSpec : TranSpec) (procMod : proc.Mod)
    (hok : takeWith newID procCtx procEnv procCfg
        (some (.SpawnSpec X Ys Ys2 SigID PoolQN Cont)) = .ok (tranSpec, procMod, none)) :
    ∃ pool rcvrSig,
      procEnv.Locks.lookup PoolQN = some pool ∧
      procEnv.Sigs.lookup SigID = some rcvrSig ∧
      procMod.Bnds.length = 2 + 2 * Ys.length ∧
      ∀ i y, Ys[i]? = some y →
        ∃ valChnl ep, procCfg.Chnls.lookup y = some valChnl ∧ rcvrSig.Ys[i]? = some ep ∧
          procMod.Bnds[2 + 2 * i]? = some
            { ProcID := procCfg.ProcID, ChnlPH := y, ChnlID := valChnl.ChnlID,
              StateID := valChnl.StateID, Rev := -procCfg.Rev - 1 } ∧
          procMod.Bnds[2 + 2 * i + 1]? = some
            { ProcID := newID 0, ChnlPH := ep.ChnlPH, ChnlID := valChnl.ChnlID,
              StateID := valChnl.StateID, Rev := pool.Rev + 1 } := by
  simp only [takeWith, takeWithSpawnSpec, failWith, proc.Mod.zero] at hok
  cases hpool : procEnv.Locks.lookup PoolQN with
  | none => simp [hpool] at hok
  | some pool =>
    cases hsig : procEnv.Sigs.lookup SigID with
    | none => simp [hpool, hsig] at hok
    | some rcvrSig =>
      cases hrole : procEnv.Roles.lookup rcvrSig.X.RoleQN with
      | none => simp [hpool, hsig, hrole] at hok
      | some rcvrRole =>
        simp only [hpool, hsig, hrole] at hok
        split at hok
        · simp at hok
        · simp at hok
        · rename_i m' hm'
          simp only [Except.ok.injEq, Prod.mk.injEq, and_true] at hok
          obtain ⟨-, rfl⟩ := hok
          obtain ⟨-, -, -, args, hb, hlen, hargs⟩ := spawnYs_inr _ _ _ _ _ _ _ _ hm'
          refine ⟨pool, rcvrSig, rfl, rfl, ?_, ?_⟩
          · simp [hb, hlen]; omega
          · intro i y hy
            obtain ⟨vc, ep, h1, h2, h3, h4⟩ := hargs i y hy
            refine ⟨vc, ep, h1, by simpa using h2, ?_, ?_⟩
            · rw [hb, ← h3, show 2 + 2 * i = 2 * i + 1 + 1 by omega]
              simp
            · rw [hb, ← h4, show 2 + 2 * i + 1 = 2 * i + 1 + 1 + 1 by omega]
              simp

/-- C16 (witness): the spawn of the Spawn scenario: four bindings, the last two for the
argument `inj`. -/
theorem spawn_argument_bindings_witness :
    ∃ pool rcvrSig,
      scenario.spawnEnv3.Locks.lookup "pool-1" = some pool ∧
      scenario.spawnEnv3.Sigs.lookup 52 = some rcvrSig ∧
      scenario.spawnMod3.Bnds.length = 2 + 2 * [PH.id 3].length ∧
      ∀ i y, [PH.id 3][i]? = some y →
        ∃ valChnl ep, scenario.spawnerCfg.Chnls.lookup y = some valChnl ∧
          rcvrSig.Ys[i]? = some ep ∧
          scenario.spawnMod3.Bnds[2 + 2 * i]? = some
            { ProcID := 4, ChnlPH := y, ChnlID := valChnl.ChnlID,
              StateID := valChnl.StateID, Rev := -2 - 1 } ∧
          scenario.spawnMod3.Bnds[2 + 2 * i + 1]? = some
            { ProcID := scenario.newID 0, ChnlPH := ep.ChnlPH, ChnlID := valChnl.ChnlID,
              StateID := valChnl.StateID, Rev := pool.Rev + 1 } :=
  spawn_argument_bindings scenario.newID scenario.emptyCtx scenario.spawnEnv3
    scenario.spawnerCfg (PH.sym "z") [PH.id 3] [3] 52 "pool-1" scenario.spawnCont
    { PoolID := 100, ProcID := 4, Term := scenario.spawnCont } scenario.spawnMod3 rfl

/-- C17 (counterexample): pool, signature and role resolve and the first argument that is
not bound is `Ys[1]`, yet the spawn does not fail with the missing-channel error: it panics
with an index out of range at `Ys[0]`, for which the signature declares no endpoint. -/
theorem spawn_unbound_argument_counterexample :
    scenario.spawnEnv3.Locks.lookup "pool-1" = some { PoolID := 200, Rev := 3 } ∧
    scenario.spawnEnv3.Sigs.lookup 50 = some scenario.oneSig ∧
    scenario.spawnEnv3.Roles.lookup scenario.oneSig.X.RoleQN = some { StateID := 11 } ∧
    scenario.spawnerCfg.Chnls.lookup (PH.id 3) = some scenario.injChnl ∧
    scenario.spawnerCfg.Chnls.lookup (PH.id 9) = none ∧
    takeWith scenario.newID scenario.emptyCtx scenario.spawnEnv3 scenario.spawnerCfg
        (some scenario.spawnTermUnbound) = .error .indexOutOfRange ∧
    takeWith scenario.newID scenario.emptyCtx scenario.spawnEnv3 scenario.spawnerCfg
        (some scenario.spawnTermUnbound) ≠ failWith (.procErrMissingChnl (PH.id 9)) :=
  ⟨rfl, rfl, rfl, rfl, rfl, rfl, fun h => Except.noConfusion h⟩

/-- C17 (amended): the outcome `out` of a `Spawn` is decided by the lookups in this order:
`MissingPool` when `PoolQN` is not in `env.Locks`; else `MissingSig` when `SigID` is not in
`env.Sigs`; else `MissingRole` when the signature's provider role is not in `env.Roles`;
else, when the signature declares at least as many client endpoints as the spawn has
arguments, the missing-channel error of the first `Ys[i]` not bound in the snap, and
success when every `Ys[i]` is bound. A failure returns the zero next spec and the zero
mod. -/
theorem spawn_failure_order
    (newID : Nat → ID) (procCtx : state.Context) (procEnv : Environment)
    (procCfg : proc.Snap) (X : PH) (Ys : List PH) (Ys2 : List ID) (SigID : ID)
    (PoolQN : Sym) (Cont : Option step.Term) (out : Option Err)
    (hcase :
      (procEnv.Locks.lookup PoolQN = none ∧ out = some (.errMissingPool PoolQN)) ∨
      (∃ pool, procEnv.Locks.lookup PoolQN = some pool ∧
          procEnv.Sigs.lookup SigID = none ∧ out = some (.errMissingSig SigID)) ∨
      (∃ pool rcvrSig, procEnv.Locks.lookup PoolQN = some pool ∧
          procEnv.Sigs.lookup SigID = some rcvrSig ∧
          procEnv.Roles.lookup rcvrSig.X.RoleQN = none ∧
          out = some (.errMissingRole rcvrSig.X.RoleQN)) ∨
      (∃ pool rcvrSig rcvrRole pre y post, procEnv.Locks.lookup PoolQN = some pool ∧
          procEnv.Sigs.lookup SigID = some rcvrSig ∧
          procEnv.Roles.lookup rcvrSig.X.RoleQN = some rcvrRole ∧
          Ys.length ≤ rcvrSig.Ys.length ∧ Ys = pre ++ y :: post ∧
          (∀ z ∈ pre, ∃ valChnl, procCfg.Chnls.lookup z = some valChnl) ∧
          procCfg.Chnls.lookup y = none ∧ out = some (.procErrMissingChnl y)) ∨
      (∃ pool rcvrSig rcvrRole, procEnv.Locks.lookup PoolQN = some pool ∧
          procEnv.Sigs.lookup SigID = some rcvrSig ∧
          procEnv.Roles.lookup rcvrSig.X.RoleQN = some rcvrRole ∧
          Ys.length ≤ rcvrSig.Ys.length ∧
          (∀ y ∈ Ys, ∃ valChnl, procCfg.Chnls.lookup y = some valChnl) ∧ out = none)) :
    ∃ tranSpec procMod,
      takeWith newID procCtx procEnv procCfg
          (some (.SpawnSpec X Ys Ys2 SigID PoolQN Cont)) = .ok (tranSpec, procMod, out) ∧
      (out ≠ none →
        tranSpec.Term = none ∧ procMod.Locks = [] ∧ procMod.Bnds = [] ∧
          procMod.Steps = [] ∧ procMod.Liabs = []) := by
  rcases hcase with ⟨hpool, rfl⟩ | ⟨pool, hpool, hsig, rfl⟩ |
    ⟨pool, rcvrSig, hpool, hsig, hrole, rfl⟩ |
    ⟨pool, rcvrSig, rcvrRole, pre, y, post, hpool, hsig, hrole, harity, rfl, hpre, hy, rfl⟩ |
    ⟨pool, rcvrSig, rcvrRole, hpool, hsig, hrole, harity, hYs, rfl⟩
  · exact ⟨TranSpec.zero, proc.Mod.zero,
      by simp [takeWith, takeWithSpawnSpec, hpool, failWith], fun _ => ⟨rfl, rfl, rfl, rfl, rfl⟩⟩
  · exact ⟨TranSpec.zero, proc.Mod.zero,
      by simp [takeWith, takeWithSpawnSpec, hpool, hsig, failWith],
      fun _ => ⟨rfl, rfl, rfl, rfl, rfl⟩⟩
  · exact ⟨TranSpec.zero, proc.Mod.zero,
      by simp [takeWith, takeWithSpawnSpec, hpool, hsig, hrole, failWith],
      fun _ => ⟨rfl, rfl, rfl, rfl, rfl⟩⟩
  · refine ⟨TranSpec.zero, proc.Mod.zero, ?_, fun _ => ⟨rfl, rfl, rfl, rfl, rfl⟩⟩
    have hlen : 0 + pre.length ≤ rcvrSig.Ys.length := by
      simp at harity; omega
    simp only [takeWith, takeWithSpawnSpec, hpool, hsig, hrole]
    rw [spawnYs_missing procCfg (newID 0) rcvrSig pool.Rev y post hy pre 0 _ hpre hlen]
    rfl
  · obtain ⟨procMod, -, h⟩ := takeWith_spawn_of_loop newID procCtx procEnv procCfg X Ys Ys2
      SigID PoolQN Cont pool rcvrSig rcvrRole hpool hsig hrole hYs harity
    exact ⟨_, procMod, h, fun h => absurd rfl h⟩

/-- C17 (witness): a spawn naming a signature the environment does not hold fails with
`MissingSig`; the spawn with an unbound second argument fails with the missing-channel
error for it; the spawn of the Spawn scenario succeeds. -/
theorem spawn_failure_order_witness :
    (∃ tranSpec procMod,
      takeWith scenario.newID scenario.emptyCtx scenario.spawnEnv3 scenario.spawnerCfg
          (some (.SpawnSpec (PH.sym "z") [PH.id 3] [] 51 "pool-1" none)) =
        .ok (tranSpec, procMod, some (.errMissingSig 51)) ∧
      (some (Err.errMissingSig 51) ≠ none →
        tranSpec.Term = none ∧ procMod.Locks = [] ∧ procMod.Bnds = [] ∧
          procMod.Steps = [] ∧ procMod.Liabs = [])) ∧
    (∃ tranSpec procMod,
      takeWith scenario.newID scenario.emptyCtx scenario.spawnEnv3 scenario.spawnerCfg
          (some (.SpawnSpec (PH.sym "z") [PH.id 3, PH.id 9] [] 53 "pool-1" none)) =
        .ok (tranSpec, procMod, some (.procErrMissingChnl (PH.id 9))) ∧
      (some (Err.procErrMissingChnl (PH.id 9)) ≠ none →
        tranSpec.Term = none ∧ procMod.Locks = [] ∧ procMod.Bnds = [] ∧
          procMod.Steps = [] ∧ procMod.Liabs = [])) :=
  ⟨spawn_failure_order scenario.newID scenario.emptyCtx scenario.spawnEnv3
      scenario.spawnerCfg (PH.sym "z") [PH.id 3] [] 51 "pool-1" none _
      (Or.inr (Or.inl ⟨{ PoolID := 200, Rev := 3 }, rfl, rfl, rfl⟩)),
   spawn_failure_order scenario.newID scenario.emptyCtx scenario.spawnEnv3
      scenario.spawnerCfg (PH.sym "z") [PH.id 3, PH.id 9] [] 53 "pool-1" none _
      (Or.inr (Or.inr (Or.inr (Or.inl
        ⟨{ PoolID := 200, Rev := 3 }, scenario.twoSig, { StateID := 11 }, [PH.id 3], PH.id 9,
          [], rfl, rfl, rfl, by decide, rfl,
          by intro z hz; simp at hz; subst hz; exact ⟨scenario.injChnl, rfl⟩, rfl, rfl⟩))))⟩

/-- The environment that `Take` builds has no entry in `Locks`, so an iteration of `Take`
on a `Spawn` term never hands a mod to `UpdateProc` and goes round: it panics in
`checkState`, or returns an error, or returns on a snap without channels. -/
theorem takeBody_spawn_never_continues
    (newID : Nat → ID) (ports : Ports) (poolID procID : ID) (X : PH) (Ys : List PH)
    (Ys2 : List ID) (SigID : ID) (PoolQN : Sym) (Cont : Option step.Term)
    (nextSpec : TranSpec) (procMod : proc.Mod) :
    takeBody newID ports poolID procID (.SpawnSpec X Ys Ys2 SigID PoolQN Cont) ≠
      .ok (.next nextSpec procMod) := by
  intro h
  simp only [takeBody, takeWith, takeWithSpawnSpec, List.lookup, failWith] at h
  repeat' split at h
  all_goals simp_all

/-- C18 (the code at the failing input): one iteration of `Take` on the spawn of
`TestTake/Spawn`, with loaders that return the referenced signature, role and state and a
spawner snap that has channels. The iteration panics in `checkState` (`z` is not bound in
the snap); with a via placeholder that is bound, and a pool name given, it returns
`MissingPool`, the environment built by `Take` having no `Locks`. -/
theorem take_spawn_fails :
    takeBody scenario.newID scenario.spawnPorts 100 4 scenario.spawnTermOfTest =
      .error .noViaInProcSnap ∧
    takeBody scenario.newID scenario.spawnPorts 100 4 scenario.spawnTermBoundVia =
      .ok (.ret (some (.errMissingPool "pool-1"))) :=
  ⟨rfl, rfl⟩

/-- C19: for `Fwd{X, Y}` with `X` and `Y` bound, the step slot of `X`'s channel present
and the via state of positive polarity: if the partner step is an `Svc` (with a
continuation), the mod has one binding, for the partner's process, of the continuation's
`Via` placeholder to `X`'s `ChnlID`, and the next spec is the partner's `Cont` on the
partner's pool and process; if it is a `Msg` (with a value), the binding is of the value's
`Via` placeholder to `Y`'s `ChnlID` and the next spec is the partner's `Val`; if the slot
is null, one `Msg` step with `Val = FwdImpl{B = Y's ChnlID}` is buffered and the next spec
has no term. -/
theorem fwd_positive
    (newID : Nat → ID) (procCtx : state.Context) (procEnv : Environment)
    (procCfg : proc.Snap) (X Y : PH) (viaChnl valChnl : proc.Chnl) (viaState : state.Root)
    (slot : Option step.Root)
    (hX : procCfg.Chnls.lookup X = some viaChnl)
    (hY : procCfg.Chnls.lookup Y = some valChnl)
    (hS : procCtx.Linear.lookup X = some (some viaState))
    (hpol : viaState.Pol = pol.Pos)
    (hstep : procCfg.Steps.lookup viaChnl.ChnlID = some slot) :
    (∀ vs cont, slot = some (.SvcRoot2 vs) → vs.Cont = some cont →
      ∃ procMod b,
        takeWith newID procCtx procEnv procCfg (some (.FwdSpec X Y)) =
          .ok ({ PoolID := vs.PoolID, ProcID := vs.ProcID, Term := some cont.toTerm },
            procMod, none) ∧
        procMod.Bnds = [b] ∧ procMod.Steps = [] ∧
        b.ProcID = vs.ProcID ∧ b.ChnlPH = cont.Via ∧ b.ChnlID = viaChnl.ChnlID) ∧
    (∀ vs val, slot = some (.MsgRoot2 vs) → vs.Val = some val →
      ∃ procMod b,
        takeWith newID procCtx procEnv procCfg (some (.FwdSpec X Y)) =
          .ok ({ PoolID := vs.PoolID, ProcID := vs.ProcID, Term := some val.toTerm },
            procMod, none) ∧
        procMod.Bnds = [b] ∧ procMod.Steps = [] ∧
        b.ProcID = vs.ProcID ∧ b.ChnlPH = val.Via ∧ b.ChnlID = valChnl.ChnlID) ∧
    (slot = none →
      ∃ procMod m implX,
        takeWith newID procCtx procEnv procCfg (some (.FwdSpec X Y)) =
          .ok (TranSpec.zero, procMod, none) ∧
        procMod.Steps = [.MsgRoot2 m] ∧ m.Val = some (.FwdImpl implX valChnl.ChnlID) ∧
        TranSpec.zero.Term = none) := by
  refine ⟨?_, ?_, ?_⟩
  · intro vs cont hslot hcont
    subst hslot
    exact ⟨{ Locks := [],
             Bnds := [{ ProcID := vs.ProcID, ChnlPH := cont.Via, ChnlID := viaChnl.ChnlID,
                        StateID := viaChnl.StateID, Rev := vs.Rev + 1 }],
             Steps := [], Liabs := [] }, _,
      by simp [takeWith, takeWithFwdSpec, hX, hY, hS, hpol, hstep, hcont, proc.Mod.zero],
      rfl, rfl, rfl, rfl, rfl⟩
  · intro vs val hslot hval
    subst hslot
    exact ⟨{ Locks := [],
             Bnds := [{ ProcID := vs.ProcID, ChnlPH := val.Via, ChnlID := valChnl.ChnlID,
                        StateID := valChnl.StateID, Rev := vs.Rev + 1 }],
             Steps := [], Liabs := [] }, _,
      by simp [takeWith, takeWithFwdSpec, hX, hY, hS, hpol, hstep, hval, proc.Mod.zero],
      rfl, rfl, rfl, rfl, rfl⟩
  · intro hslot
    subst hslot
    exact ⟨{ Locks := [],
             Bnds := [{ ProcID := procCfg.ProcID, ChnlPH := X, ChnlID := viaChnl.ChnlID,
                        StateID := idNil, Rev := -procCfg.Rev - 1 },
                      { ProcID := procCfg.ProcID, ChnlPH := Y, ChnlID := valChnl.ChnlID,
                        StateID := idNil, Rev := -procCfg.Rev - 1 }],
             Steps := [.MsgRoot2 { PoolID := procCfg.PoolID, ProcID := procCfg.ProcID,
                                   ChnlID := viaChnl.ChnlID, Rev := procCfg.Rev,
                                   Val := some (.FwdImpl PH.nil valChnl.ChnlID) }],
             Liabs := [] }, _, PH.nil,
      by simp [takeWith, takeWithFwdSpec, hX, hY, hS, hpol, hstep, proc.Mod.zero],
      rfl, rfl, rfl⟩

/-- C19 (witness): the forward of the Fwd scenario with nothing buffered on the
forwarder's channel, and with the waiter's wait buffered on it. -/
theorem fwd_positive_witness :
    (∃ procMod m implX,
      takeWith scenario.newID scenario.fwdCtx scenario.env0 scenario.fwdCfg
          (some (.FwdSpec (PH.id 6) (PH.id 5))) = .ok (TranSpec.zero, procMod, none) ∧
      procMod.Steps = [.MsgRoot2 m] ∧ m.Val = some (.FwdImpl implX 5) ∧
      TranSpec.zero.Term = none) ∧
    (∃ procMod b,
      takeWith scenario.newID scenario.fwdCtx scenario.env0 scenario.fwdCfgSvc
          (some (.FwdSpec (PH.id 6) (PH.id 5))) =
        .ok ({ PoolID := 100, ProcID := 7,
               Term := some (.WaitImpl (PH.id 6) scenario.waitCont) }, procMod, none) ∧
      procMod.Bnds = [b] ∧ procMod.Steps = [] ∧
      b.ProcID = 7 ∧ b.ChnlPH = PH.id 6 ∧ b.ChnlID = 6) :=
  ⟨(fwd_positive scenario.newID scenario.fwdCtx scenario.env0 scenario.fwdCfg (PH.id 6)
      (PH.id 5) scenario.fwdChnl scenario.closerChnl scenario.one none rfl rfl rfl rfl
      rfl).2.2 rfl,
   (fwd_positive scenario.newID scenario.fwdCtx scenario.env0 scenario.fwdCfgSvc (PH.id 6)
      (PH.id 5) scenario.fwdChnl scenario.closerChnl scenario.one
      (some (.SvcRoot2 scenario.waitOnFwdStep)) rfl rfl rfl rfl rfl).1
      scenario.waitOnFwdStep (.WaitImpl (PH.id 6) scenario.waitCont) rfl rfl⟩

/-- The part of the negative rule that holds: for `Fwd{X, Y}` with `X` and `Y` bound and
the via state of negative polarity, an `Svc` partner's continuation `Via` is bound to `Y`'s
`ChnlID` with `Y`'s `StateID`, a `Msg` partner's value `Via` is bound to `X`'s `ChnlID` with
`X`'s `StateID`, and with a null slot one `Svc` step with `Cont = FwdImpl{B = Y's ChnlID}`
is buffered. -/
theorem fwd_negative_partner
    (newID : Nat → ID) (procCtx : state.Context) (procEnv : Environment)
    (procCfg : proc.Snap) (X Y : PH) (viaChnl valChnl : proc.Chnl) (viaState : state.Root)
    (slot : Option step.Root)
    (hX : procCfg.Chnls.lookup X = some viaChnl)
    (hY : procCfg.Chnls.lookup Y = some valChnl)
    (hS : procCtx.Linear.lookup X = some (some viaState))
    (hpol : viaState.Pol = pol.Neg)
    (hstep : procCfg.Steps.lookup viaChnl.ChnlID = some slot) :
    (∀ vs cont, slot = some (.SvcRoot2 vs) → vs.Cont = some cont →
      takeWith newID procCtx procEnv procCfg (some (.FwdSpec X Y)) =
        .ok ({ PoolID := vs.PoolID, ProcID := vs.ProcID, Term := some cont.toTerm },
          { Locks := [],
            Bnds := [{ ProcID := vs.ProcID, ChnlPH := cont.Via, ChnlID := valChnl.ChnlID,
                       StateID := valChnl.StateID, Rev := vs.Rev + 1 }],
            Steps := [], Liabs := [] }, none)) ∧
    (∀ vs val, slot = some (.MsgRoot2 vs) → vs.Val = some val →
      takeWith newID procCtx procEnv procCfg (some (.FwdSpec X Y)) =
        .ok ({ PoolID := vs.PoolID, ProcID := vs.ProcID, Term := some val.toTerm },
          { Locks := [],
            Bnds := [{ ProcID := vs.ProcID, ChnlPH := val.Via, ChnlID := viaChnl.ChnlID,
                       StateID := viaChnl.StateID, Rev := vs.Rev + 1 }],
            Steps := [], Liabs := [] }, none)) ∧
    (slot = none →
      takeWith newID procCtx procEnv procCfg (some (.FwdSpec X Y)) =
        .ok (TranSpec.zero,
          { Locks := [], Bnds := [],
            Steps := [.SvcRoot2 { PoolID := procCfg.PoolID, ProcID := procCfg.ProcID,
                                  ChnlID := viaChnl.ChnlID, Rev := procCfg.Rev,
                                  Cont := some (.FwdImpl PH.nil valChnl.ChnlID) }],
            Liabs := [] }, none)) := by
  refine ⟨?_, ?_, ?_⟩
  · intro vs cont hslot hcont
    subst hslot
    simp [takeWith, takeWithFwdSpec, hX, hY, hS, hpol, hstep, pol.Neg, pol.Pos, hcont, proc.Mod.zero]
  · intro vs val hslot hval
    subst hslot
    simp [takeWith, takeWithFwdSpec, hX, hY, hS, hpol, hstep, pol.Neg, pol.Pos, hval, proc.Mod.zero]
  · intro hslot
    subst hslot
    simp [takeWith, takeWithFwdSpec, hX, hY, hS, hpol, hstep, pol.Neg, pol.Pos, proc.Mod.zero,
      TranSpec.zero]

/-- C20 (the code at the failing input): the forward of the Fwd scenario with nothing
buffered, on a via state of positive and of negative polarity. The positive arm records two
bindings (the forwarder's `X` and `Y`, with nil `StateID` and `Rev = -snap.Rev-1`) next to
the buffered `Msg` step; the negative arm buffers the `Svc` step and records no binding. -/
theorem fwd_negative_no_partner_records_no_binding :
    takeWith scenario.newID scenario.fwdCtx scenario.env0 scenario.fwdCfg
        (some scenario.fwdTerm) =
      .ok (TranSpec.zero,
        { Locks := [],
          Bnds := [{ ProcID := 6, ChnlPH := PH.id 6, ChnlID := 6, StateID := idNil, Rev := -3 },
                   { ProcID := 6, ChnlPH := PH.id 5, ChnlID := 5, StateID := idNil, Rev := -3 }],
          Steps := [.MsgRoot2 { PoolID := 100, ProcID := 6, ChnlID := 6, Rev := 2,
                                Val := some (.FwdImpl PH.nil 5) }],
          Liabs := [] }, none) ∧
    takeWith scenario.newID scenario.fwdNegCtx scenario.env0 scenario.fwdCfg
        (some scenario.fwdTerm) =
      .ok (TranSpec.zero,
        { Locks := [], Bnds := [],
          Steps := [.SvcRoot2 { PoolID := 100, ProcID := 6, ChnlID := 6, Rev := 2,
                                Cont := some (.FwdImpl PH.nil 5) }],
          Liabs := [] }, none) :=
  ⟨rfl, rfl⟩

/-- Of the partner terms, only `Wait` handles a buffered forward: a `Recv` or `Case` that
finds a `Msg` step whose `Val` is a `FwdImpl`, and a `Close`, `Send` or `Lab` that finds an
`Svc` step whose `Cont` is a `FwdImpl`, never returns a mod. -/
theorem forward_partner_never_succeeds
    (newID : Nat → ID) (procCtx : state.Context) (procEnv : Environment)
    (procCfg : proc.Snap) (t : step.Term) (viaChnl : proc.Chnl) (s : step.Root)
    (tranSpec : TranSpec) (procMod : proc.Mod)
    (hX : procCfg.Chnls.lookup t.Via = some viaChnl)
    (hstep : procCfg.Steps.lookup viaChnl.ChnlID = some (some s))
    (hfwd :
      (∃ m implX B, s = .MsgRoot2 m ∧ m.Val = some (.FwdImpl implX B) ∧
          ((∃ X Y c, t = .RecvSpec X Y c) ∨ (∃ X cs, t = .CaseSpec X cs))) ∨
      (∃ v implX B, s = .SvcRoot2 v ∧ v.Cont = some (.FwdImpl implX B) ∧
          ((∃ X, t = .CloseSpec X) ∨ (∃ X Y, t = .SendSpec X Y) ∨
            (∃ X L, t = .LabSpec X L)))) :
    takeWith newID procCtx procEnv procCfg (some t) ≠ .ok (tranSpec, procMod, none) := by
  intro hok
  rcases hfwd with ⟨m, implX, B, rfl, himpl, ⟨X, Y, c, rfl⟩ | ⟨X, cs, rfl⟩⟩ |
    ⟨v, implX, B, rfl, himpl, ⟨X, rfl⟩ | ⟨X, Y, rfl⟩ | ⟨X, L, rfl⟩⟩
  all_goals
    simp only [step.Term.Via] at hX
    simp only [takeWith, takeWithCloseSpec, takeWithSendSpec, takeWithRecvSpec,
      takeWithLabSpec, takeWithCaseSpec, failWith, hX, hstep, himpl] at hok
    repeat' split at hok
    all_goals simp_all

/-- C21 (the code at the failing inputs): the forward of the Fwd scenario is buffered with
no partner, on a positive and on a negative via state, and the partner then acts on the
forwarder's channel. Against the positive forward a `Recv` and a `Case` panic with
'value type unexpected'; against the negative forward a `Close`, a `Send` and a `Lab` panic
with 'continuation type unexpected'. -/
theorem forward_partner_panics :
    (takeWith scenario.newID scenario.fwdCtx scenario.env0 scenario.fwdCfg
        (some scenario.fwdTerm) =
      .ok (TranSpec.zero,
        { Locks := [],
          Bnds := [{ ProcID := 6, ChnlPH := PH.id 6, ChnlID := 6, StateID := idNil, Rev := -3 },
                   { ProcID := 6, ChnlPH := PH.id 5, ChnlID := 5, StateID := idNil, Rev := -3 }],
          Steps := [.MsgRoot2 scenario.fwdMsgStep], Liabs := [] }, none) ∧
     takeWith scenario.newID scenario.prodFwdCtx scenario.env0 scenario.partnerCfgFwdMsg
        (some (.RecvSpec (PH.id 6) (PH.id 2) scenario.waitCont)) =
      .error .ErrValTypeUnexpected2 ∧
     takeWith scenario.newID scenario.sumFwdCtx scenario.env0 scenario.partnerCfgFwdMsg
        (some (.CaseSpec (PH.id 6) scenario.caseConts)) =
      .error .ErrValTypeUnexpected2) ∧
    (takeWith scenario.newID scenario.fwdNegCtx scenario.env0 scenario.fwdCfg
        (some scenario.fwdTerm) =
      .ok (TranSpec.zero,
        { Locks := [], Bnds := [], Steps := [.SvcRoot2 scenario.fwdSvcStep],
          Liabs := [] }, none) ∧
     takeWith scenario.newID scenario.prodFwdCtx scenario.env0 scenario.partnerCfgFwdSvc
        (some (.CloseSpec (PH.id 6))) =
      .error .ErrContTypeUnexpected2 ∧
     takeWith scenario.newID scenario.prodFwdCtx scenario.env0 scenario.partnerCfgFwdSvc
        (some (.SendSpec (PH.id 6) (PH.id 2))) =
      .error .ErrContTypeUnexpected2 ∧
     takeWith scenario.newID scenario.sumFwdCtx scenario.env0 scenario.partnerCfgFwdSvc
        (some (.LabSpec (PH.id 6) "label-1")) =
      .error .ErrContTypeUnexpected2) :=
  ⟨⟨rfl, rfl, rfl⟩, rfl, rfl, rfl, rfl⟩

/-- C22 (counterexample): `Close{X=closer}` buffers its half-step on the closer; taken
again on the same snap with that step stored on the channel, it does not succeed with the
same half-step but panics with 'root type unexpected'. -/
theorem rerun_close_counterexample :
    takeWith scenario.newID scenario.emptyCtx scenario.env0 scenario.closerCfg
        (some scenario.closeTerm) =
      .ok (TranSpec.zero, scenario.closeBufferedMod, none) ∧
    scenario.closeBufferedMod.Steps = [.MsgRoot2 scenario.closeStep] ∧
    takeWith scenario.newID scenario.emptyCtx scenario.env0 scenario.closerCfgAfterClose
        (some scenario.closeTerm) = .error .ErrRootTypeUnexpected :=
  ⟨rfl, rfl, rfl⟩

/-- C22 (amended): if `takeWith` buffers a half-step `s` for a Close, Wait, Send, Recv, Lab,
Case or Fwd term on a snap whose via slot is null, then running `takeWith` with the same
term against the post-commit snap (the same channels, `s` stored on the via channel) never
buffers a second step; for the six paired terms it does not succeed either: it panics with
'root type unexpected', the stored step being the term's own and not of the complementary
shape. -/
theorem rerun_never_buffers_again
    (newID newID' : Nat → ID) (procCtx : state.Context) (procEnv : Environment)
    (procCfg procCfg' : proc.Snap) (t : step.Term) (viaChnl : proc.Chnl) (s : step.Root)
    (tranSpec : TranSpec) (procMod : proc.Mod)
    (ht : t.isPaired = true ∨ t.isFwd = true)
    (hX : procCfg.Chnls.lookup t.Via = some viaChnl)
    (hnull : procCfg.Steps.lookup viaChnl.ChnlID = some none)
    (hfirst : takeWith newID procCtx procEnv procCfg (some t) =
      .ok (tranSpec, procMod, none))
    (hbuf : procMod.Steps = [s])
    (hchnls : procCfg'.Chnls = procCfg.Chnls)
    (hstored : procCfg'.Steps.lookup viaChnl.ChnlID = some (some s)) :
    (t.isPaired = true →
      takeWith newID' procCtx procEnv procCfg' (some t) = .error .ErrRootTypeUnexpected) ∧
    (∀ tranSpec' procMod',
      takeWith newID' procCtx procEnv procCfg' (some t) = .ok (tranSpec', procMod', none) →
      procMod'.Steps = []) := by
  cases t <;> simp [step.Term.isPaired, step.Term.isFwd] at ht
  all_goals
    simp only [step.Term.Via] at hX
    simp only [takeWith, takeWithCloseSpec, takeWithWaitSpec, takeWithSendSpec,
      takeWithRecvSpec, takeWithLabSpec, takeWithCaseSpec, takeWithFwdSpec, failWith,
      proc.Mod.zero, hX, hnull] at hfirst
    repeat' split at hfirst
    all_goals first
      | (simp at hfirst; done)
      | (simp at hfirst
         obtain ⟨-, rfl⟩ := hfirst
         simp at hbuf
         subst hbuf
         simp_all [takeWith, takeWithCloseSpec, takeWithWaitSpec, takeWithSendSpec,
           takeWithRecvSpec, takeWithLabSpec, takeWithCaseSpec, takeWithFwdSpec,
           step.Term.isPaired, proc.Mod.zero])

/-- C22 (witness): the close of WaitClose taken again after its commit, and the forward of
the Fwd scenario taken again on the snap that stores its own step. -/
theorem rerun_never_buffers_again_witness :
    takeWith scenario.newID scenario.emptyCtx scenario.env0 scenario.closerCfgAfterClose
        (some scenario.closeTerm) = .error .ErrRootTypeUnexpected ∧
    (takeWith scenario.newID scenario.fwdCtx scenario.env0 scenario.fwdCfgAfterFwd
        (some scenario.fwdTerm) =
      .ok (scenario.fwdRerunNext, scenario.fwdRerunMod, none) ∧
     scenario.fwdRerunMod.Steps = []) :=
  ⟨(rerun_never_buffers_again scenario.newID scenario.newID scenario.emptyCtx scenario.env0
      scenario.closerCfg scenario.closerCfgAfterClose scenario.closeTerm scenario.closerChnl
      (.MsgRoot2 scenario.closeStep) TranSpec.zero scenario.closeBufferedMod (Or.inl rfl)
      rfl rfl rfl rfl rfl rfl).1 rfl,
   ⟨rfl,
    (rerun_never_buffers_again scenario.newID scenario.newID scenario.fwdCtx scenario.env0
      scenario.fwdCfg scenario.fwdCfgAfterFwd scenario.fwdTerm scenario.fwdChnl
      (.MsgRoot2 scenario.fwdMsgStep) TranSpec.zero
      { Locks := [],
        Bnds := [{ ProcID := 6, ChnlPH := PH.id 6, ChnlID := 6, StateID := idNil, Rev := -3 },
                 { ProcID := 6, ChnlPH := PH.id 5, ChnlID := 5, StateID := idNil, Rev := -3 }],
        Steps := [.MsgRoot2 scenario.fwdMsgStep], Liabs := [] }
      (Or.inr rfl) rfl rfl rfl rfl rfl rfl).2 scenario.fwdRerunNext scenario.fwdRerunMod
      rfl⟩⟩

/-- C24 (counterexample): two calls with the same context, environment, snap and term
return different mods when `id.New()` returns different IDs: the receive of RecvSend
buffers `RecvImpl{A = 1000}` in one call and `RecvImpl{A = 2000}` in the other. -/
theorem takeWith_fresh_ids_counterexample :
    takeWith scenario.newID scenario.viaCtx scenario.env0 scenario.rcvrCfg
        (some scenario.recvTerm) ≠
      takeWith scenario.newID' scenario.viaCtx scenario.env0 scenario.rcvrCfg
        (some scenario.recvTerm) := by
  intro h
  simp [takeWith, takeWithRecvSpec, scenario.recvTerm, scenario.rcvrCfg, scenario.recvrChnl,
    scenario.newID, scenario.newID', List.lookup] at h

/-- C24 (amended): `takeWith` is a function of the context, the environment, the snap, the
term and the IDs that the (at most two) calls of `id.New()` return: two calls that agree on
these return the same next spec, mod and error. For Close, Wait and Fwd, and for the paired
terms when a partner step is present on the via channel, no ID is drawn and the result is a
function of context, environment, snap and term alone. -/
theorem takeWith_deterministic_up_to_ids
    (newID newID' : Nat → ID) (procCtx : state.Context) (procEnv : Environment)
    (procCfg : proc.Snap) (t : step.Term)
    (hids :
      (newID 0 = newID' 0 ∧ newID 1 = newID' 1) ∨
      (∃ X, t = .CloseSpec X) ∨ (∃ X c, t = .WaitSpec X c) ∨ (∃ X Y, t = .FwdSpec X Y) ∨
      (t.isPaired = true ∧ ∃ viaChnl s, procCfg.Chnls.lookup t.Via = some viaChnl ∧
        procCfg.Steps.lookup viaChnl.ChnlID = some (some s))) :
    takeWith newID procCtx procEnv procCfg (some t) =
      takeWith newID' procCtx procEnv procCfg (some t) := by
  rcases hids with ⟨h0, h1⟩ | ⟨X, rfl⟩ | ⟨X, c, rfl⟩ | ⟨X, Y, rfl⟩ | ⟨ht, viaChnl, s, hX, hs⟩
  · cases t <;>
      simp only [takeWith, takeWithSendSpec, takeWithRecvSpec, takeWithLabSpec,
        takeWithCaseSpec, takeWithSpawnSpec, h0, h1]
  · rfl
  · rfl
  · rfl
  · cases t <;> simp [step.Term.isPaired] at ht
    all_goals
      simp only [step.Term.Via] at hX
      cases s <;>
        simp only [takeWith, takeWithCloseSpec, takeWithWaitSpec, takeWithSendSpec,
          takeWithRecvSpec, takeWithLabSpec, takeWithCaseSpec, hX, hs]

/-- C24 (witness): the send of RecvSend that finds the receive buffered returns the same
result whatever IDs `id.New()` would return. -/
theorem takeWith_deterministic_up_to_ids_witness :
    takeWith scenario.newID scenario.viaCtx scenario.env0 scenario.sndrCfgMatched
        (some scenario.sendTerm) =
      takeWith scenario.newID' scenario.viaCtx scenario.env0 scenario.sndrCfgMatched
        (some scenario.sendTerm) :=
  takeWith_deterministic_up_to_ids scenario.newID scenario.newID' scenario.viaCtx
    scenario.env0 scenario.sndrCfgMatched scenario.sendTerm
    (Or.inr (Or.inr (Or.inr (Or.inr
      ⟨rfl, scenario.recvrChnl, .SvcRoot2 scenario.recvStep, rfl, rfl⟩))))

/-- An iteration of `Take` that loads a snap without channel bindings ends with
`return err` where `err` is the nil error left by the successful `SelectProc`. -/
theorem takeBody_of_no_channels
    (newID : Nat → ID) (ports : Ports) (poolID procID : ID) (termSpec : step.Term)
    (procSnap : proc.Snap) (hsel : ports.SelectProc procID = .ok procSnap)
    (hempty : procSnap.Chnls = []) :
    takeBody newID ports poolID procID termSpec = .ok (.ret none) := by
  simp [takeBody, hsel, hempty]

/-- C28 (the code at the failing input): the pool repo returns a snap without channel
bindings; the iteration of `Take` ends without calling `takeWith` or `UpdateProc`, but the
error it returns is nil, so `Take` reports success. -/
theorem take_without_channels_returns_nil :
    takeBody scenario.newID scenario.emptySnapPorts 100 4 scenario.closeTerm =
      .ok (.ret none) ∧
    (TakeOut.ret none ≠ TakeOut.ret (some (Err.portErr "taking failed"))) :=
  ⟨rfl, fun h => by cases h⟩

/-- C29 (counterexample): `checkState` panics on the spawn of `TestTake/Spawn`, whose via
placeholder `z` is not bound in the spawner's snap. -/
theorem checkState_panics_counterexample :
    scenario.spawnerCfg.Chnls.lookup scenario.spawnTermOfTest.Via = none ∧
    checkState 100 scenario.spawnEnv3 scenario.emptyCtx scenario.spawnerCfg
        scenario.spawnTermOfTest = .error .noViaInProcSnap :=
  ⟨rfl, rfl⟩

/-- C29 (amended): `checkState` returns a nil error, for every pool ID, environment and
context, exactly when the via placeholder of the term is bound in the snap; when it is not
bound `checkState` panics with 'no via in proc snap' and the iteration of `Take` does not
reach `takeWith`. -/
theorem checkState_ok_iff_via_bound
    (poolID : ID) (procEnv : Environment) (procCtx : state.Context) (procSnap : proc.Snap)
    (termSpec : step.Term) :
    checkState poolID procEnv procCtx procSnap termSpec =
      if (procSnap.Chnls.lookup termSpec.Via).isSome then .ok none
      else .error .noViaInProcSnap := by
  unfold checkState
  cases procSnap.Chnls.lookup termSpec.Via with
  | none => rfl
  | some ch =>
    simp only [checkProvider, checkClient, Option.isSome_some, if_true]
    split <;> rfl

/-- C30 (the code at the failing input): `CollectEnv` does not look into the continuation
of a `Wait`. For `Wait{X, Cont=Spawn{SigID=52}}` it returns no ID, although the term
references signature 52; for the same spawn inside the continuation of a `Recv` it returns
`[52]`. -/
theorem collectEnv_skips_wait :
    step.CollectEnv (some scenario.waitThenSpawn) = [] ∧
    step.CollectEnv (some scenario.recvThenSpawn) = [52] ∧
    step.CollectEnv (some scenario.spawnTerm3) = [52] :=
  ⟨rfl, rfl, rfl⟩

/-- C25 (counterexample): a `Send{X, Y}` that finds a `Msg` step on `X`, where it expects
an `Svc`, returns the error `MissingInCfg(Y)` instead of panicking when `Y` is not bound:
the lookup of `Y` comes before the inspection of the partner. -/
theorem mismatched_partner_counterexample :
    scenario.rcvrCfgMatched.Chnls.lookup (PH.id 1) = some scenario.recvrChnl ∧
    scenario.rcvrCfgMatched.Steps.lookup scenario.recvrChnl.ChnlID =
      some (some (.MsgRoot2 scenario.sendStep)) ∧
    takeWith scenario.newID scenario.viaCtx scenario.env0 scenario.rcvrCfgMatched
        (some (.SendSpec (PH.id 1) (PH.id 2))) =
      .ok (TranSpec.zero, proc.Mod.zero, some (.chnlErrMissingInCfg (PH.id 2))) :=
  ⟨rfl, rfl, rfl⟩

/-- C25 (amended): when the partner step `s` on the via channel does not have the
complementary shape, `takeWith` panics, provided the lookups that the arm makes before it
inspects the partner succeed: none for Close, Wait and Case; `Y` bound for Send, and an
entry for `X` in the linear context before the impl variant of an `Svc` is inspected; an
entry for `X` for Lab; entries for `X` and `Y` before Recv inspects the impl variant of a
`Msg`. Likewise `Fwd{X, Y}` with `X` and `Y` bound and a step slot present panics when the
via state's polarity is zero. -/
theorem mismatched_partner_panics
    (newID : Nat → ID) (procCtx : state.Context) (procEnv : Environment)
    (procCfg : proc.Snap) (t : step.Term) (viaChnl : proc.Chnl)
    (slot : Option step.Root) (s : step.Root)
    (hX : procCfg.Chnls.lookup t.Via = some viaChnl)
    (hstep : procCfg.Steps.lookup viaChnl.ChnlID = some slot)
    (hcase :
      (slot = some s ∧
        (((∃ X, t = .CloseSpec X) ∧
            ((∀ v, s ≠ .SvcRoot2 v) ∨
              ∃ v, s = .SvcRoot2 v ∧ ∀ x c, v.Cont ≠ some (.WaitImpl x c))) ∨
         ((∃ X c, t = .WaitSpec X c) ∧
            ((∀ m, s ≠ .MsgRoot2 m) ∨
              ∃ m, s = .MsgRoot2 m ∧ (∀ x, m.Val ≠ some (.CloseImpl x)) ∧
                ∀ x b, m.Val ≠ some (.FwdImpl x b))) ∨
         (∃ X Y valChnl, t = .SendSpec X Y ∧ procCfg.Chnls.lookup Y = some valChnl ∧
            ((∀ v, s ≠ .SvcRoot2 v) ∨
              ∃ v st, s = .SvcRoot2 v ∧ procCtx.Linear.lookup X = some st ∧
                ∀ x a y c, v.Cont ≠ some (.RecvImpl x a y c))) ∨
         (∃ X Y c, t = .RecvSpec X Y c ∧
            ((∀ m, s ≠ .MsgRoot2 m) ∨
              ∃ m st st', s = .MsgRoot2 m ∧ procCtx.Linear.lookup X = some st ∧
                procCtx.Linear.lookup Y = some st' ∧
                ∀ x a b, m.Val ≠ some (.SendImpl x a b))) ∨
         (∃ X L st, t = .LabSpec X L ∧ procCtx.Linear.lookup X = some st ∧
            ((∀ v, s ≠ .SvcRoot2 v) ∨
              ∃ v, s = .SvcRoot2 v ∧ ∀ x a cs, v.Cont ≠ some (.CaseImpl x a cs))) ∨
         ((∃ X cs, t = .CaseSpec X cs) ∧
            ((∀ m, s ≠ .MsgRoot2 m) ∨
              ∃ m, s = .MsgRoot2 m ∧ ∀ x a l, m.Val ≠ some (.LabImpl x a l))))) ∨
      (∃ X Y valChnl viaState, t = .FwdSpec X Y ∧
          procCfg.Chnls.lookup Y = some valChnl ∧
          procCtx.Linear.lookup X = some (some viaState) ∧ viaState.Pol = pol.Zero)) :
    ∃ p, takeWith newID procCtx procEnv procCfg (some t) = .error p := by
  rcases hcase with ⟨rfl, h⟩ | ⟨X, Y, valChnl, viaState, rfl, hY, hS, hpol⟩
  · rcases h with ⟨⟨X, rfl⟩, h⟩ | ⟨⟨X, c, rfl⟩, h⟩ | ⟨X, Y, valChnl, rfl, hY, h⟩ |
      ⟨X, Y, c, rfl, h⟩ | ⟨X, L, st, rfl, hS, h⟩ | ⟨⟨X, cs, rfl⟩, h⟩
    all_goals
      simp only [step.Term.Via] at hX
      simp only [takeWith, takeWithCloseSpec, takeWithWaitSpec, takeWithSendSpec,
        takeWithRecvSpec, takeWithLabSpec, takeWithCaseSpec, failWith, hX, hstep]
      repeat' split
      all_goals
        simp_all
        try first
          | exact h _ _ _ _ rfl rfl rfl rfl
          | exact h _ _ _ rfl rfl rfl
          | exact h _ _ rfl rfl
          | exact h _ rfl
  · simp only [step.Term.Via] at hX
    simp [takeWith, takeWithFwdSpec, hX, hstep, hY, hS, hpol, pol.Zero, pol.Pos, pol.Neg]

/-- C25 (witness): a `Wait` that finds an `Svc` step on its channel, and the forward of the
Fwd scenario on a via state of polarity zero. -/
theorem mismatched_partner_panics_witness :
    (∃ p, takeWith scenario.newID scenario.emptyCtx scenario.env0 scenario.waiterCfgSvc
        (some scenario.waitTerm) = .error p) ∧
    (∃ p, takeWith scenario.newID scenario.fwdZeroCtx scenario.env0 scenario.fwdCfg
        (some scenario.fwdTerm) = .error p) :=
  ⟨mismatched_partner_panics scenario.newID scenario.emptyCtx scenario.env0
      scenario.waiterCfgSvc scenario.waitTerm scenario.closerChnl
      (some (.SvcRoot2 scenario.waitStep)) (.SvcRoot2 scenario.waitStep) rfl rfl
      (Or.inl ⟨rfl, Or.inr (Or.inl
        ⟨⟨PH.id 5, scenario.waitCont, rfl⟩, Or.inl (fun _ h => step.Root.noConfusion h)⟩)⟩),
   mismatched_partner_panics scenario.newID scenario.fwdZeroCtx scenario.env0
      scenario.fwdCfg scenario.fwdTerm scenario.fwdChnl none (.SvcRoot2 scenario.waitStep)
      rfl rfl
      (Or.inr ⟨PH.id 6, PH.id 5, scenario.closerChnl, { scenario.one with Pol := pol.Zero },
        rfl, rfl, rfl, rfl⟩)⟩


/-- The only error with which the loop over `Ys` returns early is `ErrMissingChnl`. -/
theorem spawnYs_inl (procCfg : proc.Snap) (rcvrProcID : ID) (rcvrSig : sig.Root)
    (rcvrRev : Rev) :
    ∀ (Ys : List PH) (i : Nat) (m : proc.Mod) (err : Err),
      spawnYs procCfg rcvrProcID rcvrSig rcvrRev i Ys m = .ok (.inl err) →
      ∃ y, err = .procErrMissingChnl y := by
  intro Ys
  induction Ys with
  | nil => intro i m err h; simp [spawnYs] at h
  | cons y rest ih =>
    intro i m err h
    simp only [spawnYs] at h
    repeat' split at h
    · simp at h; exact ⟨y, h.symm⟩
    · simp at h
    · exact ih _ _ _ h

/-- C26 (counterexample): two inputs on which the claim fails. A `Send{X, Y}` that finds a
step on `X` which is a `Msg`, in a context with no entry for `X`, panics with
`ErrRootTypeUnexpected` and does not return `MissingInCtx(X)`: the root type of the partner
is inspected before the context is read. A `Recv{X, Y, Cont}` that finds a send on `X`, in
a context that has an entry for `X`, returns `MissingInCtx(Y)`: it reads the entry for `Y`
as well. -/
theorem missingInCtx_counterexample :
    (scenario.emptyCtx.Linear.lookup (PH.id 1) = none ∧
     scenario.sndrCfgMsg.Steps.lookup scenario.recvrChnl.ChnlID =
       some (some (.MsgRoot2 scenario.sendStep)) ∧
     takeWith scenario.newID scenario.emptyCtx scenario.env0 scenario.sndrCfgMsg
        (some (.SendSpec (PH.id 1) (PH.id 2))) = .error .ErrRootTypeUnexpected) ∧
    (scenario.viaCtx.Linear.lookup (PH.id 1) = some (some scenario.lolli) ∧
     scenario.rcvrCfgMatched.Steps.lookup scenario.recvrChnl.ChnlID =
       some (some (.MsgRoot2 scenario.sendStep)) ∧
     takeWith scenario.newID scenario.viaCtx scenario.env0 scenario.rcvrCfgMatched
        (some (.RecvSpec (PH.id 1) (PH.id 2) scenario.recvCont)) =
      .ok (TranSpec.zero, proc.Mod.zero, some (.stateErrMissingInCtx (PH.id 2)))) :=
  ⟨⟨rfl, rfl, rfl⟩, rfl, rfl, rfl⟩

/-- C26 (amended): `takeWith` on a term `t` returns `MissingInCtx(t.Via)` exactly when the
linear context has no entry for the via placeholder `X`, `X` is bound in the snap, and the
arm reaches its lookup of `X` in the context: always for Fwd; for Lab when the step slot of
the via channel is present (empty or not); for Send when `Y` is bound and the partner is an
`Svc` step; for Recv when the partner is a `Msg` step; for Case when the partner is a `Msg`
step that carries a `LabImpl`. No other term returns this error. -/
theorem missingInCtx_via_iff
    (newID : Nat → ID) (procCtx : state.Context) (procEnv : Environment)
    (procCfg : proc.Snap) (t : step.Term) :
    takeWith newID procCtx procEnv procCfg (some t) =
        .ok (TranSpec.zero, proc.Mod.zero, some (.stateErrMissingInCtx t.Via)) ↔
      procCtx.Linear.lookup t.Via = none ∧
      ∃ viaChnl, procCfg.Chnls.lookup t.Via = some viaChnl ∧
        ((∃ X Y, t = .FwdSpec X Y) ∨
         (∃ X L slot, t = .LabSpec X L ∧
            procCfg.Steps.lookup viaChnl.ChnlID = some slot) ∨
         (∃ X Y valChnl v, t = .SendSpec X Y ∧ procCfg.Chnls.lookup Y = some valChnl ∧
            procCfg.Steps.lookup viaChnl.ChnlID = some (some (.SvcRoot2 v))) ∨
         (∃ X Y c m, t = .RecvSpec X Y c ∧
            procCfg.Steps.lookup viaChnl.ChnlID = some (some (.MsgRoot2 m))) ∨
         (∃ X cs m x a l, t = .CaseSpec X cs ∧
            procCfg.Steps.lookup viaChnl.ChnlID = some (some (.MsgRoot2 m)) ∧
            m.Val = some (.LabImpl x a l))) := by
  constructor
  · intro h
    cases t
    all_goals
      simp only [takeWith, takeWithCloseSpec, takeWithWaitSpec, takeWithSendSpec,
        takeWithRecvSpec, takeWithLabSpec, takeWithCaseSpec, takeWithFwdSpec,
        takeWithSpawnSpec, failWith, step.Term.Via] at h ⊢
      repeat' split at h
      all_goals (try (simp [TranSpec.zero, proc.Mod.zero] at h; done))
    all_goals
      first
        | exact ⟨‹_›, _, ‹_›, Or.inl ⟨_, _, rfl⟩⟩
        | exact ⟨‹_›, _, ‹_›, Or.inr (Or.inl ⟨_, _, _, rfl, ‹_›⟩)⟩
        | exact ⟨‹_›, _, ‹_›, Or.inr (Or.inr (Or.inl ⟨_, _, _, _, rfl, ‹_›, ‹_›⟩))⟩
        | exact ⟨‹_›, _, ‹_›, Or.inr (Or.inr (Or.inr (Or.inl ⟨_, _, _, _, rfl, ‹_›⟩)))⟩
        | exact ⟨‹_›, _, ‹_›,
            Or.inr (Or.inr (Or.inr (Or.inr ⟨_, _, _, _, _, _, rfl, ‹_›, ‹_›⟩)))⟩
        | (simp at h; subst h; simp_all; done)
        | (rename_i hs; obtain ⟨y, rfl⟩ := spawnYs_inl _ _ _ _ _ _ _ _ hs
           simp [TranSpec.zero, proc.Mod.zero] at h)
  · rintro ⟨hL, viaChnl, hX, h⟩
    rcases h with ⟨X, Y, rfl⟩ | ⟨X, L, slot, rfl, hS⟩ | ⟨X, Y, valChnl, v, rfl, hY, hS⟩ |
      ⟨X, Y, c, m, rfl, hS⟩ | ⟨X, cs, m, x, a, l, rfl, hS, hV⟩
    all_goals
      simp only [step.Term.Via] at hL hX
      simp [takeWith, takeWithSendSpec, takeWithRecvSpec, takeWithLabSpec, takeWithCaseSpec,
        takeWithFwdSpec, failWith, step.Term.Via, *]

/-- Every binding in the mod that the loop over `Ys` leaves satisfies `P`, when the bindings
it started from do and `P` holds of every binding of the caller with the write intent
`-snap.Rev-1` and of every binding of the callee with the revision `pool.Rev+1`. -/
theorem spawnYs_bnds_forall (procCfg : proc.Snap) (rcvrProcID : ID) (rcvrSig : sig.Root)
    (rcvrRev : Rev) (P : proc.Bnd → Prop)
    (hP : ∀ b : proc.Bnd,
      (b.ProcID = procCfg.ProcID ∧ b.Rev = -procCfg.Rev - 1) ∨
        (b.ProcID = rcvrProcID ∧ b.Rev = rcvrRev + 1) → P b) :
    ∀ (Ys : List PH) (i : Nat) (m m' : proc.Mod),
      spawnYs procCfg rcvrProcID rcvrSig rcvrRev i Ys m = .ok (.inr m') →
      (∀ b ∈ m.Bnds, P b) → ∀ b ∈ m'.Bnds, P b := by
  intro Ys
  induction Ys with
  | nil =>
    intro i m m' h hm
    simp [spawnYs] at h
    subst h
    exact hm
  | cons y rest ih =>
    intro i m m' h hm
    simp only [spawnYs] at h
    repeat' split at h
    · simp at h
    · simp at h
    · refine ih _ _ _ h ?_
      intro b hb
      simp only [List.mem_append, List.mem_singleton] at hb
      rcases hb with (hb | rfl) | rfl
      · exact hm b hb
      · exact hP _ (Or.inl ⟨rfl, rfl⟩)
      · exact hP _ (Or.inr ⟨rfl, rfl⟩)

/-- C27 (counterexample): two successful sends on snaps with `snap.Rev = 6 >= 0`. In the
first the acting process 1 finds its own earlier receive (buffered at revision 4) on the via
channel: the mod holds bindings of the acting process with `Rev = 5`, and `|5|` is not
`snap.Rev + 1 = 7`. In the second the buffered receive of process 1 has the revision -5:
the mod holds bindings with the negative `Rev = -4`, which is not `-snap.Rev - 1 = -7`, and
they belong to process 1, not to the acting process 3. -/
theorem write_intent_encoding_counterexample :
    (0 ≤ scenario.selfCfg.Rev ∧
     takeWith scenario.newID scenario.viaCtx scenario.env0 scenario.selfCfg
        (some scenario.sendTerm) =
      .ok (scenario.recvNext,
        { Locks := [{ PoolID := 100, Rev := 6 }],
          Bnds := [{ ProcID := 1, ChnlPH := PH.id 2, ChnlID := idNil, StateID := idNil,
                     Rev := -7 },
                   { ProcID := 1, ChnlPH := PH.id 1, ChnlID := 1000, StateID := 12, Rev := 5 },
                   { ProcID := 1, ChnlPH := PH.id 1, ChnlID := 1000, StateID := 12, Rev := 7 },
                   { ProcID := 1, ChnlPH := PH.nil, ChnlID := 2, StateID := 11, Rev := 5 }],
          Steps := [], Liabs := [] }, none) ∧
     scenario.selfCfg.ProcID = 1 ∧ |(5 : Rev)| ≠ scenario.selfCfg.Rev + 1) ∧
    (0 ≤ scenario.sndrCfgNegPartner.Rev ∧
     takeWith scenario.newID scenario.viaCtx scenario.env0 scenario.sndrCfgNegPartner
        (some scenario.sendTerm) =
      .ok (scenario.recvNext,
        { Locks := [{ PoolID := 101, Rev := 6 }],
          Bnds := [{ ProcID := 3, ChnlPH := PH.id 2, ChnlID := idNil, StateID := idNil,
                     Rev := -7 },
                   { ProcID := 1, ChnlPH := PH.id 1, ChnlID := 1000, StateID := 12,
                     Rev := -4 },
                   { ProcID := 3, ChnlPH := PH.id 1, ChnlID := 1000, StateID := 12, Rev := 7 },
                   { ProcID := 1, ChnlPH := PH.id 2, ChnlID := 2, StateID := 11,
                     Rev := -4 }],
          Steps := [], Liabs := [] }, none) ∧
     (-4 : Rev) < 0 ∧ (-4 : Rev) ≠ -scenario.sndrCfgNegPartner.Rev - 1 ∧
     scenario.sndrCfgNegPartner.ProcID ≠ 1) :=
  ⟨⟨by decide, rfl, rfl, by decide⟩, by decide, rfl, by decide, by decide, by decide⟩

/-- C27 (amended): let `snap.Rev >= 0`, let the step found on the via channel (if any) have
been buffered by another process at a non-negative revision, and for Spawn let the fresh
process ID differ from the acting process and the callee pool's revision be non-negative.
Then in every mod that `takeWith` returns, each binding with negative `Rev` has
`Rev = -snap.Rev-1` and belongs to the acting process, and each binding of the acting
process has `|Rev| = snap.Rev+1`. -/
theorem write_intent_encoding
    (newID : Nat → ID) (procCtx : state.Context) (procEnv : Environment)
    (procCfg : proc.Snap) (t : step.Term) (ts : TranSpec) (m : proc.Mod) (err : Option Err)
    (hrev : 0 ≤ procCfg.Rev)
    (hmsg : ∀ viaChnl s, procCfg.Chnls.lookup t.Via = some viaChnl →
      procCfg.Steps.lookup viaChnl.ChnlID = some (some (.MsgRoot2 s)) →
      s.ProcID ≠ procCfg.ProcID ∧ 0 ≤ s.Rev)
    (hsvc : ∀ viaChnl s, procCfg.Chnls.lookup t.Via = some viaChnl →
      procCfg.Steps.lookup viaChnl.ChnlID = some (some (.SvcRoot2 s)) →
      s.ProcID ≠ procCfg.ProcID ∧ 0 ≤ s.Rev)
    (hspawn : ∀ X Ys Ys2 SigID PoolQN Cont pool, t = .SpawnSpec X Ys Ys2 SigID PoolQN Cont →
      procEnv.Locks.lookup PoolQN = some pool →
      newID 0 ≠ procCfg.ProcID ∧ 0 ≤ pool.Rev)
    (hok : takeWith newID procCtx procEnv procCfg (some t) = .ok (ts, m, err)) :
    ∀ b ∈ m.Bnds,
      (b.Rev < 0 → b.Rev = -procCfg.Rev - 1 ∧ b.ProcID = procCfg.ProcID) ∧
      (b.ProcID = procCfg.ProcID → |b.Rev| = procCfg.Rev + 1) := by
  have key : ∀ b : proc.Bnd, b.ProcID = procCfg.ProcID →
      (b.Rev = procCfg.Rev + 1 ∨ b.Rev = -procCfg.Rev - 1) →
      (b.Rev < 0 → b.Rev = -procCfg.Rev - 1 ∧ b.ProcID = procCfg.ProcID) ∧
      (b.ProcID = procCfg.ProcID → |b.Rev| = procCfg.Rev + 1) := by
    intro b hp hr
    refine ⟨fun hneg => ⟨?_, hp⟩, fun _ => ?_⟩
    · rcases hr with h | h
      · linarith
      · exact h
    · rw [abs_eq (by linarith)]
      rcases hr with h | h
      · exact Or.inl h
      · exact Or.inr (by linarith)
  have other : ∀ b : proc.Bnd, b.ProcID ≠ procCfg.ProcID → 0 ≤ b.Rev →
      (b.Rev < 0 → b.Rev = -procCfg.Rev - 1 ∧ b.ProcID = procCfg.ProcID) ∧
      (b.ProcID = procCfg.ProcID → |b.Rev| = procCfg.Rev + 1) := by
    intro b hp hr
    exact ⟨fun hneg => absurd hneg (by linarith), fun h => absurd h hp⟩
  cases t
  case SpawnSpec X Ys Ys2 SigID PoolQN Cont =>
    simp only [takeWith, takeWithSpawnSpec, failWith] at hok
    repeat' split at hok
    all_goals (try (simp at hok; done))
    all_goals
      simp only [Except.ok.injEq, Prod.mk.injEq] at hok
      obtain ⟨-, rfl, -⟩ := hok
    all_goals (try (simp [proc.Mod.zero]))
    rename_i hloop
    have hs := hspawn _ _ _ _ _ _ _ rfl (by assumption)
    refine spawnYs_bnds_forall procCfg _ _ _ _ ?_ Ys 0 _ _ hloop ?_
    · rintro b (⟨hp, hr⟩ | ⟨hp, hr⟩)
      · exact key b hp (Or.inr hr)
      · exact other b (by rw [hp]; exact hs.1) (by rw [hr]; linarith [hs.2])
    · intro b hb
      simp only [proc.Mod.zero, List.nil_append, List.cons_append, List.mem_cons,
        List.mem_singleton, List.not_mem_nil, or_false] at hb
      rcases hb with rfl | rfl
      · exact key _ rfl (Or.inl rfl)
      · exact other _ hs.1 (by dsimp only; linarith [hs.2])
  all_goals
    simp only [takeWith, takeWithCloseSpec, takeWithWaitSpec, takeWithSendSpec,
      takeWithRecvSpec, takeWithLabSpec, takeWithCaseSpec, takeWithFwdSpec,
      failWith, step.Term.Via] at hok hmsg hsvc
    repeat' split at hok
    all_goals (try (simp at hok; done))
    all_goals
      simp only [Except.ok.injEq, Prod.mk.injEq] at hok
      obtain ⟨-, rfl, -⟩ := hok
      intro b hb
      simp only [proc.Mod.zero, List.nil_append, List.cons_append, List.mem_cons,
        List.mem_singleton, List.not_mem_nil, or_false] at hb
    all_goals (try rcases hb with rfl | rfl | rfl | rfl)
    all_goals
      first
        | exact key _ rfl (Or.inl rfl)
        | exact key _ rfl (Or.inr rfl)
        | (have hs := hsvc _ _ (by assumption) (by assumption)
           exact other _ hs.1 (by dsimp only; linarith [hs.2]))
        | (have hs := hmsg _ _ (by assumption) (by assumption)
           exact other _ hs.1 (by dsimp only; linarith [hs.2]))

/-- C27 (witness): the send of RecvSend that matches the buffered receive: the sender's
write intent on `msg` has `Rev = -7 = -snap.Rev-1` and `|Rev| = 7 = snap.Rev+1`. -/
theorem write_intent_encoding_witness :
    takeWith scenario.newID scenario.viaCtx scenario.env0 scenario.sndrCfgMatched
        (some scenario.sendTerm) =
      .ok (scenario.recvNext, scenario.sendMatchedMod, none) ∧
    scenario.sendValBnd ∈ scenario.sendMatchedMod.Bnds ∧
    scenario.sendValBnd.Rev = -scenario.sndrCfgMatched.Rev - 1 ∧
    |scenario.sendValBnd.Rev| = scenario.sndrCfgMatched.Rev + 1 :=
  have h := write_intent_encoding scenario.newID scenario.viaCtx scenario.env0
    scenario.sndrCfgMatched scenario.sendTerm scenario.recvNext scenario.sendMatchedMod none
    (by decide)
    (by
      intro viaChnl s hv hs
      simp [scenario.sndrCfgMatched, scenario.sndrCfg, scenario.sendTerm,
        step.Term.Via] at hv
      subst hv
      simp [scenario.sndrCfgMatched, scenario.recvrChnl] at hs)
    (by
      intro viaChnl s hv hs
      simp [scenario.sndrCfgMatched, scenario.sndrCfg, scenario.sendTerm,
        step.Term.Via] at hv
      subst hv
      simp [scenario.sndrCfgMatched, scenario.recvrChnl] at hs
      subst hs
      decide)
    (by intro _ _ _ _ _ _ _ ht; simp [scenario.sendTerm] at ht)
    rfl scenario.sendValBnd (by decide)
  ⟨rfl, by decide, (h.1 (by decide)).1, h.2 rfl⟩

/-- The loop over `Ys` keeps a list of bindings free of conflicts (two bindings for the same
`(ProcID, ChnlID)` with revisions of the same sign), when the callee is another process
than the caller, the arguments are bound to pairwise distinct channels, and none of these
channels occurs in the bindings the loop started from. -/
theorem spawnYs_linear (procCfg : proc.Snap) (rcvrProcID : ID) (rcvrSig : sig.Root)
    (rcvrRev : Rev) (hproc : rcvrProcID ≠ procCfg.ProcID) :
    ∀ (Ys : List PH) (i : Nat) (m m' : proc.Mod),
      spawnYs procCfg rcvrProcID rcvrSig rcvrRev i Ys m = .ok (.inr m') →
      (Ys.filterMap (fun y => (procCfg.Chnls.lookup y).map proc.Chnl.ChnlID)).Nodup →
      (∀ b ∈ m.Bnds,
        b.ChnlID ∉ Ys.filterMap (fun y => (procCfg.Chnls.lookup y).map proc.Chnl.ChnlID)) →
      m.Bnds.Pairwise (fun a b => ¬ (a.ProcID = b.ProcID ∧ a.ChnlID = b.ChnlID ∧
        ((0 < a.Rev ∧ 0 < b.Rev) ∨ (a.Rev < 0 ∧ b.Rev < 0)))) →
      m'.Bnds.Pairwise (fun a b => ¬ (a.ProcID = b.ProcID ∧ a.ChnlID = b.ChnlID ∧
        ((0 < a.Rev ∧ 0 < b.Rev) ∨ (a.Rev < 0 ∧ b.Rev < 0)))) := by
  intro Ys
  induction Ys with
  | nil =>
    intro i m m' h _ _ hm
    simp [spawnYs] at h
    subst h
    exact hm
  | cons y rest ih =>
    intro i m m' h hnd hfresh hm
    simp only [spawnYs] at h
    repeat' split at h
    · simp at h
    · simp at h
    · rename_i valChnl hy _ ep _
      simp only [List.filterMap_cons, hy, Option.map_some', List.nodup_cons,
        List.mem_cons, not_or] at hnd hfresh
      refine ih _ _ _ h hnd.2 ?_ ?_
      · intro b hb
        simp only [List.mem_append, List.mem_singleton] at hb
        rcases hb with (hb | rfl) | rfl
        · exact (hfresh b hb).2
        · exact hnd.1
        · exact hnd.1
      · simp only [List.pairwise_append, List.pairwise_cons, List.Pairwise.nil,
          List.mem_append, List.mem_singleton, List.not_mem_nil, false_implies,
          implies_true, and_true, true_and, forall_eq]
        refine ⟨⟨hm, ?_⟩, ?_⟩
        · intro a ha hc
          exact (hfresh a ha).1 hc.2.1
        · rintro a (ha | rfl) hc
          · exact (hfresh a ha).1 hc.2.1
          · exact hproc hc.1.symm

/-- C23 (counterexample): two successful calls on snaps with `snap.Rev = 2 >= 0` and no
partner step whose mods are not linear. `Spawn{Ys=[inj, inj]}` passes one channel twice:
the mod binds `(4, 3)` twice with `Rev = -3` and `(1000, 3)` twice with `Rev = 4`.
`Fwd{X=forwarder, Y=forwarder}` with no partner binds `(6, 6)` twice with `Rev = -3`. -/
theorem takeWith_bindings_linear_counterexample :
    (0 ≤ scenario.spawnerCfg.Rev ∧
     takeWith scenario.newID scenario.emptyCtx scenario.spawnEnv3 scenario.spawnerCfg
        (some scenario.spawnTermTwice) =
      .ok ({ PoolID := 100, ProcID := 4, Term := scenario.spawnCont },
        scenario.spawnModTwice, none) ∧
     ¬ bndsLinear scenario.spawnModTwice.Bnds) ∧
    (0 ≤ scenario.fwdCfg.Rev ∧
     scenario.fwdCfg.Steps.lookup scenario.fwdChnl.ChnlID = some none ∧
     takeWith scenario.newID scenario.fwdCtx scenario.env0 scenario.fwdCfg
        (some (.FwdSpec (PH.id 6) (PH.id 6))) =
      .ok (TranSpec.zero, scenario.fwdSelfMod, none) ∧
     ¬ bndsLinear scenario.fwdSelfMod.Bnds) :=
  ⟨⟨by decide, rfl, by decide⟩, by decide, rfl, rfl, by decide⟩

/-- C23 (amended): the bindings of every mod that `takeWith` returns are linear (each
`(ProcID, ChnlID)` occurs in at most one binding with positive `Rev` and in at most one
with negative `Rev`), provided the channels and processes involved are distinct: the step
found on the via channel (if any) was buffered by another process; the fresh channel of a
matched receive differs from the sent channel (`A` differs from `Y`'s channel for Send,
from `B` for Recv); `X` and `Y` of a forward are bound to different channels; and for
Spawn the fresh process ID differs from the acting process, the arguments are bound to
pairwise distinct channels, and the fresh via channel is none of them. The signs of
`snap.Rev` and of the partner's `Rev` play no part. -/
theorem takeWith_bindings_linear
    (newID : Nat → ID) (procCtx : state.Context) (procEnv : Environment)
    (procCfg : proc.Snap) (t : step.Term) (ts : TranSpec) (m : proc.Mod) (err : Option Err)
    (hmsg : ∀ viaChnl s, procCfg.Chnls.lookup t.Via = some viaChnl →
      procCfg.Steps.lookup viaChnl.ChnlID = some (some (.MsgRoot2 s)) →
      s.ProcID ≠ procCfg.ProcID)
    (hsvc : ∀ viaChnl s, procCfg.Chnls.lookup t.Via = some viaChnl →
      procCfg.Steps.lookup viaChnl.ChnlID = some (some (.SvcRoot2 s)) →
      s.ProcID ≠ procCfg.ProcID)
    (hsend : ∀ X Y viaChnl valChnl s x a y c, t = .SendSpec X Y →
      procCfg.Chnls.lookup X = some viaChnl → procCfg.Chnls.lookup Y = some valChnl →
      procCfg.Steps.lookup viaChnl.ChnlID = some (some (.SvcRoot2 s)) →
      s.Cont = some (.RecvImpl x a y c) → a ≠ valChnl.ChnlID)
    (hrecv : ∀ X Y c viaChnl s x a b, t = .RecvSpec X Y c →
      procCfg.Chnls.lookup X = some viaChnl →
      procCfg.Steps.lookup viaChnl.ChnlID = some (some (.MsgRoot2 s)) →
      s.Val = some (.SendImpl x a b) → a ≠ b)
    (hfwd : ∀ X Y viaChnl valChnl, t = .FwdSpec X Y →
      procCfg.Chnls.lookup X = some viaChnl → procCfg.Chnls.lookup Y = some valChnl →
      viaChnl.ChnlID ≠ valChnl.ChnlID)
    (hspawn : ∀ X Ys Ys2 SigID PoolQN Cont, t = .SpawnSpec X Ys Ys2 SigID PoolQN Cont →
      newID 0 ≠ procCfg.ProcID ∧
      (Ys.filterMap (fun y => (procCfg.Chnls.lookup y).map proc.Chnl.ChnlID)).Nodup ∧
      newID 1 ∉ Ys.filterMap (fun y => (procCfg.Chnls.lookup y).map proc.Chnl.ChnlID))
    (hok : takeWith newID procCtx procEnv procCfg (some t) = .ok (ts, m, err)) :
    bndsLinear m.Bnds := by
  unfold bndsLinear
  have sign : ∀ r : Rev, ¬ ((0 < -r - 1 ∧ 0 < r + 1) ∨ (-r - 1 < 0 ∧ r + 1 < 0)) := by
    intro r h
    rcases h with ⟨h1, h2⟩ | ⟨h1, h2⟩ <;> linarith
  cases t
  case SpawnSpec X Ys Ys2 SigID PoolQN Cont =>
    simp only [takeWith, takeWithSpawnSpec, failWith] at hok
    repeat' split at hok
    all_goals (try (simp at hok; done))
    all_goals
      simp only [Except.ok.injEq, Prod.mk.injEq] at hok
      obtain ⟨-, rfl, -⟩ := hok
    all_goals (try exact List.Pairwise.nil)
    rename_i hloop
    obtain ⟨hp, hnd, hfresh⟩ := hspawn _ _ _ _ _ _ rfl
    refine spawnYs_linear procCfg _ _ _ hp Ys 0 _ _ hloop hnd ?_ ?_
    · intro b hb
      simp only [proc.Mod.zero, List.nil_append, List.cons_append, List.mem_cons,
        List.mem_singleton, List.not_mem_nil, or_false] at hb
      rcases hb with rfl | rfl <;> exact hfresh
    · simp only [proc.Mod.zero, List.nil_append, List.cons_append, List.pairwise_cons,
        List.Pairwise.nil, List.mem_cons, List.mem_singleton, List.not_mem_nil, or_false,
        false_implies, implies_true, and_true, forall_eq]
      intro hc
      exact hp hc.1.symm
  all_goals
    simp only [takeWith, takeWithCloseSpec, takeWithWaitSpec, takeWithSendSpec,
      takeWithRecvSpec, takeWithLabSpec, takeWithCaseSpec, takeWithFwdSpec,
      failWith, step.Term.Via] at hok hmsg hsvc
    repeat' split at hok
    all_goals (try (simp at hok; done))
    all_goals
      simp only [Except.ok.injEq, Prod.mk.injEq] at hok
      obtain ⟨-, rfl, -⟩ := hok
      simp only [proc.Mod.zero, List.nil_append, List.cons_append, List.pairwise_cons,
        List.Pairwise.nil, List.mem_cons, List.mem_singleton, List.not_mem_nil, or_false,
        false_implies, implies_true, and_true, forall_eq, forall_eq_or_imp]
    all_goals repeat' apply And.intro
    all_goals
      intro hc
      first
        | exact sign _ hc.2.2
        | exact hsvc _ _ (by assumption) (by assumption) hc.1
        | exact hsvc _ _ (by assumption) (by assumption) hc.1.symm
        | exact hmsg _ _ (by assumption) (by assumption) hc.1
        | exact hsend _ _ _ _ _ _ _ _ _ rfl (by assumption) (by assumption) (by assumption)
            (by assumption) hc.2.1
        | exact hrecv _ _ _ _ _ _ _ _ rfl (by assumption) (by assumption) (by assumption)
            hc.2.1
        | exact hfwd _ _ _ _ rfl (by assumption) (by assumption) hc.2.1

/-- C23 (witness): the spawn of the Spawn scenario, with one argument: its four bindings
are linear. -/
theorem takeWith_bindings_linear_witness :
    takeWith scenario.newID scenario.emptyCtx scenario.spawnEnv3 scenario.spawnerCfg
        (some scenario.spawnTerm3) =
      .ok ({ PoolID := 100, ProcID := 4, Term := scenario.spawnCont },
        scenario.spawnMod3, none) ∧
    bndsLinear scenario.spawnMod3.Bnds :=
  ⟨rfl,
   takeWith_bindings_linear scenario.newID scenario.emptyCtx scenario.spawnEnv3
    scenario.spawnerCfg scenario.spawnTerm3 _ scenario.spawnMod3 none
    (by intro viaChnl s _ hs; simp [scenario.spawnerCfg] at hs)
    (by intro viaChnl s _ hs; simp [scenario.spawnerCfg] at hs)
    (by intro _ _ _ _ _ _ _ _ _ ht; simp [scenario.spawnTerm3] at ht)
    (by intro _ _ _ _ _ _ _ _ ht; simp [scenario.spawnTerm3] at ht)
    (by intro _ _ _ _ ht; simp [scenario.spawnTerm3] at ht)
    (by
      intro X Ys Ys2 SigID PoolQN Cont ht
      simp only [scenario.spawnTerm3, step.Term.SpawnSpec.injEq] at ht
      obtain ⟨-, rfl, -⟩ := ht
      decide)
    rfl⟩

/-- C36: whenever `takeWith` returns a non-nil error, the next spec is the zero `TranSpec`
and the mod is the zero `proc.Mod`: no lock, binding, step or liability, whatever had been
accumulated before the failing lookup. -/
theorem takeWith_error_is_atomic
    (newID : Nat → ID) (procCtx : state.Context) (procEnv : Environment)
    (procCfg : proc.Snap) (t : Option step.Term) (ts : TranSpec) (m : proc.Mod) (err : Err)
    (hok : takeWith newID procCtx procEnv procCfg t = .ok (ts, m, some err)) :
    ts = TranSpec.zero ∧ m = proc.Mod.zero ∧
      m.Locks = [] ∧ m.Bnds = [] ∧ m.Steps = [] ∧ m.Liabs = [] := by
  have h : ts = TranSpec.zero ∧ m = proc.Mod.zero := by
    cases t with
    | none => simp [takeWith] at hok
    | some t =>
      cases t
      all_goals
        simp only [takeWith, takeWithCloseSpec, takeWithWaitSpec, takeWithSendSpec,
          takeWithRecvSpec, takeWithLabSpec, takeWithCaseSpec, takeWithFwdSpec,
          takeWithSpawnSpec, failWith] at hok
        repeat' split at hok
        all_goals (try (simp at hok; done))
        all_goals
          simp only [Except.ok.injEq, Prod.mk.injEq] at hok
          exact ⟨hok.1.symm, hok.2.1.symm⟩
  obtain ⟨h1, rfl⟩ := h
  exact ⟨h1, rfl, rfl, rfl, rfl, rfl⟩

/-- C36 (witness): a spawn whose only argument is not bound fails with `ErrMissingChnl`
after the liability and the two via bindings were appended; the returned mod has none of
them. -/
theorem takeWith_error_is_atomic_witness :
    takeWith scenario.newID scenario.emptyCtx scenario.spawnEnv3 scenario.spawnerCfg
        (some scenario.spawnTermUnboundArg) =
      .ok (TranSpec.zero, proc.Mod.zero, some (.procErrMissingChnl (PH.id 9))) ∧
    proc.Mod.zero.Bnds = [] ∧ proc.Mod.zero.Liabs = [] :=
  have h := takeWith_error_is_atomic scenario.newID scenario.emptyCtx scenario.spawnEnv3
    scenario.spawnerCfg (some scenario.spawnTermUnboundArg) TranSpec.zero proc.Mod.zero
    (.procErrMissingChnl (PH.id 9)) rfl
  ⟨rfl, h.2.2.2.1, h.2.2.2.2.2⟩

/-- C35 (the code at the failing input): `pool.CollectCtx` returns no ID for any list of
channels, so the state of a channel bound in the loaded snap (state 10 of `recvr` here) is
not among the IDs that `Take` passes to the state loader: the loader of `recvPorts`, which
answers only when asked for state 10, is asked without it. -/
theorem collectCtx_returns_no_state :
    (∀ chnls : List proc.Chnl, CollectCtx chnls = []) ∧
    scenario.rcvrCfgMatched.Chnls.lookup (PH.id 1) = some scenario.recvrChnl ∧
    scenario.recvrChnl.StateID ∉ CollectCtx (scenario.rcvrCfgMatched.Chnls.map Prod.snd) ∧
    takeBody scenario.newID scenario.recvPorts 100 1 scenario.recvTerm =
      .ok (.ret (some (.portErr "state 10 was not asked for"))) :=
  ⟨fun _ => rfl, rfl, by decide, rfl⟩

/-- C37 (the code at the failing input): the forward of the Fwd scenario that finds a
partner step returns that step's impl as next term (the waiter's `WaitImpl`, the closer's
`CloseImpl`), although the buffered steps hold only spec terms in their continuations.
`takeWith` has no arm for an impl: on every snap it panics with 'term type unexpected', and
so does the next iteration of `Take`. -/
theorem fwd_next_term_is_impl :
    (takeWith scenario.newID scenario.fwdCtx scenario.env0 scenario.fwdCfgSvc
        (some scenario.fwdTerm) =
      .ok ({ PoolID := 100, ProcID := 7,
             Term := some (.WaitImpl (PH.id 6) scenario.waitCont) },
        { Locks := [],
          Bnds := [{ ProcID := 7, ChnlPH := PH.id 6, ChnlID := 6, StateID := 11, Rev := 1 }],
          Steps := [], Liabs := [] }, none) ∧
     takeWith scenario.newID scenario.fwdCtx scenario.env0 scenario.fwdCfgMsg
        (some scenario.fwdTerm) =
      .ok ({ PoolID := 100, ProcID := 5, Term := some (.CloseImpl (PH.id 5)) },
        { Locks := [],
          Bnds := [{ ProcID := 5, ChnlPH := PH.id 5, ChnlID := 5, StateID := 11, Rev := 2 }],
          Steps := [], Liabs := [] }, none)) ∧
    (∀ (newID : Nat → ID) (procCtx : state.Context) (procEnv : Environment)
        (procCfg : proc.Snap),
      takeWith newID procCtx procEnv procCfg
          (some (.WaitImpl (PH.id 6) scenario.waitCont)) = .error .ErrTermTypeUnexpected ∧
      takeWith newID procCtx procEnv procCfg
          (some (.CloseImpl (PH.id 5))) = .error .ErrTermTypeUnexpected) ∧
    takeBody scenario.newID scenario.fwdNextPorts 100 7
        (.WaitImpl (PH.id 6) scenario.waitCont) = .error .ErrTermTypeUnexpected :=
  ⟨⟨rfl, rfl⟩, fun _ _ _ _ => ⟨rfl, rfl⟩, rfl⟩

/-- C38 (the code at the failing inputs): the revision stored in a buffered step, and with
it the revision of the partner's bindings at the match, depends on the step kind. A receive
buffered at revision `r = 4` stores `r`, and the matching send binds the receiver at
`r + 1`. A case buffered at `r = 1` stores `r + 1`, and the matching label binds the
follower at `r + 2`. A wait buffered at `r = 3` stores 0, and the forward that meets it
binds the waiter at 1. -/
theorem partner_rev_depends_on_step_kind :
    (takeWith scenario.newID scenario.viaCtx scenario.env0 scenario.rcvrCfg
        (some scenario.recvTerm) =
      .ok (TranSpec.zero,
        { Locks := [{ PoolID := 100, Rev := 4 }], Bnds := [],
          Steps := [.SvcRoot2 scenario.recvBuffered], Liabs := [] }, none) ∧
     scenario.recvBuffered.Rev = scenario.rcvrCfg.Rev ∧
     takeWith scenario.newID scenario.viaCtx scenario.env0 scenario.sndrCfgAfterRecv
        (some scenario.sendTerm) =
      .ok (scenario.recvNext,
        { Locks := [{ PoolID := 101, Rev := 6 }],
          Bnds := [{ ProcID := 3, ChnlPH := PH.id 2, ChnlID := idNil, StateID := idNil,
                     Rev := -7 },
                   { ProcID := 1, ChnlPH := PH.id 1, ChnlID := 1000, StateID := 12,
                     Rev := scenario.rcvrCfg.Rev + 1 },
                   { ProcID := 3, ChnlPH := PH.id 1, ChnlID := 1000, StateID := 12, Rev := 7 },
                   { ProcID := 1, ChnlPH := PH.nil, ChnlID := 2, StateID := 11,
                     Rev := scenario.rcvrCfg.Rev + 1 }],
          Steps := [], Liabs := [] }, none)) ∧
    (takeWith scenario.newID scenario.emptyCtx scenario.env0 scenario.followerCfg
        (some scenario.caseTerm) =
      .ok (TranSpec.zero,
        { Locks := [{ PoolID := 100, Rev := 1 }], Bnds := [],
          Steps := [.SvcRoot2 scenario.caseStep], Liabs := [] }, none) ∧
     scenario.caseStep.Rev = scenario.followerCfg.Rev + 1 ∧
     takeWith scenario.newID scenario.sumCtx scenario.env0 scenario.deciderCfgMatched
        (some scenario.labTerm) =
      .ok ({ PoolID := 100, ProcID := 8, Term := some (.CloseSpec (PH.id 8)) },
        { Locks := [{ PoolID := 102, Rev := 5 }],
          Bnds := [{ ProcID := 8, ChnlPH := PH.id 8, ChnlID := 1000, StateID := 21,
                     Rev := scenario.followerCfg.Rev + 2 }],
          Steps := [], Liabs := [] }, none) ∧
     scenario.followerCfg.Rev + 2 ≠ scenario.followerCfg.Rev + 1) ∧
    (takeWith scenario.newID scenario.emptyCtx scenario.env0 scenario.waiterOnFwdCfg
        (some (.WaitSpec (PH.id 6) scenario.waitCont)) =
      .ok (TranSpec.zero,
        { Locks := [{ PoolID := 100, Rev := 3 }],
          Bnds := [{ ProcID := 7, ChnlPH := PH.id 6, ChnlID := 6, StateID := 11, Rev := -4 }],
          Steps := [.SvcRoot2 scenario.waitOnFwdStep], Liabs := [] }, none) ∧
     scenario.waitOnFwdStep.Rev = 0 ∧ scenario.waiterOnFwdCfg.Rev = 3 ∧
     takeWith scenario.newID scenario.fwdCtx scenario.env0 scenario.fwdCfgSvc
        (some scenario.fwdTerm) =
      .ok ({ PoolID := 100, ProcID := 7,
             Term := some (.WaitImpl (PH.id 6) scenario.waitCont) },
        { Locks := [],
          Bnds := [{ ProcID := 7, ChnlPH := PH.id 6, ChnlID := 6, StateID := 11, Rev := 1 }],
          Steps := [], Liabs := [] }, none) ∧
     (1 : Rev) ≠ scenario.waiterOnFwdCfg.Rev + 1) :=
  ⟨⟨rfl, rfl, rfl⟩, ⟨rfl, rfl, rfl, by decide⟩, rfl, rfl, rfl, rfl, by decide⟩

/-- The loop over `Ys` panics with an index out of range when all arguments are bound and
the signature has fewer endpoints than the loop needs. -/
theorem spawnYs_short (procCfg : proc.Snap) (rcvrProcID : ID) (rcvrSig : sig.Root)
    (rcvrRev : Rev) :
    ∀ (Ys : List PH) (i : Nat) (m : proc.Mod),
      (∀ y ∈ Ys, ∃ valChnl, procCfg.Chnls.lookup y = some valChnl) →
      i ≤ rcvrSig.Ys.length → rcvrSig.Ys.length < i + Ys.length →
      spawnYs procCfg rcvrProcID rcvrSig rcvrRev i Ys m = .error .indexOutOfRange := by
  intro Ys
  induction Ys with
  | nil =>
    intro i m _ hle hlt
    simp at hlt
    omega
  | cons y rest ih =>
    intro i m hb hle hlt
    obtain ⟨valChnl, hy⟩ := hb y (by simp)
    simp only [List.length_cons] at hlt
    by_cases hi : i < rcvrSig.Ys.length
    · obtain ⟨ep, he⟩ : ∃ ep, rcvrSig.Ys[i]? = some ep :=
        ⟨_, List.getElem?_eq_getElem hi⟩
      simp only [spawnYs, List.get?_eq_getElem?, hy, he]
      exact ih (i + 1) _ (fun z hz => hb z (by simp [hz])) (by omega) (by omega)
    · have he : rcvrSig.Ys[i]? = none := by
        rw [List.getElem?_eq_none_iff]
        omega
      simp only [spawnYs, List.get?_eq_getElem?, hy, he]

/-- C39 (the code on the failing inputs): a Spawn whose pool, sig and role resolve and whose
`Ys` are all bound panics with an index out of range on `rcvrSig.Ys[i]` whenever it has more
arguments than the signature has client endpoints. -/
theorem spawn_indexes_past_signature
    (newID : Nat → ID) (procCtx : state.Context) (procEnv : Environment)
    (procCfg : proc.Snap) (X : PH) (Ys : List PH) (Ys2 : List ID) (SigID : ID)
    (PoolQN : Sym) (Cont : Option step.Term) (pool : proc.Lock) (rcvrSig : sig.Root)
    (rcvrRole : role.Root)
    (hpool : procEnv.Locks.lookup PoolQN = some pool)
    (hsig : procEnv.Sigs.lookup SigID = some rcvrSig)
    (hrole : procEnv.Roles.lookup rcvrSig.X.RoleQN = some rcvrRole)
    (hYs : ∀ y ∈ Ys, ∃ valChnl, procCfg.Chnls.lookup y = some valChnl)
    (hlen : rcvrSig.Ys.length < Ys.length) :
    takeWith newID procCtx procEnv procCfg (some (.SpawnSpec X Ys Ys2 SigID PoolQN Cont)) =
      .error .indexOutOfRange := by
  simp only [takeWith, takeWithSpawnSpec, hpool, hsig, hrole]
  rw [spawnYs_short procCfg _ _ _ Ys 0 _ hYs (Nat.zero_le _) (by omega)]

/-- C39 (witness): a spawn with two bound arguments against `oneSig3`, which declares one
client endpoint. -/
theorem spawn_indexes_past_signature_witness :
    scenario.oneSig3.Ys.length < [PH.id 3, PH.id 4].length ∧
    takeWith scenario.newID scenario.emptyCtx scenario.spawnEnv3 scenario.spawnerCfg
        (some (.SpawnSpec (PH.sym "z") [PH.id 3, PH.id 4] [3, 4] 52 "pool-1"
          scenario.spawnCont)) = .error .indexOutOfRange :=
  ⟨by decide,
   spawn_indexes_past_signature scenario.newID scenario.emptyCtx scenario.spawnEnv3
    scenario.spawnerCfg (PH.sym "z") [PH.id 3, PH.id 4] [3, 4] 52 "pool-1"
    scenario.spawnCont { PoolID := 200, Rev := 3 } scenario.oneSig3 { StateID := 11 }
    rfl rfl rfl
    (by
      intro y hy
      simp only [List.mem_cons, List.mem_singleton, List.not_mem_nil, or_false] at hy
      rcases hy with rfl | rfl
      · exact ⟨scenario.injChnl, rfl⟩
      · exact ⟨scenario.spawnerChnl, rfl⟩)
    (by decide)⟩

/-- A loop that appends one element per round builds the image of the list. -/
theorem lookupCEs_foldl (f : sig.ChnlSpec → state.EP) :
    ∀ (l : List sig.ChnlSpec) (acc : List state.EP),
      l.foldl (fun ces ce => ces ++ [f ce]) acc = acc ++ l.map f := by
  intro l
  induction l with
  | nil => intro acc; simp
  | cons ce rest ih => intro acc; simp [ih]

/-- C40 (the code at the failing input): `LookupCEs` returns one endpoint per client
endpoint, in order, with `Z = ce.Link`, but the state of every one of them is the state of
the provider's role `X2.Link`, not of the role `ce.Link`. For `mixedSig` the client endpoint
of `lolli-role` comes with state 11 (of `one-role`), while its own role names state 10.
`LookupPE` returns the provider's role and state. -/
theorem lookupCEs_uses_provider_role :
    (∀ (e : Environment) (id : ID),
      e.LookupCEs id =
        ((e.Sigs.lookup id).getD sigRootZero).Ys2.map (fun ce =>
          { Z := ce.Link,
            C := (e.States.lookup
              ((e.Roles.lookup ((e.Sigs.lookup id).getD sigRootZero).X2.Link).getD
                roleRootZero).StateID).join })) ∧
    (scenario.mixedEnv.LookupCEs 60).map (fun ep => (ep.Z, ep.C.map state.Root.Ident)) =
      [("lolli-role", some 11)] ∧
    (scenario.mixedEnv.States.lookup
        ((scenario.mixedEnv.Roles.lookup "lolli-role").getD roleRootZero).StateID).join.map
      state.Root.Ident = some 10 ∧
    ((scenario.mixedEnv.LookupPE 60).Z, (scenario.mixedEnv.LookupPE 60).C.map
      state.Root.Ident) = ("one-role", some 11) :=
  ⟨fun e id => by
      simp only [Environment.LookupCEs]
      rw [lookupCEs_foldl]
      rfl,
   rfl, rfl, rfl⟩

/-- C31 (the code at the failing inputs): `Subst` panics with 'term type unexpected' on a
`Recv`, `Lab`, `Case`, `Spawn` or `Fwd` spec, also when such a term is the continuation of a
`Wait`; on terms built from `Close`, `Wait` and `Send` it replaces the placeholder at any
depth, and `Subst(nil)` is nil. -/
theorem subst_panics_on_spec_terms :
    (∀ (ph : PH) (val : ID),
      (∀ X Y c, step.Subst (some (.RecvSpec X Y c)) ph val = .error .ErrTermTypeUnexpected) ∧
      (∀ X L, step.Subst (some (.LabSpec X L)) ph val = .error .ErrTermTypeUnexpected) ∧
      (∀ X cs, step.Subst (some (.CaseSpec X cs)) ph val = .error .ErrTermTypeUnexpected) ∧
      (∀ X Ys Ys2 s q c,
        step.Subst (some (.SpawnSpec X Ys Ys2 s q c)) ph val =
          .error .ErrTermTypeUnexpected) ∧
      (∀ X Y, step.Subst (some (.FwdSpec X Y)) ph val = .error .ErrTermTypeUnexpected) ∧
      step.Subst none ph val = .ok none) ∧
    step.Subst (some (.WaitSpec (PH.sym "z") (some scenario.recvThenClose))) (PH.sym "z") 4 =
      .error .ErrTermTypeUnexpected ∧
    step.Subst (some (.WaitSpec (PH.sym "z") (some (.SendSpec (PH.id 1) (PH.sym "z")))))
        (PH.sym "z") 4 =
      .ok (some (.WaitSpec (PH.id 4) (some (.SendSpec (PH.id 1) (PH.id 4))))) :=
  ⟨fun _ _ => ⟨fun _ _ _ => rfl, fun _ _ => rfl, fun _ _ => rfl,
      fun _ _ _ _ _ _ => rfl, fun _ _ => rfl, rfl⟩,
   rfl, rfl⟩

/-- C33 (the code on every input): when the insert succeeds, `Create` returns the root with
a fresh `PoolID`, the spec's `Title` and `SupID`, and a `Revs` of exactly one element, the
initial revision. Of the two kinds only one has a slot: there is no `Revs[procRev]` (index
1), and read as a PostgreSQL array there is no `revs[rootRev]` (subscript 0). -/
theorem create_makes_one_slot :
    (∀ (newID : Nat → ID) (initial : Rev) (spec : Spec),
      Create newID initial (fun _ => none) spec =
        ({ PoolID := newID 0, Revs := [initial], Title := spec.Title,
           SupID := spec.SupID }, none) ∧
      (Create newID initial (fun _ => none) spec).1.Revs.length = 1 ∧
      (Create newID initial (fun _ => none) spec).1.Revs.get? procRev = none ∧
      pgElem (Create newID initial (fun _ => none) spec).1.Revs rootRev = none) ∧
    (Create scenario.newID 1 (fun _ => none)
        { Title := "pool-1", SupID := 7, DepIDs := [] }).1 =
      { PoolID := 1000, Title := "pool-1", SupID := 7, Revs := [1] } :=
  ⟨fun _ _ _ => ⟨rfl, rfl, rfl, rfl⟩, rfl⟩

/-- The loop of `convertToCtx` leaves the entry of `ph` as it was when every channel with
placeholder `ph` is provided by the driving pool. -/
theorem convertToCtx_miss (poolID : ID) (states : List (ID × Option state.Root)) (ph : PH) :
    ∀ (chnls : List proc.Chnl) (acc : List (PH × Option state.Root)),
      (∀ ch ∈ chnls, ch.ChnlPH = ph → poolID = ch.PoolID) →
      (chnls.foldl
        (fun linear ch =>
          if poolID ≠ ch.PoolID then (ch.ChnlPH, (states.lookup ch.StateID).join) :: linear
          else linear) acc).lookup ph = acc.lookup ph := by
  intro chnls
  induction chnls with
  | nil => intro acc _; rfl
  | cons c rest ih =>
    intro acc h
    simp only [List.foldl_cons]
    rw [ih _ (fun ch hch => h ch (by simp [hch]))]
    by_cases hp : poolID = c.PoolID
    · simp [hp]
    · have hne : c.ChnlPH ≠ ph := fun he => hp (h c (by simp) he)
      have hb : (ph == c.ChnlPH) = false := by
        simpa using fun he : ph = c.ChnlPH => hne he.symm
      simp [hp, List.lookup_cons, hb]

/-- The loop of `convertToCtx` over channels with pairwise distinct placeholders puts
`states[ch.StateID]` under the placeholder of every channel `ch` that another pool
provides. -/
theorem convertToCtx_hit (poolID : ID) (states : List (ID × Option state.Root)) (ph : PH) :
    ∀ (chnls : List proc.Chnl) (acc : List (PH × Option state.Root)) (ch : proc.Chnl),
      chnls.Pairwise (fun a b => a.ChnlPH ≠ b.ChnlPH) →
      ch ∈ chnls → ch.ChnlPH = ph → poolID ≠ ch.PoolID →
      (chnls.foldl
        (fun linear ch =>
          if poolID ≠ ch.PoolID then (ch.ChnlPH, (states.lookup ch.StateID).join) :: linear
          else linear) acc).lookup ph = some (states.lookup ch.StateID).join := by
  intro chnls
  induction chnls with
  | nil => intro acc ch _ hmem; simp at hmem
  | cons c rest ih =>
    intro acc ch hpw hmem hph hpool
    simp only [List.pairwise_cons] at hpw
    simp only [List.foldl_cons]
    rcases List.mem_cons.mp hmem with rfl | hrest
    · rw [convertToCtx_miss poolID states ph rest _
        (fun d hd he => absurd (hph.trans he.symm) (hpw.1 d hd))]
      simp [hpool, List.lookup_cons, hph]
    · exact ih _ ch hpw.2 hrest hph hpool

/-- C34: for channels with pairwise distinct `ChnlPH`, the linear context that
`convertToCtx` builds holds `v` under `ph` exactly when some channel has `ChnlPH = ph`, a
`PoolID` other than the driving pool and `v = states[StateID]`; a channel provided by the
driving pool has no entry under its placeholder. -/
theorem convertToCtx_client_endpoints
    (poolID : ID) (chnls : List proc.Chnl) (states : List (ID × Option state.Root))
    (hdistinct : chnls.Pairwise (fun a b => a.ChnlPH ≠ b.ChnlPH)) :
    (∀ ph v, (convertToCtx poolID chnls states).Linear.lookup ph = some v ↔
      ∃ ch ∈ chnls, ch.ChnlPH = ph ∧ poolID ≠ ch.PoolID ∧
        v = (states.lookup ch.StateID).join) ∧
    (∀ ch ∈ chnls, ch.PoolID = poolID →
      (convertToCtx poolID chnls states).Linear.lookup ch.ChnlPH = none) := by
  have hiff : ∀ ph v, (convertToCtx poolID chnls states).Linear.lookup ph = some v ↔
      ∃ ch ∈ chnls, ch.ChnlPH = ph ∧ poolID ≠ ch.PoolID ∧
        v = (states.lookup ch.StateID).join := by
    intro ph v
    constructor
    · intro h
      by_cases hex : ∃ ch ∈ chnls, ch.ChnlPH = ph ∧ poolID ≠ ch.PoolID
      · obtain ⟨ch, hmem, hph, hpool⟩ := hex
        have := convertToCtx_hit poolID states ph chnls [] ch hdistinct hmem hph hpool
        simp only [convertToCtx] at h
        rw [this] at h
        exact ⟨ch, hmem, hph, hpool, (Option.some.inj h).symm⟩
      · have hmiss := convertToCtx_miss poolID states ph chnls []
          (fun ch hmem hph => by
            by_contra hne
            exact hex ⟨ch, hmem, hph, hne⟩)
        simp only [convertToCtx] at h
        rw [hmiss] at h
        simp at h
    · rintro ⟨ch, hmem, hph, hpool, rfl⟩
      simp only [convertToCtx]
      exact convertToCtx_hit poolID states ph chnls [] ch hdistinct hmem hph hpool
  refine ⟨hiff, ?_⟩
  intro ch hmem hpool
  cases hl : (convertToCtx poolID chnls states).Linear.lookup ch.ChnlPH with
  | none => rfl
  | some v =>
    obtain ⟨d, hd, hph, hne, -⟩ := (hiff ch.ChnlPH v).mp hl
    have hdc : d = ch := by
      by_contra hneq
      have hsymm : Symmetric (fun a b : proc.Chnl => a.ChnlPH ≠ b.ChnlPH) :=
        fun _ _ h e => h e.symm
      exact hdistinct.forall hsymm hd hmem hneq hph
    subst hdc
    exact absurd hpool.symm hne

/-- C34 (witness): for pool 101 the channel `recvr` of pool 100 is in the context with
state 10, and the channel 9 that pool 101 provides is not. -/
theorem convertToCtx_client_endpoints_witness :
    (convertToCtx 101 scenario.sndrChnls [(10, some scenario.lolli)]).Linear.lookup (PH.id 1) =
      some ([(10, some scenario.lolli)].lookup scenario.recvrChnl.StateID).join ∧
    (convertToCtx 101 scenario.sndrChnls [(10, some scenario.lolli)]).Linear.lookup (PH.id 9) =
      none :=
  have h := convertToCtx_client_endpoints 101 scenario.sndrChnls [(10, some scenario.lolli)]
    (by decide)
  ⟨(h.1 (PH.id 1) _).mpr ⟨scenario.recvrChnl, by decide, rfl, by decide, rfl⟩,
   h.2 { ChnlPH := PH.id 9, ChnlID := 9, StateID := 11, PoolID := 101 } (by decide) rfl⟩

/-- Setting the first element of a revision array whose `revs[procRev]` holds a revision
changes `revs[procRev]` and no other subscript, and keeps the length. -/
theorem pgElem_set_procRev (revs : List Rev) (rev v : Rev)
    (h : pgElem revs procRev = some rev) :
    pgElem (revs.set 0 v) procRev = some v ∧
    (revs.set 0 v).length = revs.length ∧
    ∀ k, k ≠ procRev → pgElem (revs.set 0 v) k = pgElem revs k := by
  cases revs with
  | nil => simp [pgElem, procRev] at h
  | cons a rest =>
    refine ⟨by simp [pgElem, procRev], by simp, ?_⟩
    intro k hk
    simp only [procRev] at hk
    rcases k with _ | _ | k
    · simp [pgElem]
    · exact absurd rfl hk
    · simp [pgElem]

/-- `errors.Join` returns nil exactly when both errors are nil. -/
theorem errorsJoin_eq_none (a b : Option JoinErr) :
    errorsJoin a b = none ↔ a = none ∧ b = none := by
  cases a <;> cases b <;> simp [errorsJoin]

/-- The errors wrapped by `errors.Join(a, b)` are those of `a` followed by those of `b`. -/
theorem errorsJoin_leaves (a b : Option JoinErr) :
    ((errorsJoin a b).map JoinErr.leaves).getD [] =
      (a.map JoinErr.leaves).getD [] ++ (b.map JoinErr.leaves).getD [] := by
  cases a <;> cases b <;> simp [errorsJoin, JoinErr.leaves]

/-- `UpdateProc` on a mod with one lock. When `Exec` reports no error, every row that the
`where` clause selects gets its `revs[procRev]` advanced; otherwise the table is left as it
is. The value returned by the section `// roots` is `errOptimisticUpdate` unless `Exec`
reported no error and some row was affected, and it is then joined with the results of the
three deferred `Close()` calls. -/
theorem updateProc_single (driver : Driver) (rows : List Root) (lock : proc.Lock)
    (bnds : List proc.Bnd) (steps : List step.Root) (liabs : List proc.Liab) :
    UpdateProc driver rows
        { Locks := [lock], Bnds := bnds, Steps := steps, Liabs := liabs } =
      (match driver.rootExec 0 with
       | some _ => rows
       | none =>
         rows.map (fun row =>
           if updateRootHits lock.PoolID lock.Rev procRev row then
             { row with Revs := row.Revs.set 0 (lock.Rev + 1) }
           else row),
       errorsJoin
         (errorsJoin
           (errorsJoin
             ((if driver.rootExec 0 = none ∧
                   (rows.filter (updateRootHits lock.PoolID lock.Rev procRev)).length ≠ 0
               then none else some (Err.errOptimisticUpdate lock.Rev)).map JoinErr.leaf)
             (driver.rootClose.map JoinErr.leaf))
           (driver.bndCloseAgain.map JoinErr.leaf))
         (driver.bndClose.map JoinErr.leaf)) := by
  cases h : driver.rootExec 0 with
  | some e => simp [UpdateProc, rootBatch, rootResults, h]
  | none =>
    simp only [UpdateProc, rootBatch, rootResults, updateRoot, h, true_and]
    by_cases h0 : (rows.filter (updateRootHits lock.PoolID lock.Rev procRev)).length = 0
    · rw [if_pos h0, if_neg (fun hn => hn h0)]
      rfl
    · rw [if_neg h0, if_pos h0]
      rfl

/-- After the statement `updateRoot` has run for a lock, no row satisfies its `where` clause
any more. -/
theorem updateRoot_no_hit_after (rows : List Root) (lock : proc.Lock) :
    ∀ row ∈ rows.map (fun row =>
        if updateRootHits lock.PoolID lock.Rev procRev row then
          { row with Revs := row.Revs.set 0 (lock.Rev + 1) }
        else row),
      updateRootHits lock.PoolID lock.Rev procRev row = false := by
  intro row hrow
  simp only [List.mem_map] at hrow
  obtain ⟨r, -, rfl⟩ := hrow
  by_cases hr : updateRootHits lock.PoolID lock.Rev procRev r = true
  · simp only [hr, if_true]
    simp only [updateRootHits, Bool.and_eq_true, decide_eq_true_eq] at hr
    have := (pgElem_set_procRev r.Revs lock.Rev (lock.Rev + 1) hr.2).1
    simp only [updateRootHits, this, Bool.and_eq_false_imp, decide_eq_true_eq,
      decide_eq_false_iff_not, Option.some.injEq]
    intro _ h
    have h' : lock.Rev + 1 = lock.Rev := h
    linarith
  · simp only [Bool.not_eq_true] at hr
    simp [hr]

/-- C32: optimistic update is a compare-and-set on the slot `revs[procRev]`. For a mod with
the one lock `Lock{PoolID, Rev}` and every answer of the driver: `UpdateProc` returns nil
exactly when the driver reports no error and a row of the pool has `revs[procRev] = Rev`;
when no row has, the table is unchanged and the error returned wraps `OptimisticUpdate(Rev)`
first (followed by the errors of the deferred `Close()` calls, if any); when `Exec` reports
no error, the table after the call is the old one with `revs[procRev]` of the selected rows
set to `Rev + 1`, and no other subscript, no length and no other row changes. Hence, with a
driver that reports no error and a lock that matches the pool's current revision, of two
commits that carry the lock and are applied one after the other the first succeeds and the
second changes nothing and returns an error that wraps `OptimisticUpdate(Rev)` only. -/
theorem updateProc_compare_and_set
    (driver driver2 : Driver) (rows : List Root) (lock : proc.Lock) (bnds : List proc.Bnd)
    (steps : List step.Root) (liabs : List proc.Liab) :
    ((UpdateProc driver rows
          { Locks := [lock], Bnds := bnds, Steps := steps, Liabs := liabs }).2 = none ↔
      (driver.rootExec 0 = none ∧ driver.rootClose = none ∧ driver.bndCloseAgain = none ∧
        driver.bndClose = none) ∧
      ∃ row ∈ rows, row.PoolID = lock.PoolID ∧ pgElem row.Revs procRev = some lock.Rev) ∧
    ((¬ ∃ row ∈ rows, row.PoolID = lock.PoolID ∧ pgElem row.Revs procRev = some lock.Rev) →
      (UpdateProc driver rows
          { Locks := [lock], Bnds := bnds, Steps := steps, Liabs := liabs }).1 = rows ∧
      (UpdateProc driver rows
          { Locks := [lock], Bnds := bnds, Steps := steps, Liabs := liabs }).2.map
          JoinErr.leaves =
        some (Err.errOptimisticUpdate lock.Rev ::
          (driver.rootClose.toList ++ driver.bndCloseAgain.toList ++
            driver.bndClose.toList))) ∧
    (driver.rootExec 0 = none →
      (UpdateProc driver rows
          { Locks := [lock], Bnds := bnds, Steps := steps, Liabs := liabs }).1 =
        rows.map (fun row =>
          if row.PoolID = lock.PoolID ∧ pgElem row.Revs procRev = some lock.Rev then
            { row with Revs := row.Revs.set 0 (lock.Rev + 1) }
          else row)) ∧
    (∀ row ∈ rows, row.PoolID = lock.PoolID → pgElem row.Revs procRev = some lock.Rev →
      pgElem (row.Revs.set 0 (lock.Rev + 1)) procRev = some (lock.Rev + 1) ∧
      (row.Revs.set 0 (lock.Rev + 1)).length = row.Revs.length ∧
      ∀ k, k ≠ procRev → pgElem (row.Revs.set 0 (lock.Rev + 1)) k = pgElem row.Revs k) ∧
    ((driver.rootExec 0 = none ∧ driver.rootClose = none ∧ driver.bndCloseAgain = none ∧
        driver.bndClose = none) →
      (driver2.rootExec 0 = none ∧ driver2.rootClose = none ∧
        driver2.bndCloseAgain = none ∧ driver2.bndClose = none) →
      (∃ row ∈ rows, row.PoolID = lock.PoolID ∧ pgElem row.Revs procRev = some lock.Rev) →
      (UpdateProc driver rows
          { Locks := [lock], Bnds := bnds, Steps := steps, Liabs := liabs }).2 = none ∧
      UpdateProc driver2
          (UpdateProc driver rows
            { Locks := [lock], Bnds := bnds, Steps := steps, Liabs := liabs }).1
          { Locks := [lock], Bnds := bnds, Steps := steps, Liabs := liabs } =
        ((UpdateProc driver rows
            { Locks := [lock], Bnds := bnds, Steps := steps, Liabs := liabs }).1,
         some (.wrap1 (.wrap1 (.wrap1 (.leaf (.errOptimisticUpdate lock.Rev))))))) := by
  have hhit : ∀ row : Root, updateRootHits lock.PoolID lock.Rev procRev row = true ↔
      (row.PoolID = lock.PoolID ∧ pgElem row.Revs procRev = some lock.Rev) := by
    intro row
    simp [updateRootHits]
  have hlen : ∀ rs : List Root,
      (rs.filter (updateRootHits lock.PoolID lock.Rev procRev)).length = 0 ↔
      ¬ ∃ row ∈ rs, row.PoolID = lock.PoolID ∧ pgElem row.Revs procRev = some lock.Rev := by
    intro rs
    rw [List.length_eq_zero, List.filter_eq_nil_iff]
    constructor
    · rintro h ⟨row, hmem, hp⟩
      exact h row hmem ((hhit row).mpr hp)
    · intro h row hmem hp
      exact h ⟨row, hmem, (hhit row).mp hp⟩
  have hmapid : ∀ rs : List Root,
      (¬ ∃ row ∈ rs, row.PoolID = lock.PoolID ∧ pgElem row.Revs procRev = some lock.Rev) →
      rs.map (fun row =>
          if updateRootHits lock.PoolID lock.Rev procRev row then
            { row with Revs := row.Revs.set 0 (lock.Rev + 1) }
          else row) = rs := by
    intro rs hno
    conv_rhs => rw [← List.map_id rs]
    apply List.map_congr_left
    intro row hmem
    have : updateRootHits lock.PoolID lock.Rev procRev row = false := by
      cases hb : updateRootHits lock.PoolID lock.Rev procRev row with
      | false => rfl
      | true => exact absurd ⟨row, hmem, (hhit row).mp hb⟩ hno
    simp [this]
  have hsucc : (UpdateProc driver rows
        { Locks := [lock], Bnds := bnds, Steps := steps, Liabs := liabs }).2 = none ↔
      (driver.rootExec 0 = none ∧ driver.rootClose = none ∧ driver.bndCloseAgain = none ∧
        driver.bndClose = none) ∧
      ∃ row ∈ rows, row.PoolID = lock.PoolID ∧ pgElem row.Revs procRev = some lock.Rev := by
    rw [updateProc_single]
    simp only [errorsJoin_eq_none, Option.map_eq_none']
    constructor
    · rintro ⟨⟨⟨hif, hrc⟩, hbca⟩, hbc⟩
      by_cases hc : driver.rootExec 0 = none ∧
          (rows.filter (updateRootHits lock.PoolID lock.Rev procRev)).length ≠ 0
      · refine ⟨⟨hc.1, hrc, hbca, hbc⟩, ?_⟩
        by_contra hne
        exact hc.2 ((hlen rows).mpr hne)
      · rw [if_neg hc] at hif
        cases hif
    · rintro ⟨⟨he, hrc, hbca, hbc⟩, hex⟩
      refine ⟨⟨⟨?_, hrc⟩, hbca⟩, hbc⟩
      rw [if_pos ⟨he, fun h0 => (hlen rows).mp h0 hex⟩]
  refine ⟨hsucc, ?_, ?_, ?_, ?_⟩
  · intro hno
    rw [updateProc_single]
    constructor
    · cases driver.rootExec 0 with
      | some e => rfl
      | none => exact hmapid rows hno
    · have hif : ¬ (driver.rootExec 0 = none ∧
          (rows.filter (updateRootHits lock.PoolID lock.Rev procRev)).length ≠ 0) :=
        fun hc => hc.2 ((hlen rows).mpr hno)
      simp only [if_neg hif]
      cases driver.rootClose <;> cases driver.bndCloseAgain <;> cases driver.bndClose <;> rfl
  · intro he
    rw [updateProc_single]
    simp only [he]
    apply List.map_congr_left
    intro row _
    by_cases hp : row.PoolID = lock.PoolID ∧ pgElem row.Revs procRev = some lock.Rev
    · simp [(hhit row).mpr hp, hp]
    · have : updateRootHits lock.PoolID lock.Rev procRev row = false := by
        cases hb : updateRootHits lock.PoolID lock.Rev procRev row with
        | false => rfl
        | true => exact absurd ((hhit row).mp hb) hp
      simp [this, hp]
  · intro row _ _ hrev
    exact pgElem_set_procRev row.Revs lock.Rev (lock.Rev + 1) hrev
  · rintro hq ⟨he2, hrc2, hbca2, hbc2⟩ hex
    refine ⟨hsucc.mpr ⟨hq, hex⟩, ?_⟩
    rw [updateProc_single driver rows]
    rw [updateProc_single]
    simp only [hq.1, he2, hrc2, hbca2, hbc2]
    have hnone := updateRoot_no_hit_after rows lock
    have hno : ¬ ∃ row ∈ rows.map (fun row =>
          if updateRootHits lock.PoolID lock.Rev procRev row then
            { row with Revs := row.Revs.set 0 (lock.Rev + 1) }
          else row),
        row.PoolID = lock.PoolID ∧ pgElem row.Revs procRev = some lock.Rev := by
      rintro ⟨row, hmem, hp⟩
      have := hnone row hmem
      rw [(hhit row).mpr hp] at this
      cases this
    have hif : ¬ (True ∧ (List.filter (updateRootHits lock.PoolID lock.Rev procRev)
        (rows.map (fun row =>
          if updateRootHits lock.PoolID lock.Rev procRev row then
            { row with Revs := row.Revs.set 0 (lock.Rev + 1) }
          else row))).length ≠ 0) :=
      fun hc => hc.2 ((hlen _).mpr hno)
    rw [hmapid _ hno]
    simp only [eq_self_iff_true, if_neg hif]
    rfl

/-- With a lock that the pool has already left behind (pool 100 at revision 4,
`Lock{100, 3}`), each of two commits returns `OptimisticUpdate`. -/
theorem updateProc_stale_lock :
    UpdateProc scenario.quietDriver scenario.poolRowsAfter scenario.lockMod =
      (scenario.poolRowsAfter,
       some (.wrap1 (.wrap1 (.wrap1 (.leaf (.errOptimisticUpdate 3)))))) ∧
    UpdateProc scenario.quietDriver
        (UpdateProc scenario.quietDriver scenario.poolRowsAfter scenario.lockMod).1
        scenario.lockMod =
      (scenario.poolRowsAfter,
       some (.wrap1 (.wrap1 (.wrap1 (.leaf (.errOptimisticUpdate 3)))))) :=
  ⟨by decide, by decide⟩

/-- The driver's errors in the result of `UpdateProc`, for a lock that matches: an error of
`rootRes.Exec()` is only logged and the zero command tag then gives `OptimisticUpdate` with
the table unchanged; an error of `rootRes.Close()` is returned although the row was
updated. For a lock that does not match, an error of `bndRes.Close()` is joined to
`OptimisticUpdate`. -/
theorem updateProc_driver_errors :
    UpdateProc { scenario.quietDriver with rootExec := fun _ => some (.portErr "conn") }
        scenario.poolRows scenario.lockMod =
      (scenario.poolRows,
       some (.wrap1 (.wrap1 (.wrap1 (.leaf (.errOptimisticUpdate 3)))))) ∧
    UpdateProc { scenario.quietDriver with rootClose := some (.portErr "conn") }
        scenario.poolRows scenario.lockMod =
      (scenario.poolRowsAfter, some (.wrap1 (.wrap1 (.wrap1 (.leaf (.portErr "conn")))))) ∧
    UpdateProc { scenario.quietDriver with bndClose := some (.portErr "conn") }
        scenario.poolRowsAfter scenario.lockMod =
      (scenario.poolRowsAfter,
       some (.wrap2 (.wrap1 (.wrap1 (.leaf (.errOptimisticUpdate 3))))
         (.leaf (.portErr "conn")))) :=
  ⟨by decide, by decide, by decide⟩

/-- C32 (witness): `Lock{100, 3}` on a table with pool 100 at `[3, 9]` and pool 200 at
`[3]`, the driver reporting no error: the first commit advances pool 100 to `[4, 9]`, the
second returns the error that wraps `OptimisticUpdate(3)`. -/
theorem updateProc_compare_and_set_witness :
    UpdateProc scenario.quietDriver scenario.poolRows scenario.lockMod =
      (scenario.poolRowsAfter, none) ∧
    ((UpdateProc scenario.quietDriver scenario.poolRows scenario.lockMod).2 = none ∧
     UpdateProc scenario.quietDriver
         (UpdateProc scenario.quietDriver scenario.poolRows scenario.lockMod).1
         scenario.lockMod =
       ((UpdateProc scenario.quietDriver scenario.poolRows scenario.lockMod).1,
        some (.wrap1 (.wrap1 (.wrap1 (.leaf (.errOptimisticUpdate 3))))))) :=
  ⟨by decide,
   (updateProc_compare_and_set scenario.quietDriver scenario.quietDriver scenario.poolRows
      { PoolID := 100, Rev := 3 } [] [] []).2.2.2.2
     ⟨rfl, rfl, rfl, rfl⟩ ⟨rfl, rfl, rfl, rfl⟩
     ⟨{ PoolID := 100, Title := "pool-1", SupID := idNil, Revs := [3, 9] }, by decide,
      rfl, rfl⟩⟩
end pool

end Orglang
